import Mathlib

/-!
# repousse: the Game of Life driver and its companions

A shallow embedding of `src/day4/main.cc` (`golSimBuffer`, `golSimTexture`,
`genInitialGrid`, `writeToCsv`) with the properties of the generation loop, the read-back,
the storage pair and the dispatch geometry, and of the parts of days 2, 3, 5 and 6 the
properties refer to (`numGroups` of the convolution and of the matrix multiply, the
constructor of `MetalObjects`, `saveBarcode`).

Conventions of the embedding.

* `GRID_WIDTH` and `GRID_HEIGHT` are compile-time constants of the source (both 512).
  The definitions take them as their first two arguments, so that a statement can be made
  for every grid size; `GRID_WIDTH_src` and `GRID_HEIGHT_src` are the values of the source.
* A `grid` (`std::vector<uint32_t>`) is the list of its cells in index order.
* The accelerator is a parameter (`Device`): what a committed command buffer leaves in the
  storage bound at slot 1, and the status it ends in. The host code never reads the status.
* The observation hook `frameSaver` returns nothing and cannot change the grid it is handed
  (`const grid&`), so a run records the calls made to it, in order.
* A run whose behaviour the language leaves undefined (a copy past the end of a buffer, a
  read past the end of the seed vector, a signed overflow) is `none`, or `undefined` where
  a call can also end with an exception.
* Unsigned arithmetic is taken modulo `2^32` (`unsigned int`) or `2^64` (`size_t`).
-/

namespace Repousse

/-! ## Data model -/

/-- The type `grid` of the source, `std::vector<uint32_t>`: the cells in index order. -/
abbrev grid := List Nat

/-- The value of `GRID_WIDTH` in the source. -/
def GRID_WIDTH_src : Nat := 512

/-- The value of `GRID_HEIGHT` in the source. -/
def GRID_HEIGHT_src : Nat := 512

/-- The number of values of a `uint16_t`. -/
def UINT16_RANGE : Nat := 65536

/-- The expression `GRID_WIDTH * GRID_HEIGHT`: both `uint16_t` operands are promoted to
`int`, and a product that does not fit `int` is undefined. -/
def gridCells (GRID_WIDTH GRID_HEIGHT : Nat) : Option Nat :=
  if GRID_WIDTH * GRID_HEIGHT < 2 ^ 31 then some (GRID_WIDTH * GRID_HEIGHT) else none

/-- A value-initialised vector `grid v(n)`: `n` cells, all zero. -/
def gridZeros (n : Nat) : grid := List.replicate n 0

/-- The call `std::copy(src, src + n, dst)` on two ranges that hold at least `n` cells: the
first `n` cells of `dst` become those of `src`, the others keep their value. -/
def copyCells (src : grid) (n : Nat) (dst : grid) : grid :=
  src.take n ++ dst.drop n

/-- What the host finds after `commit(); waitUntilCompleted();`: the contents of the storage
that was bound at slot 1, and whether the command buffer completed without a device error. -/
structure Completion where
  /-- Contents of the slot-1 storage after the dispatch. -/
  written : grid
  /-- The status of the command buffer: `true` for completed, `false` for a device error. -/
  ok : Bool

/-- The accelerator as the host sees it. `fresh h k` is cell `k` of a newly allocated storage
(`h = false` for the storage allocated first, `true` for the second). `execute i rd wr` is
the outcome of the dispatch of loop iteration `i` with a storage holding `rd` bound at
slot 0 and one holding `wr` bound at slot 1. -/
structure Device where
  /-- Initial contents of the two storages. -/
  fresh : Bool → Nat → Nat
  /-- Outcome of one committed dispatch. -/
  execute : Nat → grid → grid → Completion

/-- The calls `newBuffer(bufferSize, ...)` and `newTexture(pTextureDesc)`: a storage of
`cells` cells. -/
def newStorage (dev : Device) (h : Bool) (cells : Nat) : grid :=
  (List.range cells).map (dev.fresh h)

/-- An accelerator on which every dispatch completes and leaves `K rd` in the slot-1 storage,
where `rd` is the contents of the slot-0 storage: `K` is the one-generation kernel. -/
def kernelDevice (K : grid → grid) (fresh : Bool → Nat → Nat) : Device :=
  { fresh := fresh, execute := fun _ rd _ => { written := K rd, ok := true } }

/-- One call `frameSaver(frameGrid, i + 1)`. -/
structure HookCall where
  /-- The grid handed to the hook. -/
  snapshot : grid
  /-- The generation index handed to the hook. -/
  index : Nat
  deriving DecidableEq, Repr

/-- The local state of `golSimBuffer` and of `golSimTexture` inside the generation loop. -/
structure SimState where
  /-- Contents of the storage allocated first. -/
  storage0 : grid
  /-- Contents of the storage allocated second. -/
  storage1 : grid
  /-- The handle `pReadBuffer` (`pReadTexture`): `false` names the storage allocated first. -/
  pRead : Bool
  /-- The handle `pWriteBuffer` (`pWriteTexture`). -/
  pWrite : Bool
  /-- The host vector `frameGrid`. -/
  frameGrid : grid
  /-- The calls made to `frameSaver` so far, oldest first. -/
  calls : List HookCall
  /-- The loop counter `i`, a `uint16_t`. -/
  i : Nat
  deriving DecidableEq, Repr

/-- The contents of the storage a handle names. -/
def SimState.contents (st : SimState) (h : Bool) : grid :=
  if h then st.storage1 else st.storage0

/-- Replace the contents of the storage a handle names. -/
def SimState.store (st : SimState) (h : Bool) (g : grid) : SimState :=
  if h then { st with storage1 := g } else { st with storage0 := g }

/-! ## The generation loop -/

/-- The statements of one loop iteration up to `waitUntilCompleted()`: the storage named by
`pRead` is bound at slot 0, the one named by `pWrite` at slot 1, and the dispatch runs. The
status of the command buffer is not read. -/
def dispatch (dev : Device) (st : SimState) : SimState :=
  st.store st.pWrite (dev.execute st.i (st.contents st.pRead) (st.contents st.pWrite)).written

/-- The statement `std::swap(pReadBuffer, pWriteBuffer)`. -/
def swap (st : SimState) : SimState :=
  { st with pRead := st.pWrite, pWrite := st.pRead }

/-- The read-back into `frameGrid` of the first `count` cells of the storage `pRead` names. -/
def readBack (count : Nat) (st : SimState) : SimState :=
  { st with frameGrid := copyCells (st.contents st.pRead) count st.frameGrid }

/-- The statement `if (frameSaver) frameSaver(frameGrid, i + 1);`. The sum `i + 1` is an
`int`; it is converted to the `uint16_t` parameter of the hook. -/
def callHook (frameSaver : Bool) (st : SimState) : SimState :=
  if frameSaver then
    { st with calls := st.calls ++ [{ snapshot := st.frameGrid, index := (st.i + 1) % UINT16_RANGE }] }
  else st

/-- The increment `++i` of the `uint16_t` counter. -/
def increment (st : SimState) : SimState :=
  { st with i := (st.i + 1) % UINT16_RANGE }

/-- One iteration of the loop `for (uint16_t i = 0; i < generations; ++i)`, with its
increment: dispatch, swap, read-back of `count` cells, hook. -/
def generation (dev : Device) (count : Nat) (frameSaver : Bool) (st : SimState) : SimState :=
  increment (callHook frameSaver (readBack count (swap (dispatch dev st))))

/-- The loop `for (uint16_t i = 0; i < generations; ++i)`, run for at most `fuel` tests of
its condition; `none` when the fuel does not reach the exit. -/
def generationLoop (dev : Device) (count : Nat) (frameSaver : Bool) (generations : Nat) :
    Nat → SimState → Option SimState
  | 0, _ => none
  | fuel + 1, st =>
    if st.i < generations then
      generationLoop dev count frameSaver generations fuel (generation dev count frameSaver st)
    else some st

/-- The state on entry to the loop. -/
def entryState (storage0 storage1 : grid) (cells : Nat) : SimState :=
  { storage0 := storage0, storage1 := storage1, pRead := false, pWrite := true,
    frameGrid := gridZeros cells, calls := [], i := 0 }

/-- The function `golSimBuffer` (lines 52 to 117), once the device, the library, the
pipeline state and the queue of lines 56 to 71 are set up. The seed is copied to the start
of the first buffer (undefined when it is longer than the buffer); each read-back copies
`initialGrid.size()` cells; the state returned holds the returned vector in `frameGrid`. -/
def golSimBuffer (GRID_WIDTH GRID_HEIGHT : Nat) (dev : Device) (initialGrid : grid)
    (generations : Nat) (frameSaver : Bool) : Option SimState :=
  match gridCells GRID_WIDTH GRID_HEIGHT with
  | none => none
  | some cells =>
    if initialGrid.length ≤ cells then
      (generationLoop dev initialGrid.length frameSaver generations UINT16_RANGE
        (entryState (copyCells initialGrid initialGrid.length (newStorage dev false cells))
          (newStorage dev true cells) cells)).map (readBack initialGrid.length)
    else none

/-- The function `golSimTexture` (lines 119 to 186), once the device, the library and the
pipeline state of lines 123 to 137 are set up. `replaceRegion` reads
`GRID_WIDTH * GRID_HEIGHT` cells from the seed vector (undefined when it is shorter); each
`getBytes` reads the whole region back. -/
def golSimTexture (GRID_WIDTH GRID_HEIGHT : Nat) (dev : Device) (initialGrid : grid)
    (generations : Nat) (frameSaver : Bool) : Option SimState :=
  match gridCells GRID_WIDTH GRID_HEIGHT with
  | none => none
  | some cells =>
    if cells ≤ initialGrid.length then
      (generationLoop dev cells frameSaver generations UINT16_RANGE
        (entryState (copyCells initialGrid cells (newStorage dev false cells))
          (newStorage dev true cells) cells)).map (readBack cells)
    else none

/-! ## Dispatch geometry -/

/-- The sum of two `int` values; `none` when it does not fit `int`. -/
def intAdd (a b : Nat) : Option Nat :=
  if a + b < 2 ^ 31 then some (a + b) else none

/-- The value `MTL::Size((GRID_WIDTH + 15) / 16, (GRID_HEIGHT + 15) / 16, 1)` of `numGroups`
(lines 81 and 153): the `uint16_t` operands are promoted to `int`, the division is the
integer division. -/
def numGroups (GRID_WIDTH GRID_HEIGHT : Nat) : Option (Nat × Nat × Nat) :=
  match intAdd GRID_WIDTH 15, intAdd GRID_HEIGHT 15 with
  | some w, some h => some (w / 16, h / 16, 1)
  | _, _ => none

/-- The value `MTL::Size(16, 16, 1)` of `threadsPerThreadgroup`. -/
def threadsPerThreadgroup : Nat × Nat × Nat := (16, 16, 1)

/-! ## The kernel -/

/-- The cell value DEAD: the 0 that `genInitialGrid` writes (line 48). -/
def DEAD : Nat := 0

/-- The cell value ALIVE: the 1 that `genInitialGrid` writes (line 48). -/
def ALIVE : Nat := 1

/-- Modelled from the spec: the kernel sources (`gol_buffer.metal`, `gol_texture.metal`) are
missing. The displacements to the eight neighbours of a cell, each component shifted by one:
`(a, b)` stands for the displacement `(a - 1, b - 1)`. -/
def neighbourOffsets : List (Nat × Nat) :=
  [(0, 0), (1, 0), (2, 0), (0, 1), (2, 1), (0, 2), (1, 2), (2, 2)]

/-- Modelled from the spec: the kernel sources are missing. The lookup of the neighbour of
`(x, y)` at displacement `(a - 1, b - 1)` in a row-major `W` by `H` grid; a lookup out of
bounds is dead. -/
def neighbourAt (W H : Nat) (cur : grid) (x y : Nat) (d : Nat × Nat) : Nat :=
  if 1 ≤ x + d.1 ∧ x + d.1 ≤ W ∧ 1 ≤ y + d.2 ∧ y + d.2 ≤ H then
    cur.getD ((y + d.2 - 1) * W + (x + d.1 - 1)) DEAD
  else DEAD

/-- Modelled from the spec: the kernel sources are missing. The number of ALIVE cells among
the eight neighbours of `(x, y)`. -/
def liveNeighbours (W H : Nat) (cur : grid) (x y : Nat) : Nat :=
  neighbourOffsets.countP (fun d => neighbourAt W H cur x y d = ALIVE)

/-- Modelled from the spec: the kernel sources are missing. The rule of Life: a live cell
with 2 or 3 live neighbours survives, a dead cell with exactly 3 live neighbours is born,
every other cell is dead. -/
def lifeRule (cell n : Nat) : Nat :=
  if cell = ALIVE then (if n = 2 ∨ n = 3 then ALIVE else DEAD)
  else (if n = 3 then ALIVE else DEAD)

/-- Modelled from the spec: the kernel sources are missing. One generation: the contents of
the next-state storage after the kernel has run over the current-state storage `cur` of a
`W` by `H` grid, cell `y * W + x` holding the rule applied to cell `(x, y)`. -/
def golKernel (W H : Nat) (cur : grid) : grid :=
  (List.range (W * H)).map
    (fun idx => lifeRule (cur.getD idx DEAD) (liveNeighbours W H cur (idx % W) (idx / W)))

/-- The `W` by `H` grid whose ALIVE cells are the cells `(x, y)` of the list `alive`. -/
def gridWith (W H : Nat) (alive : List (Nat × Nat)) : grid :=
  (List.range (W * H)).map (fun idx => if (idx % W, idx / W) ∈ alive then ALIVE else DEAD)

/-- The seed of the glider scenario: the 8 by 8 grid, row by row, whose ALIVE cells are
`(x, y) = (2, 1), (3, 2), (1, 3), (2, 3), (3, 3)`. -/
def gliderSeed : grid :=
  [0, 0, 0, 0, 0, 0, 0, 0,
   0, 0, 1, 0, 0, 0, 0, 0,
   0, 0, 0, 1, 0, 0, 0, 0,
   0, 1, 1, 1, 0, 0, 0, 0,
   0, 0, 0, 0, 0, 0, 0, 0,
   0, 0, 0, 0, 0, 0, 0, 0,
   0, 0, 0, 0, 0, 0, 0, 0,
   0, 0, 0, 0, 0, 0, 0, 0]

/-- The glider moved by `(+1, +1)`: the 8 by 8 grid, row by row, whose ALIVE cells are
`(x, y) = (3, 2), (4, 3), (2, 4), (3, 4), (4, 4)`. -/
def gliderShifted : grid :=
  [0, 0, 0, 0, 0, 0, 0, 0,
   0, 0, 0, 0, 0, 0, 0, 0,
   0, 0, 0, 1, 0, 0, 0, 0,
   0, 0, 0, 0, 1, 0, 0, 0,
   0, 0, 1, 1, 1, 0, 0, 0,
   0, 0, 0, 0, 0, 0, 0, 0,
   0, 0, 0, 0, 0, 0, 0, 0,
   0, 0, 0, 0, 0, 0, 0, 0]

/-- The number of tiles of a dispatch: the product of the three threadgroup counts. -/
def tileCount (groups : Nat × Nat × Nat) : Nat :=
  groups.1 * groups.2.1 * groups.2.2

/-- An accelerator on which every dispatch fails: it leaves the slot-1 storage as it was
and reports a device error. Fresh storages are filled with zeros. -/
def faultyDevice : Device :=
  { fresh := fun _ _ => 0, execute := fun _ _ wr => { written := wr, ok := false } }

/-- The grid of `n` cells that are all ALIVE. -/
def gridOnes (n : Nat) : grid := List.replicate n 1

/-- An accelerator that runs the kernel `K` on zero-filled storages and reports a device
error on the dispatch of loop iteration `i` whenever `fails i`. -/
def reportingDevice (K : grid → grid) (fails : Nat → Bool) : Device :=
  { fresh := fun _ _ => 0, execute := fun i rd _ => { written := K rd, ok := !fails i } }

/-- What the hook and the caller can see of a state, together with the storage the next
dispatch reads. -/
def SimState.view (st : SimState) : grid × grid × List HookCall × Nat :=
  (st.contents st.pRead, st.frameGrid, st.calls, st.i)

/-- An accelerator whose dispatches leave `N` cells in the storage bound at slot 1: the
storages of a run have a fixed size. -/
def Device.WellFormed (dev : Device) (N : Nat) : Prop :=
  ∀ i rd wr, (dev.execute i rd wr).written.length = N

/-- The state of `golSimBuffer` on entry to the loop (lines 73 to 82): two buffers of
`GRID_WIDTH * GRID_HEIGHT` cells, the seed copied to the start of the first one, `frameGrid`
value-initialised; undefined when the seed is longer than the buffer. -/
def ingestBuffer (GRID_WIDTH GRID_HEIGHT : Nat) (dev : Device) (initialGrid : grid) :
    Option SimState :=
  match gridCells GRID_WIDTH GRID_HEIGHT with
  | none => none
  | some cells =>
    if initialGrid.length ≤ cells then
      some (entryState (copyCells initialGrid initialGrid.length (newStorage dev false cells))
        (newStorage dev true cells) cells)
    else none

/-- The state of `golSimTexture` on entry to the loop (lines 146 to 154): two textures of
`GRID_WIDTH` by `GRID_HEIGHT` cells, the first one filled by `replaceRegion` from the seed
vector; undefined when the seed is shorter than the region. -/
def ingestTexture (GRID_WIDTH GRID_HEIGHT : Nat) (dev : Device) (initialGrid : grid) :
    Option SimState :=
  match gridCells GRID_WIDTH GRID_HEIGHT with
  | none => none
  | some cells =>
    if cells ≤ initialGrid.length then
      some (entryState (copyCells initialGrid cells (newStorage dev false cells))
        (newStorage dev true cells) cells)
    else none

/-- The sizes a run keeps: both storages and `frameGrid` hold `N` cells, the two handles
name different storages, and every snapshot handed to the hook holds `N` cells. -/
def SimState.Shaped (N : Nat) (st : SimState) : Prop :=
  st.storage0.length = N ∧ st.storage1.length = N ∧ st.frameGrid.length = N ∧
    st.pWrite = !st.pRead ∧ ∀ c ∈ st.calls, c.snapshot.length = N

/-- The cells from index `s` on are zero, in `frameGrid` and in every snapshot handed to the
hook, for grids of `N` cells. -/
def SimState.ZeroTail (s N : Nat) (st : SimState) : Prop :=
  st.frameGrid.drop s = List.replicate (N - s) 0 ∧
    ∀ c ∈ st.calls, c.snapshot.drop s = List.replicate (N - s) 0

/-! ## Setup of the backend -/

/-- The exceptions the setup code throws: `std::runtime_error` for a library that is not
found (day 4, lines 62 to 64 and 130 to 132; day 5, lines 84 to 86) and for a pipeline error
(day 5 only, lines 94 to 96). -/
inductive SetupError where
  | libraryNotFound
  | pipelineError
  deriving DecidableEq, Repr

/-- What the setup calls return on the machine a driver runs on: whether
`MTL::CreateSystemDefaultDevice()`, `newLibrary` and `newComputePipelineState` return a
non-null object, and the accelerator that executes the dispatches. -/
structure Platform where
  /-- The device is not null. -/
  hasDevice : Bool
  /-- The library is not null. -/
  hasLibrary : Bool
  /-- The pipeline state is not null (no error is reported for it). -/
  hasPipeline : Bool
  /-- The accelerator behind the command queue. -/
  device : Device

/-- How a call of a driver ends: with an exception, with behaviour the language leaves
undefined, or with the state that holds the returned grid. -/
inductive Outcome where
  | threw (e : SetupError)
  | undefined
  | returned (st : SimState)

/-- How the constructor of `MetalObjects` ends. -/
inductive SetupOutcome where
  | threw (e : SetupError)
  | undefined
  | constructed
  deriving DecidableEq, Repr

/-- The whole of `golSimBuffer` (lines 52 to 117). The device is used without a test
(line 58: a member call through a null pointer when there is none); a null library throws
(lines 62 to 64); the pipeline state is never tested; no argument is validated. -/
def golSimBufferWithSetup (GRID_WIDTH GRID_HEIGHT : Nat) (p : Platform) (initialGrid : grid)
    (generations : Nat) (frameSaver : Bool) : Outcome :=
  if !p.hasDevice then Outcome.undefined
  else if !p.hasLibrary then Outcome.threw SetupError.libraryNotFound
  else
    match golSimBuffer GRID_WIDTH GRID_HEIGHT p.device initialGrid generations frameSaver with
    | none => Outcome.undefined
    | some st => Outcome.returned st

/-- The whole of `golSimTexture` (lines 119 to 186), with the same setup as
`golSimBuffer`. -/
def golSimTextureWithSetup (GRID_WIDTH GRID_HEIGHT : Nat) (p : Platform) (initialGrid : grid)
    (generations : Nat) (frameSaver : Bool) : Outcome :=
  if !p.hasDevice then Outcome.undefined
  else if !p.hasLibrary then Outcome.threw SetupError.libraryNotFound
  else
    match golSimTexture GRID_WIDTH GRID_HEIGHT p.device initialGrid generations frameSaver with
    | none => Outcome.undefined
    | some st => Outcome.returned st

/-- The constructor `MetalObjects::MetalObjects` of day 5 (lines 75 to 100): the device is
used without a test, a null library throws, an error reported by
`newComputePipelineState` throws. -/
def MetalObjects_new (p : Platform) : SetupOutcome :=
  if !p.hasDevice then SetupOutcome.undefined
  else if !p.hasLibrary then SetupOutcome.threw SetupError.libraryNotFound
  else if !p.hasPipeline then SetupOutcome.threw SetupError.pipelineError
  else SetupOutcome.constructed

/-! ## The seed generator -/

/-- The `double` nearest to 0.2, the value of the literal `0.2` of line 48. -/
def DOUBLE_0_2 : ℚ := 3602879701896397 / 18014398509481984

/-- The function `genInitialGrid` (lines 41 to 50). `dis k` is the value of call number
`k` of `dis(gen)` on the generator seeded with 1337, a finite `double` and so a rational.
The product `width * height` is computed in `int`. -/
def genInitialGrid (width height : Nat) (dis : Nat → ℚ) : Option grid :=
  match gridCells width height with
  | none => none
  | some cells => some ((List.range cells).map (fun k => if dis k < DOUBLE_0_2 then 1 else 0))

/-! ## The CSV writer -/

/-- What `writeToCsv` sends to the file: a cell value printed as an `int`, the separator
`","`, the end of a line. -/
inductive CsvToken where
  | value (v : Int)
  | comma
  | newline
  deriving DecidableEq, Repr

/-- The conversion `static_cast<int>` of a `uint32_t`. -/
def toInt32 (v : Nat) : Int :=
  if v % 2 ^ 32 < 2 ^ 31 then ((v % 2 ^ 32 : Nat) : Int) else ((v % 2 ^ 32 : Nat) : Int) - 2 ^ 32

/-- The output of `writeToCsv` so far: the tokens sent to the file and the indices handed
to `g.at`, both in order. -/
structure CsvFile where
  /-- The tokens written. -/
  tokens : List CsvToken
  /-- The indices read. -/
  reads : List Nat
  deriving DecidableEq, Repr

/-- How a call of `writeToCsv` ends: the file cannot be opened (`std::runtime_error`),
`g.at` throws `std::out_of_range`, or the file is written. -/
inductive CsvResult where
  | openFailed
  | outOfRange
  | written (file : CsvFile)
  deriving DecidableEq, Repr

/-- The body of the inner loop of `writeToCsv` (line 35): the index `y * GRID_WIDTH + x` is
computed in `unsigned int`; `g.at` checks it; the separator is empty when
`x == GRID_WIDTH - 1`, the right side converted to `unsigned int`. `none` when `g.at`
throws. -/
def writeCell (GRID_WIDTH : Nat) (g : grid) (y x : Nat) (file : CsvFile) : Option CsvFile :=
  if (y * GRID_WIDTH + x) % 2 ^ 32 < g.length then
    some { tokens := file.tokens
             ++ [CsvToken.value (toInt32 (g.getD ((y * GRID_WIDTH + x) % 2 ^ 32) 0))]
             ++ (if x = (GRID_WIDTH + 2 ^ 32 - 1) % 2 ^ 32 then [] else [CsvToken.comma]),
           reads := file.reads ++ [(y * GRID_WIDTH + x) % 2 ^ 32] }
  else none

/-- The body of the outer loop of `writeToCsv` (lines 34 to 37): one row, then the end of
the line. -/
def writeRow (GRID_WIDTH : Nat) (g : grid) (y : Nat) (file : CsvFile) : Option CsvFile :=
  ((List.range GRID_WIDTH).foldlM (fun f x => writeCell GRID_WIDTH g y x f) file).map
    (fun f => { f with tokens := f.tokens ++ [CsvToken.newline] })

/-- The function `writeToCsv` (lines 28 to 39); `isOpen` tells whether the file could be
opened. -/
def writeToCsv (GRID_WIDTH GRID_HEIGHT : Nat) (isOpen : Bool) (g : grid) : CsvResult :=
  if !isOpen then CsvResult.openFailed
  else
    match (List.range GRID_HEIGHT).foldlM (fun f y => writeRow GRID_WIDTH g y f)
        { tokens := [], reads := [] } with
    | none => CsvResult.outOfRange
    | some f => CsvResult.written f

/-- One line of a CSV file in the words of the spec: the values of row `y` of a row-major
grid `width` wide, separated by commas, with no comma after the last one, then the end of
the line. -/
def csvLine (width : Nat) (g : grid) (y : Nat) : List CsvToken :=
  ((List.range width).map
      (fun x => CsvToken.value (toInt32 (g.getD (y * width + x) 0)))).intersperse
    CsvToken.comma ++ [CsvToken.newline]

/-! ## Threadgroup counts -/

/-- The ceiling division the dispatch computations share, `(n + (t - 1)) / t` for `n`
elements and threadgroups of `t` threads: `(INPUT_SIZE + 255) / 256` in day 2,
`(MATRIX_DIMENSION + 15) / 16` in day 3, `(GRID_WIDTH + 15) / 16` in day 4. -/
def groupCount (n t : Nat) : Nat := (n + (t - 1)) / t

/-- The value of `INPUT_SIZE` in day 2. -/
def INPUT_SIZE_src : Nat := 2048

/-- The value of `MATRIX_DIMENSION` in day 3. -/
def MATRIX_DIMENSION_src : Nat := 1024

/-- The value `MTL::Size((INPUT_SIZE+255)/256, 1, 1)` of `numGroups` in
`calculateConvolution` (day 2, line 145), computed in `size_t`. -/
def numGroupsConvolution (INPUT_SIZE : Nat) : Nat × Nat × Nat :=
  ((INPUT_SIZE + 255) % 2 ^ 64 / 256, 1, 1)

/-- The value of `numGroups` in `matMultiplicationMetal` (day 3, lines 88 to 90), computed
in `int`. -/
def numGroupsMatMul (MATRIX_DIMENSION : Nat) : Option (Nat × Nat × Nat) :=
  match intAdd MATRIX_DIMENSION 15 with
  | some d => some (d / 16, d / 16, 1)
  | none => none

/-! ## The barcode image -/

/-- The structure `RGBA` of day 6: four bytes. -/
structure RGBA where
  /-- Red. -/
  r : Nat
  /-- Green. -/
  g : Nat
  /-- Blue. -/
  b : Nat
  /-- Alpha. -/
  a : Nat
  deriving DecidableEq, Repr

/-- The constant `CHANNELS` of day 6. -/
def CHANNELS : Nat := 4

/-- How a call of `saveBarcode` ends: nothing is built (empty list), behaviour the language
leaves undefined, or the pixel buffer handed to `stbi_write_png` with its width and
height. -/
inductive BarcodeResult where
  | nothing
  | undefined
  | image (width height : Nat) (pixels : List Nat)
  deriving DecidableEq, Repr

/-- A loop `for (int i = 0; i < bound; ++i)` against an `unsigned int` bound. With
`bound < 2^31` it runs the body for `i = 0, ..., bound - 1`; with a larger bound the
counter would pass `INT_MAX`, which is undefined, as is a body that is undefined. -/
def forInt {σ : Type} (bound : Nat) (body : Nat → σ → Option σ) (st : σ) : Option σ :=
  if bound < 2 ^ 31 then (List.range bound).foldlM (fun s i => body i s) st else none

/-- The assignment `outputPixels[i] = v`, undefined out of bounds. -/
def writeAt (buf : List Nat) (i v : Nat) : Option (List Nat) :=
  if i < buf.length then some (buf.set i v) else none

/-- The body of the inner loop of `saveBarcode` (lines 107 to 111). The index
`(y * width + x) * CHANNELS` is computed in `unsigned int` and converted to `int`: from
`2^31` on it is negative, and the access is out of bounds. -/
def writePixel (width : Nat) (color : RGBA) (x y : Nat) (buf : List Nat) : Option (List Nat) :=
  if ((y * width + x) * CHANNELS) % 2 ^ 32 < 2 ^ 31 then
    (writeAt buf (((y * width + x) * CHANNELS) % 2 ^ 32) color.r).bind (fun b1 =>
      (writeAt b1 (((y * width + x) * CHANNELS) % 2 ^ 32 + 1) color.g).bind (fun b2 =>
        (writeAt b2 (((y * width + x) * CHANNELS) % 2 ^ 32 + 2) color.b).bind (fun b3 =>
          writeAt b3 (((y * width + x) * CHANNELS) % 2 ^ 32 + 3) color.a)))
  else none

/-- The function `saveBarcode` (lines 90 to 124) up to the call of `stbi_write_png`.
`width` is the list size as an `unsigned int`; the buffer size
`width * stripeHeight * CHANNELS` is computed in `unsigned int`. -/
def saveBarcode (avgColorList : List RGBA) (stripeHeight : Nat) : BarcodeResult :=
  if avgColorList.isEmpty then BarcodeResult.nothing
  else
    match forInt (avgColorList.length % 2 ^ 32)
        (fun x buf =>
          forInt stripeHeight
            (fun y b => writePixel (avgColorList.length % 2 ^ 32)
              (avgColorList.getD x { r := 0, g := 0, b := 0, a := 0 }) x y b) buf)
        (List.replicate
          ((avgColorList.length % 2 ^ 32) * stripeHeight * CHANNELS % 2 ^ 32) 0) with
    | none => BarcodeResult.undefined
    | some pixels => BarcodeResult.image (avgColorList.length % 2 ^ 32) stripeHeight pixels

/-- The four bytes of pixel number `cell` of a buffer are the channels of `c`. -/
def pixelIs (buf : List Nat) (cell : Nat) (c : RGBA) : Prop :=
  buf.getD (cell * CHANNELS) 0 = c.r ∧ buf.getD (cell * CHANNELS + 1) 0 = c.g ∧
    buf.getD (cell * CHANNELS + 2) 0 = c.b ∧ buf.getD (cell * CHANNELS + 3) 0 = c.a

/-! ## The matrix multiply on the host -/

/-- The product of two `int` values; `none` when it does not fit `int`. -/
def intMul (a b : Nat) : Option Nat :=
  if a * b < 2 ^ 31 then some (a * b) else none

/-- The three vectors `matMultiplicationCPU` can reach: its local `result` and the
arguments `a` and `b`, which it takes by non-`const` reference. The entries are taken in a
type `R` with an addition, a multiplication and a zero: the `float` arithmetic of the
source, read as exact. -/
structure MatState (R : Type) where
  /-- The local vector `result`. -/
  result : List R
  /-- The argument `a`. -/
  a : List R
  /-- The argument `b`. -/
  b : List R

/-- The body of the innermost loop of `matMultiplicationCPU` (lines 122 and 123):
`result[i * N + j] += a[i * N + k] * b[k * N + j]`, the indices computed in `unsigned int`;
`operator[]` out of bounds is undefined. -/
def multiplyAccumulate {R : Type} [Add R] [Mul R] [Zero R] (MATRIX_DIMENSION i j k : Nat)
    (st : MatState R) : Option (MatState R) :=
  if (i * MATRIX_DIMENSION + j) % 2 ^ 32 < st.result.length ∧
      (i * MATRIX_DIMENSION + k) % 2 ^ 32 < st.a.length ∧
      (k * MATRIX_DIMENSION + j) % 2 ^ 32 < st.b.length then
    some ⟨st.result.set ((i * MATRIX_DIMENSION + j) % 2 ^ 32)
      (st.result.getD ((i * MATRIX_DIMENSION + j) % 2 ^ 32) 0
        + st.a.getD ((i * MATRIX_DIMENSION + k) % 2 ^ 32) 0
          * st.b.getD ((k * MATRIX_DIMENSION + j) % 2 ^ 32) 0), st.a, st.b⟩
  else none

/-- The function `matMultiplicationCPU` of day 3 (lines 117 to 128), with
`MATRIX_DIMENSION` as its first argument: `result` starts as
`MATRIX_DIMENSION * MATRIX_DIMENSION` zeros (the product is an `int`), the three loops run
their `uint32_t` counters from 0 to `MATRIX_DIMENSION - 1`. The state returned holds the
returned vector in `result`. -/
def matMultiplicationCPU {R : Type} [Add R] [Mul R] [Zero R] (MATRIX_DIMENSION : Nat)
    (a b : List R) : Option (MatState R) :=
  match intMul MATRIX_DIMENSION MATRIX_DIMENSION with
  | none => none
  | some cells =>
    (List.range MATRIX_DIMENSION).foldlM (fun st i =>
      (List.range MATRIX_DIMENSION).foldlM (fun st j =>
        (List.range MATRIX_DIMENSION).foldlM (fun st k =>
          multiplyAccumulate MATRIX_DIMENSION i j k st) st) st)
      { result := List.replicate cells 0, a := a, b := b }

/-- The sum `a[i*N + 0] * b[0*N + j] + ... ` of the first `m` products of row `i` of `a`
and column `j` of `b`, added to `init` one after the other in increasing `k`. -/
def dotFrom {R : Type} [Add R] [Mul R] [Zero R] (N : Nat) (a b : List R) (i j m : Nat)
    (init : R) : R :=
  (List.range m).foldl (fun acc k => acc + a.getD (i * N + k) 0 * b.getD (k * N + j) 0) init

/-! ## The zoom of the fractal viewer -/

/-- The structure `FractalParams` of day 5, declared in `fractal_params.hpp`. The fields
are those `main.cc` uses: the first one (256 at line 226, which `main.cc` does not name),
`offset.x`, `offset.y` and `zoom`. The `float` fields are rationals: the
arithmetic is read as exact. -/
structure FractalParams where
  /-- The first field. -/
  first : Nat
  /-- The field `offset.x`. -/
  offsetX : ℚ
  /-- The field `offset.y`. -/
  offsetY : ℚ
  /-- The field `zoom`. -/
  zoom : ℚ
  deriving DecidableEq, Repr

/-- The constant `zoomFactor = 0.9f` of line 154, read as the decimal it is written as. -/
def zoomFactor : ℚ := 9 / 10

/-- The case `SDL_EVENT_MOUSE_WHEEL` of `WindowGUI::runEventLoop` (lines 142 to 161), over
exact arithmetic. `mouseX`, `mouseY` are what `SDL_GetMouseState` returns, `w`, `h` what
`SDL_GetWindowSize` returns, `wheelY` is `event.wheel.y`. The division by `w` has no value
when `w` is 0. -/
def handleMouseWheel (mouseX mouseY : ℚ) (w h : Int) (wheelY : ℚ) (p : FractalParams) :
    Option FractalParams :=
  if w = 0 then none
  else
    let mousePosComplexX := p.offsetX + (mouseX - (w : ℚ) / 2) * p.zoom / (w : ℚ)
    let mousePosComplexY := p.offsetY - (mouseY - (h : ℚ) / 2) * p.zoom / (w : ℚ)
    let zoom2 :=
      if wheelY > 0 then p.zoom * zoomFactor
      else if wheelY < 0 then p.zoom / zoomFactor
      else p.zoom
    some { p with
      zoom := zoom2
      offsetX := mousePosComplexX - (mouseX - (w : ℚ) / 2) * zoom2 / (w : ℚ)
      offsetY := mousePosComplexY + (mouseY - (h : ℚ) / 2) * zoom2 / (w : ℚ) }

/-! ## Lemmas on copies and on one iteration -/

theorem copyCells_full (src dst : grid) (n : Nat) (hs : src.length = n) (hd : dst.length = n) :
    copyCells src n dst = src := by
  unfold copyCells
  rw [List.take_of_length_le (le_of_eq hs), List.drop_of_length_le (le_of_eq hd),
    List.append_nil]

theorem copyCells_length (src dst : grid) (n : Nat) (hs : n ≤ src.length)
    (hd : n ≤ dst.length) : (copyCells src n dst).length = dst.length := by
  unfold copyCells
  rw [List.length_append, List.length_take, List.length_drop]
  omega

theorem newStorage_length (dev : Device) (h : Bool) (cells : Nat) :
    (newStorage dev h cells).length = cells := by
  simp [newStorage]

theorem gridZeros_length (n : Nat) : (gridZeros n).length = n := by
  simp [gridZeros]

theorem gridCells_eq (W H : Nat) (h : W * H < 2 ^ 31) : gridCells W H = some (W * H) := by
  unfold gridCells
  rw [if_pos h]

theorem generation_i (dev : Device) (c : Nat) (fs : Bool) (st : SimState) :
    (generation dev c fs st).i = (st.i + 1) % UINT16_RANGE := by
  cases fs <;> cases hw : st.pWrite <;>
    simp [generation, increment, callHook, readBack, swap, dispatch, SimState.store, hw]

theorem generation_calls (dev : Device) (c : Nat) (fs : Bool) (st : SimState) :
    (generation dev c fs st).calls =
      if fs then st.calls ++ [{ snapshot := (generation dev c fs st).frameGrid,
                                index := (st.i + 1) % UINT16_RANGE }]
      else st.calls := by
  cases fs <;> cases hw : st.pWrite <;>
    simp [generation, increment, callHook, readBack, swap, dispatch, SimState.store, hw]

theorem generation_pRead (dev : Device) (c : Nat) (fs : Bool) (st : SimState) :
    (generation dev c fs st).pRead = st.pWrite := by
  cases fs <;> cases hw : st.pWrite <;>
    simp [generation, increment, callHook, readBack, swap, dispatch, SimState.store, hw]

theorem generation_pWrite (dev : Device) (c : Nat) (fs : Bool) (st : SimState) :
    (generation dev c fs st).pWrite = st.pRead := by
  cases fs <;> cases hw : st.pWrite <;>
    simp [generation, increment, callHook, readBack, swap, dispatch, SimState.store, hw]

theorem generation_contents_pRead (dev : Device) (c : Nat) (fs : Bool) (st : SimState) :
    (generation dev c fs st).contents (generation dev c fs st).pRead =
      (dev.execute st.i (st.contents st.pRead) (st.contents st.pWrite)).written := by
  cases fs <;> cases hw : st.pWrite <;>
    simp [generation, increment, callHook, readBack, swap, dispatch, SimState.store,
      SimState.contents, hw]

theorem generation_frameGrid (dev : Device) (c : Nat) (fs : Bool) (st : SimState) :
    (generation dev c fs st).frameGrid =
      copyCells (dev.execute st.i (st.contents st.pRead) (st.contents st.pWrite)).written c
        st.frameGrid := by
  cases fs <;> cases hw : st.pWrite <;>
    simp [generation, increment, callHook, readBack, swap, dispatch, SimState.store,
      SimState.contents, hw]

/-- The loop leaves after exactly `d` iterations when the counter is `d` below
`generations`, given fuel for the `d + 1` tests of its condition. -/
theorem generationLoop_eq_iterate (dev : Device) (c : Nat) (fs : Bool) (gens : Nat)
    (hg : gens < UINT16_RANGE) :
    ∀ (d fuel : Nat) (st : SimState), st.i + d = gens → d < fuel →
      generationLoop dev c fs gens fuel st = some ((generation dev c fs)^[d] st) := by
  intro d
  induction d with
  | zero =>
    intro fuel st hi hf
    obtain ⟨f, rfl⟩ : ∃ f, fuel = f + 1 := ⟨fuel - 1, by omega⟩
    have : ¬ st.i < gens := by omega
    simp [generationLoop, this]
  | succ d ih =>
    intro fuel st hi hf
    obtain ⟨f, rfl⟩ : ∃ f, fuel = f + 1 := ⟨fuel - 1, by omega⟩
    have hlt : st.i < gens := by omega
    have hnext : (generation dev c fs st).i + d = gens := by
      rw [generation_i, Nat.mod_eq_of_lt (by omega)]
      omega
    rw [generationLoop, if_pos hlt, ih f _ hnext (by omega), Function.iterate_succ_apply]

/-- With less fuel than `d + 1` tests the loop has not left yet. -/
theorem generationLoop_out_of_fuel (dev : Device) (c : Nat) (fs : Bool) (gens : Nat)
    (hg : gens < UINT16_RANGE) :
    ∀ (d fuel : Nat) (st : SimState), st.i + d = gens → fuel ≤ d →
      generationLoop dev c fs gens fuel st = none := by
  intro d
  induction d with
  | zero =>
    intro fuel st _ hf
    obtain rfl : fuel = 0 := by omega
    rfl
  | succ d ih =>
    intro fuel st hi hf
    cases fuel with
    | zero => rfl
    | succ f =>
      have hlt : st.i < gens := by omega
      have hnext : (generation dev c fs st).i + d = gens := by
        rw [generation_i, Nat.mod_eq_of_lt (by omega)]
        omega
      rw [generationLoop, if_pos hlt, ih f _ hnext (by omega)]

/-- The counter and the hook indices after `k` iterations from the entry state, for every
accelerator. -/
theorem iterate_counter (dev : Device) (c : Nat) (fs : Bool) (st0 : SimState)
    (h0 : st0.i = 0) (hc : st0.calls = []) :
    ∀ k, k < UINT16_RANGE →
      ((generation dev c fs)^[k] st0).i = k ∧
      ((generation dev c fs)^[k] st0).calls.map HookCall.index =
        if fs then (List.range k).map (fun j => j + 1) else [] := by
  intro k
  induction k with
  | zero => intro _; simp [h0, hc]
  | succ k ih =>
    intro hk
    obtain ⟨hi, hcalls⟩ := ih (by omega)
    rw [Function.iterate_succ_apply']
    refine ⟨?_, ?_⟩
    · rw [generation_i, hi, Nat.mod_eq_of_lt hk]
    · rw [generation_calls]
      cases fs
      · simpa using hcalls
      · simp only [if_true] at hcalls ⊢
        rw [List.map_append, hcalls, hi, Nat.mod_eq_of_lt hk, List.range_succ, List.map_append]
        rfl

/-! ## The two drivers as iterates of one generation -/

/-- On a seed of `GRID_WIDTH * GRID_HEIGHT` cells `golSimBuffer` returns, and what it returns
is the read-back of the state after `n` iterations from the entry state that holds the seed
in the first storage. -/
theorem golSimBuffer_eq (W H : Nat) (dev : Device) (seed : grid) (n : Nat) (fs : Bool)
    (hcells : W * H < 2 ^ 31) (hseed : seed.length = W * H) (hn : n < UINT16_RANGE) :
    golSimBuffer W H dev seed n fs =
      some (readBack (W * H) ((generation dev (W * H) fs)^[n]
        (entryState seed (newStorage dev true (W * H)) (W * H)))) := by
  unfold golSimBuffer
  rw [gridCells_eq W H hcells]
  simp only [hseed, le_refl, if_true]
  rw [copyCells_full seed _ (W * H) hseed (newStorage_length dev false (W * H))]
  rw [generationLoop_eq_iterate dev (W * H) fs n hn n UINT16_RANGE _ (by simp [entryState])
    hn]
  rfl

/-- On a seed of `GRID_WIDTH * GRID_HEIGHT` cells the two drivers are the same function of
the accelerator. -/
theorem golSimTexture_eq_golSimBuffer (W H : Nat) (dev : Device) (seed : grid) (n : Nat)
    (fs : Bool) (hseed : seed.length = W * H) :
    golSimTexture W H dev seed n fs = golSimBuffer W H dev seed n fs := by
  unfold golSimTexture golSimBuffer gridCells
  split_ifs with h
  · simp [hseed]
  · rfl

theorem kernelDevice_written (K : grid → grid) (f : Bool → Nat → Nat) (i : Nat)
    (rd wr : grid) : ((kernelDevice K f).execute i rd wr).written = K rd := rfl

theorem generation_view (K : grid → grid) (f g : Bool → Nat → Nat) (c : Nat) (fs : Bool)
    (a b : SimState) (h : a.view = b.view) :
    (generation (kernelDevice K f) c fs a).view = (generation (kernelDevice K g) c fs b).view := by
  simp only [SimState.view, Prod.mk.injEq] at h
  obtain ⟨h1, h2, h3, h4⟩ := h
  simp only [SimState.view]
  rw [generation_contents_pRead, generation_contents_pRead, generation_calls, generation_calls,
    generation_frameGrid, generation_frameGrid, generation_i, generation_i]
  simp [kernelDevice_written, h1, h2, h3, h4]

theorem iterate_view (K : grid → grid) (f g : Bool → Nat → Nat) (c : Nat) (fs : Bool)
    (a b : SimState) (h : a.view = b.view) (k : Nat) :
    ((generation (kernelDevice K f) c fs)^[k] a).view =
      ((generation (kernelDevice K g) c fs)^[k] b).view := by
  induction k with
  | zero => simpa using h
  | succ k ih =>
    rw [Function.iterate_succ_apply', Function.iterate_succ_apply']
    exact generation_view K f g c fs _ _ ih

/-- The state after `k` iterations on an accelerator that runs the kernel `K`, from the
entry state that holds the seed in the first storage. -/
theorem kernel_iterate (K : grid → grid) (f : Bool → Nat → Nat) (N : Nat) (fs : Bool)
    (seed s1 : grid) (hseed : seed.length = N)
    (hK : ∀ g : grid, g.length = N → (K g).length = N) :
    ∀ k, k < UINT16_RANGE →
      ((generation (kernelDevice K f) N fs)^[k] (entryState seed s1 N)).i = k ∧
      ((generation (kernelDevice K f) N fs)^[k] (entryState seed s1 N)).contents
        ((generation (kernelDevice K f) N fs)^[k] (entryState seed s1 N)).pRead = K^[k] seed ∧
      ((generation (kernelDevice K f) N fs)^[k] (entryState seed s1 N)).frameGrid.length = N ∧
      (0 < k → ((generation (kernelDevice K f) N fs)^[k] (entryState seed s1 N)).frameGrid
        = K^[k] seed) ∧
      ((generation (kernelDevice K f) N fs)^[k] (entryState seed s1 N)).calls =
        if fs then (List.range k).map
          (fun j => ({ snapshot := K^[j + 1] seed, index := j + 1 } : HookCall))
        else [] := by
  have hlen : ∀ k, (K^[k] seed).length = N := by
    intro k
    induction k with
    | zero => simpa using hseed
    | succ k ih => rw [Function.iterate_succ_apply']; exact hK _ ih
  intro k
  induction k with
  | zero =>
    intro _
    simp [entryState, SimState.contents, gridZeros]
  | succ k ih =>
    intro hk
    obtain ⟨hi, hrd, hfl, _, hcalls⟩ := ih (by omega)
    have hfg : ((generation (kernelDevice K f) N fs)^[k + 1] (entryState seed s1 N)).frameGrid
        = K^[k + 1] seed := by
      rw [Function.iterate_succ_apply', generation_frameGrid]
      rw [kernelDevice_written, hrd, ← Function.iterate_succ_apply' K k seed]
      exact copyCells_full _ _ N (hlen (k + 1)) hfl
    refine ⟨?_, ?_, ?_, fun _ => hfg, ?_⟩
    · rw [Function.iterate_succ_apply', generation_i, hi, Nat.mod_eq_of_lt hk]
    · rw [Function.iterate_succ_apply', generation_contents_pRead]
      rw [kernelDevice_written, hrd, ← Function.iterate_succ_apply' K k seed]
    · rw [hfg]; exact hlen (k + 1)
    · have hfg2 := hfg
      rw [Function.iterate_succ_apply'] at hfg2 ⊢
      rw [generation_calls, hfg2, hcalls, hi, Nat.mod_eq_of_lt hk]
      cases fs
      · simp
      · simp [List.range_succ]

/-- The run of `golSimBuffer` on an accelerator that runs the kernel `K`, in closed form. -/
theorem golSimBuffer_kernel (W H : Nat) (K : grid → grid) (f : Bool → Nat → Nat)
    (seed : grid) (n : Nat) (fs : Bool) (hcells : W * H < 2 ^ 31)
    (hseed : seed.length = W * H) (hn : n < UINT16_RANGE)
    (hK : ∀ g : grid, g.length = W * H → (K g).length = W * H) :
    ∃ st, golSimBuffer W H (kernelDevice K f) seed n fs = some st ∧
      st.frameGrid = K^[n] seed ∧ st.i = n ∧
      st.calls = if fs then (List.range n).map
          (fun j => ({ snapshot := K^[j + 1] seed, index := j + 1 } : HookCall))
        else [] := by
  obtain ⟨hi, hrd, hfl, _, hcalls⟩ :=
    kernel_iterate K f (W * H) fs seed (newStorage (kernelDevice K f) true (W * H)) hseed hK n hn
  have hlen : (K^[n] seed).length = W * H := by
    have : ∀ k, (K^[k] seed).length = W * H := by
      intro k
      induction k with
      | zero => simpa using hseed
      | succ k ih => rw [Function.iterate_succ_apply']; exact hK _ ih
    exact this n
  refine ⟨_, golSimBuffer_eq W H _ seed n fs hcells hseed hn, ?_, ?_, ?_⟩
  · simp only [readBack]
    rw [hrd]
    exact copyCells_full _ _ (W * H) hlen hfl
  · simpa [readBack] using hi
  · simpa [readBack] using hcalls

/-- The run of `golSimTexture` on an accelerator that runs the kernel `K`, in closed form. -/
theorem golSimTexture_kernel (W H : Nat) (K : grid → grid) (f : Bool → Nat → Nat)
    (seed : grid) (n : Nat) (fs : Bool) (hcells : W * H < 2 ^ 31)
    (hseed : seed.length = W * H) (hn : n < UINT16_RANGE)
    (hK : ∀ g : grid, g.length = W * H → (K g).length = W * H) :
    ∃ st, golSimTexture W H (kernelDevice K f) seed n fs = some st ∧
      st.frameGrid = K^[n] seed ∧ st.i = n ∧
      st.calls = if fs then (List.range n).map
          (fun j => ({ snapshot := K^[j + 1] seed, index := j + 1 } : HookCall))
        else [] := by
  rw [golSimTexture_eq_golSimBuffer W H _ seed n fs hseed]
  exact golSimBuffer_kernel W H K f seed n fs hcells hseed hn hK

/-- The counter and the hook indices at the end of a run of `golSimBuffer`, for every
accelerator. -/
theorem golSimBuffer_counter (W H : Nat) (dev : Device) (seed : grid) (n : Nat) (fs : Bool)
    (hcells : W * H < 2 ^ 31) (hseed : seed.length = W * H) (hn : n < UINT16_RANGE) :
    ∃ st, golSimBuffer W H dev seed n fs = some st ∧ st.i = n ∧
      st.calls.map HookCall.index = if fs then (List.range n).map (fun j => j + 1) else [] := by
  obtain ⟨hi, hc⟩ := iterate_counter dev (W * H) fs
    (entryState seed (newStorage dev true (W * H)) (W * H)) rfl rfl n hn
  refine ⟨_, golSimBuffer_eq W H dev seed n fs hcells hseed hn, ?_, ?_⟩
  · simpa [readBack] using hi
  · simpa [readBack] using hc

theorem gridWith_length (W H : Nat) (alive : List (Nat × Nat)) :
    (gridWith W H alive).length = W * H := by
  simp [gridWith]

theorem golKernel_length (W H : Nat) (cur : grid) : (golKernel W H cur).length = W * H := by
  simp [golKernel]

/-! ## The claims on the driver -/

/-- C1 (identity law). On a seed grid of `GRID_WIDTH * GRID_HEIGHT` cells, for every
accelerator and with or without a hook, `golSimBuffer` and `golSimTexture` run with
`generations = 0` return a grid equal to the seed cell for cell, and the hook is not
called. -/
theorem identity_law (W H : Nat) (dev : Device) (seed : grid) (fs : Bool)
    (hcells : W * H < 2 ^ 31) (hseed : seed.length = W * H) :
    (∃ st, golSimBuffer W H dev seed 0 fs = some st ∧ st.frameGrid = seed ∧ st.calls = []) ∧
    (∃ st, golSimTexture W H dev seed 0 fs = some st ∧ st.frameGrid = seed ∧ st.calls = []) := by
  have hb : ∃ st, golSimBuffer W H dev seed 0 fs = some st ∧ st.frameGrid = seed ∧
      st.calls = [] := by
    have h0 : (0 : Nat) < UINT16_RANGE := by decide
    refine ⟨_, golSimBuffer_eq W H dev seed 0 fs hcells hseed h0, ?_, ?_⟩
    · simp only [Function.iterate_zero, id_eq, readBack, entryState, SimState.contents]
      exact copyCells_full seed _ (W * H) hseed (gridZeros_length _)
    · rfl
  refine ⟨hb, ?_⟩
  rw [golSimTexture_eq_golSimBuffer W H dev seed 0 fs hseed]
  exact hb

/-- The identity law at the grid size of the source, on the all-dead seed. -/
theorem identity_law_witness :
    (GRID_WIDTH_src * GRID_HEIGHT_src < 2 ^ 31 ∧
      (gridZeros (GRID_WIDTH_src * GRID_HEIGHT_src)).length = GRID_WIDTH_src * GRID_HEIGHT_src) ∧
    ((∃ st, golSimBuffer GRID_WIDTH_src GRID_HEIGHT_src
        { fresh := fun _ _ => 7, execute := fun _ _ wr => { written := wr, ok := false } }
        (gridZeros (GRID_WIDTH_src * GRID_HEIGHT_src)) 0 true = some st ∧
        st.frameGrid = gridZeros (GRID_WIDTH_src * GRID_HEIGHT_src) ∧ st.calls = []) ∧
     (∃ st, golSimTexture GRID_WIDTH_src GRID_HEIGHT_src
        { fresh := fun _ _ => 7, execute := fun _ _ wr => { written := wr, ok := false } }
        (gridZeros (GRID_WIDTH_src * GRID_HEIGHT_src)) 0 true = some st ∧
        st.frameGrid = gridZeros (GRID_WIDTH_src * GRID_HEIGHT_src) ∧ st.calls = [])) :=
  ⟨⟨by decide, gridZeros_length _⟩,
    identity_law GRID_WIDTH_src GRID_HEIGHT_src _ _ true (by decide) (gridZeros_length _)⟩

/-- C2 (cross-backend equivalence). On a seed grid of `GRID_WIDTH * GRID_HEIGHT` cells and
for every generation count `n`, when the buffer kernel and the texture kernel compute the
same one-generation function `K`, `golSimBuffer` and `golSimTexture` return the same grid
and hand the same sequence of snapshots, with the same indices, to the hook; the initial
contents of the buffers and of the textures play no part. -/
theorem cross_backend_equivalence (W H : Nat) (K : grid → grid) (fb ft : Bool → Nat → Nat)
    (seed : grid) (n : Nat) (fs : Bool) (hcells : W * H < 2 ^ 31)
    (hseed : seed.length = W * H) (hn : n < UINT16_RANGE) :
    ∃ sb st, golSimBuffer W H (kernelDevice K fb) seed n fs = some sb ∧
      golSimTexture W H (kernelDevice K ft) seed n fs = some st ∧
      sb.frameGrid = st.frameGrid ∧ sb.calls = st.calls := by
  have hv := iterate_view K fb ft (W * H) fs
    (entryState seed (newStorage (kernelDevice K fb) true (W * H)) (W * H))
    (entryState seed (newStorage (kernelDevice K ft) true (W * H)) (W * H)) rfl n
  simp only [SimState.view, Prod.mk.injEq] at hv
  obtain ⟨h1, h2, h3, _⟩ := hv
  have hB := golSimBuffer_eq W H (kernelDevice K fb) seed n fs hcells hseed hn
  have hT := (golSimTexture_eq_golSimBuffer W H (kernelDevice K ft) seed n fs hseed).trans
    (golSimBuffer_eq W H (kernelDevice K ft) seed n fs hcells hseed hn)
  refine ⟨_, _, hB, hT, ?_, ?_⟩
  · simp only [readBack]
    rw [h1, h2]
  · simpa [readBack] using h3

/-- Cross-backend equivalence at the grid size of the source, for one generation of the
kernel of Life on a seed that holds a glider, with different initial storage contents. -/
theorem cross_backend_equivalence_witness :
    (GRID_WIDTH_src * GRID_HEIGHT_src < 2 ^ 31 ∧
      (gridWith GRID_WIDTH_src GRID_HEIGHT_src [(2, 1), (3, 2), (1, 3), (2, 3), (3, 3)]).length
        = GRID_WIDTH_src * GRID_HEIGHT_src ∧ 1 < UINT16_RANGE) ∧
    ∃ sb st,
      golSimBuffer GRID_WIDTH_src GRID_HEIGHT_src
        (kernelDevice (golKernel GRID_WIDTH_src GRID_HEIGHT_src) (fun _ _ => 0))
        (gridWith GRID_WIDTH_src GRID_HEIGHT_src [(2, 1), (3, 2), (1, 3), (2, 3), (3, 3)])
        1 true = some sb ∧
      golSimTexture GRID_WIDTH_src GRID_HEIGHT_src
        (kernelDevice (golKernel GRID_WIDTH_src GRID_HEIGHT_src) (fun _ _ => 7))
        (gridWith GRID_WIDTH_src GRID_HEIGHT_src [(2, 1), (3, 2), (1, 3), (2, 3), (3, 3)])
        1 true = some st ∧
      sb.frameGrid = st.frameGrid ∧ sb.calls = st.calls :=
  ⟨⟨by decide, gridWith_length _ _ _, by decide⟩,
    cross_backend_equivalence GRID_WIDTH_src GRID_HEIGHT_src _ _ _ _ 1 true (by decide)
      (gridWith_length _ _ _) (by decide)⟩

/-- C4 (hook invocation). For every generation count `n` of a `uint16_t`, every accelerator
and a hook that is present, on a seed grid of `GRID_WIDTH * GRID_HEIGHT` cells a run of
either driver returns, calls the hook exactly `n` times, with the indices `1, 2, ..., n`
in this order, and leaves the counter at `n`; the loop leaves at the test number `n + 1`
of its condition and not before, so the 16-bit counter does not wrap. -/
theorem hook_invocation (W H : Nat) (dev : Device) (seed : grid) (n : Nat)
    (hcells : W * H < 2 ^ 31) (hseed : seed.length = W * H) (hn : n < UINT16_RANGE) :
    (∃ st, golSimBuffer W H dev seed n true = some st ∧ st.calls.length = n ∧
      st.calls.map HookCall.index = (List.range n).map (fun j => j + 1) ∧ st.i = n) ∧
    (∃ st, golSimTexture W H dev seed n true = some st ∧ st.calls.length = n ∧
      st.calls.map HookCall.index = (List.range n).map (fun j => j + 1) ∧ st.i = n) ∧
    (∀ st0 : SimState, st0.i = 0 →
      generationLoop dev (W * H) true n n st0 = none ∧
      generationLoop dev (W * H) true n (n + 1) st0 =
        some ((generation dev (W * H) true)^[n] st0)) := by
  have hb : ∃ st, golSimBuffer W H dev seed n true = some st ∧ st.calls.length = n ∧
      st.calls.map HookCall.index = (List.range n).map (fun j => j + 1) ∧ st.i = n := by
    obtain ⟨st, hst, hi, hc⟩ := golSimBuffer_counter W H dev seed n true hcells hseed hn
    simp only [if_true] at hc
    refine ⟨st, hst, ?_, hc, hi⟩
    have := congrArg List.length hc
    simpa using this
  refine ⟨hb, ?_, ?_⟩
  · rw [golSimTexture_eq_golSimBuffer W H dev seed n true hseed]
    exact hb
  · intro st0 h0
    exact ⟨generationLoop_out_of_fuel dev (W * H) true n hn n n st0 (by omega) (le_refl n),
      generationLoop_eq_iterate dev (W * H) true n hn n (n + 1) st0 (by omega) (by omega)⟩

/-- The hook invocation property at the grid size and the generation count of the source
(`GENERATIONS = 100`), on an accelerator on which every dispatch reports an error. -/
theorem hook_invocation_witness :
    (GRID_WIDTH_src * GRID_HEIGHT_src < 2 ^ 31 ∧
      (gridZeros (GRID_WIDTH_src * GRID_HEIGHT_src)).length = GRID_WIDTH_src * GRID_HEIGHT_src ∧
      100 < UINT16_RANGE) ∧
    ((∃ st, golSimBuffer GRID_WIDTH_src GRID_HEIGHT_src
        { fresh := fun _ _ => 7, execute := fun _ _ wr => { written := wr, ok := false } }
        (gridZeros (GRID_WIDTH_src * GRID_HEIGHT_src)) 100 true = some st ∧
        st.calls.length = 100 ∧
        st.calls.map HookCall.index = (List.range 100).map (fun j => j + 1) ∧ st.i = 100) ∧
     (∃ st, golSimTexture GRID_WIDTH_src GRID_HEIGHT_src
        { fresh := fun _ _ => 7, execute := fun _ _ wr => { written := wr, ok := false } }
        (gridZeros (GRID_WIDTH_src * GRID_HEIGHT_src)) 100 true = some st ∧
        st.calls.length = 100 ∧
        st.calls.map HookCall.index = (List.range 100).map (fun j => j + 1) ∧ st.i = 100) ∧
     (∀ st0 : SimState, st0.i = 0 →
        generationLoop
          { fresh := fun _ _ => 7, execute := fun _ _ wr => { written := wr, ok := false } }
          (GRID_WIDTH_src * GRID_HEIGHT_src) true 100 100 st0 = none ∧
        generationLoop
          { fresh := fun _ _ => 7, execute := fun _ _ wr => { written := wr, ok := false } }
          (GRID_WIDTH_src * GRID_HEIGHT_src) true 100 (100 + 1) st0 =
          some ((generation
            { fresh := fun _ _ => 7, execute := fun _ _ wr => { written := wr, ok := false } }
            (GRID_WIDTH_src * GRID_HEIGHT_src) true)^[100] st0))) :=
  ⟨⟨by decide, gridZeros_length _, by decide⟩,
    hook_invocation GRID_WIDTH_src GRID_HEIGHT_src _ _ 100 (by decide) (gridZeros_length _)
      (by decide)⟩

/-- C5 (snapshot content). On a seed grid of `GRID_WIDTH * GRID_HEIGHT` cells, on an
accelerator that runs a one-generation kernel `K` over storages of that size, the calls
either driver makes to the hook are, in order, the calls with index `k` and snapshot `K`
applied `k` times to the seed, for `k = 1, ..., generations`: each snapshot is the storage
the dispatch wrote, not the one it read. -/
theorem snapshot_content (W H : Nat) (K : grid → grid) (f : Bool → Nat → Nat) (seed : grid)
    (n : Nat) (hcells : W * H < 2 ^ 31) (hseed : seed.length = W * H)
    (hn : n < UINT16_RANGE) (hK : ∀ g : grid, g.length = W * H → (K g).length = W * H) :
    (∃ st, golSimBuffer W H (kernelDevice K f) seed n true = some st ∧
      st.calls = (List.range n).map
        (fun j => ({ snapshot := K^[j + 1] seed, index := j + 1 } : HookCall))) ∧
    (∃ st, golSimTexture W H (kernelDevice K f) seed n true = some st ∧
      st.calls = (List.range n).map
        (fun j => ({ snapshot := K^[j + 1] seed, index := j + 1 } : HookCall))) := by
  obtain ⟨sb, hb, _, _, hcb⟩ := golSimBuffer_kernel W H K f seed n true hcells hseed hn hK
  obtain ⟨st, ht, _, _, hct⟩ := golSimTexture_kernel W H K f seed n true hcells hseed hn hK
  exact ⟨⟨sb, hb, by simpa using hcb⟩, ⟨st, ht, by simpa using hct⟩⟩

/-- The snapshot property at the grid size of the source, for two generations of the kernel
of Life on a seed that holds a glider. -/
theorem snapshot_content_witness :
    (GRID_WIDTH_src * GRID_HEIGHT_src < 2 ^ 31 ∧
      (gridWith GRID_WIDTH_src GRID_HEIGHT_src [(2, 1), (3, 2), (1, 3), (2, 3), (3, 3)]).length
        = GRID_WIDTH_src * GRID_HEIGHT_src ∧ 2 < UINT16_RANGE ∧
      ∀ g : grid, g.length = GRID_WIDTH_src * GRID_HEIGHT_src →
        (golKernel GRID_WIDTH_src GRID_HEIGHT_src g).length
          = GRID_WIDTH_src * GRID_HEIGHT_src) ∧
    ((∃ st, golSimBuffer GRID_WIDTH_src GRID_HEIGHT_src
        (kernelDevice (golKernel GRID_WIDTH_src GRID_HEIGHT_src) (fun _ _ => 0))
        (gridWith GRID_WIDTH_src GRID_HEIGHT_src [(2, 1), (3, 2), (1, 3), (2, 3), (3, 3)])
        2 true = some st ∧
      st.calls = (List.range 2).map (fun j => ({
        snapshot := (golKernel GRID_WIDTH_src GRID_HEIGHT_src)^[j + 1]
          (gridWith GRID_WIDTH_src GRID_HEIGHT_src [(2, 1), (3, 2), (1, 3), (2, 3), (3, 3)]),
        index := j + 1 } : HookCall))) ∧
     (∃ st, golSimTexture GRID_WIDTH_src GRID_HEIGHT_src
        (kernelDevice (golKernel GRID_WIDTH_src GRID_HEIGHT_src) (fun _ _ => 0))
        (gridWith GRID_WIDTH_src GRID_HEIGHT_src [(2, 1), (3, 2), (1, 3), (2, 3), (3, 3)])
        2 true = some st ∧
      st.calls = (List.range 2).map (fun j => ({
        snapshot := (golKernel GRID_WIDTH_src GRID_HEIGHT_src)^[j + 1]
          (gridWith GRID_WIDTH_src GRID_HEIGHT_src [(2, 1), (3, 2), (1, 3), (2, 3), (3, 3)]),
        index := j + 1 } : HookCall)))) :=
  ⟨⟨by decide, gridWith_length _ _ _, by decide, fun g _ => golKernel_length _ _ g⟩,
    snapshot_content GRID_WIDTH_src GRID_HEIGHT_src _ _ _ 2 (by decide)
      (gridWith_length _ _ _) (by decide) (fun g _ => golKernel_length _ _ g)⟩

/-- C6 (final result). On a seed grid of `GRID_WIDTH * GRID_HEIGHT` cells and for every
generation count `n ≥ 1`, on an accelerator that runs a one-generation kernel `K` without
failure, the grid either driver returns is `K` applied `n` times to the seed, and the last
call to the hook carries this grid with index `n`. -/
theorem final_result (W H : Nat) (K : grid → grid) (f : Bool → Nat → Nat) (seed : grid)
    (n : Nat) (hcells : W * H < 2 ^ 31) (hseed : seed.length = W * H) (h1 : 1 ≤ n)
    (hn : n < UINT16_RANGE) (hK : ∀ g : grid, g.length = W * H → (K g).length = W * H) :
    (∃ st, golSimBuffer W H (kernelDevice K f) seed n true = some st ∧
      st.frameGrid = K^[n] seed ∧
      st.calls.getLast? = some { snapshot := st.frameGrid, index := n }) ∧
    (∃ st, golSimTexture W H (kernelDevice K f) seed n true = some st ∧
      st.frameGrid = K^[n] seed ∧
      st.calls.getLast? = some { snapshot := st.frameGrid, index := n }) := by
  obtain ⟨m, rfl⟩ : ∃ m, n = m + 1 := ⟨n - 1, by omega⟩
  obtain ⟨sb, hb, hfb, _, hcb⟩ := golSimBuffer_kernel W H K f seed (m + 1) true hcells hseed hn hK
  obtain ⟨st, ht, hft, _, hct⟩ := golSimTexture_kernel W H K f seed (m + 1) true hcells hseed hn hK
  refine ⟨⟨sb, hb, hfb, ?_⟩, ⟨st, ht, hft, ?_⟩⟩
  · rw [hcb, hfb]
    simp [List.range_succ]
  · rw [hct, hft]
    simp [List.range_succ]

/-- The final-result property at the grid size and the generation count of the source, for
the kernel of Life on a seed that holds a glider. -/
theorem final_result_witness :
    (GRID_WIDTH_src * GRID_HEIGHT_src < 2 ^ 31 ∧
      (gridWith GRID_WIDTH_src GRID_HEIGHT_src [(2, 1), (3, 2), (1, 3), (2, 3), (3, 3)]).length
        = GRID_WIDTH_src * GRID_HEIGHT_src ∧ 1 ≤ 100 ∧ 100 < UINT16_RANGE ∧
      ∀ g : grid, g.length = GRID_WIDTH_src * GRID_HEIGHT_src →
        (golKernel GRID_WIDTH_src GRID_HEIGHT_src g).length
          = GRID_WIDTH_src * GRID_HEIGHT_src) ∧
    ((∃ st, golSimBuffer GRID_WIDTH_src GRID_HEIGHT_src
        (kernelDevice (golKernel GRID_WIDTH_src GRID_HEIGHT_src) (fun _ _ => 0))
        (gridWith GRID_WIDTH_src GRID_HEIGHT_src [(2, 1), (3, 2), (1, 3), (2, 3), (3, 3)])
        100 true = some st ∧
      st.frameGrid = (golKernel GRID_WIDTH_src GRID_HEIGHT_src)^[100]
        (gridWith GRID_WIDTH_src GRID_HEIGHT_src [(2, 1), (3, 2), (1, 3), (2, 3), (3, 3)]) ∧
      st.calls.getLast? = some { snapshot := st.frameGrid, index := 100 }) ∧
     (∃ st, golSimTexture GRID_WIDTH_src GRID_HEIGHT_src
        (kernelDevice (golKernel GRID_WIDTH_src GRID_HEIGHT_src) (fun _ _ => 0))
        (gridWith GRID_WIDTH_src GRID_HEIGHT_src [(2, 1), (3, 2), (1, 3), (2, 3), (3, 3)])
        100 true = some st ∧
      st.frameGrid = (golKernel GRID_WIDTH_src GRID_HEIGHT_src)^[100]
        (gridWith GRID_WIDTH_src GRID_HEIGHT_src [(2, 1), (3, 2), (1, 3), (2, 3), (3, 3)]) ∧
      st.calls.getLast? = some { snapshot := st.frameGrid, index := 100 })) :=
  ⟨⟨by decide, gridWith_length _ _ _, by decide, by decide,
      fun g _ => golKernel_length _ _ g⟩,
    final_result GRID_WIDTH_src GRID_HEIGHT_src _ _ _ 100 (by decide)
      (gridWith_length _ _ _) (by decide) (by decide) (fun g _ => golKernel_length _ _ g)⟩

/-! ## The claims on the kernel of Life -/

theorem gliderSeed_eq_gridWith :
    gliderSeed = gridWith 8 8 [(2, 1), (3, 2), (1, 3), (2, 3), (3, 3)] := by decide

theorem gliderShifted_eq_gridWith :
    gliderShifted = gridWith 8 8 [(3, 2), (4, 3), (2, 4), (3, 4), (4, 4)] := by decide

set_option maxRecDepth 100000 in
theorem glider_four_generations : (golKernel 8 8)^[4] gliderSeed = gliderShifted := by
  decide

/-! ## Device errors -/

theorem dispatch_congr (dev dev2 : Device)
    (hw : ∀ i rd wr, (dev2.execute i rd wr).written = (dev.execute i rd wr).written)
    (st : SimState) : dispatch dev2 st = dispatch dev st := by
  unfold dispatch
  rw [hw]

theorem generationLoop_congr (dev dev2 : Device)
    (hw : ∀ i rd wr, (dev2.execute i rd wr).written = (dev.execute i rd wr).written)
    (c : Nat) (fs : Bool) (gens : Nat) :
    ∀ (fuel : Nat) (st : SimState),
      generationLoop dev2 c fs gens fuel st = generationLoop dev c fs gens fuel st := by
  intro fuel
  induction fuel with
  | zero => intro st; rfl
  | succ fuel ih =>
    intro st
    simp only [generationLoop, generation, dispatch_congr dev dev2 hw, ih]

theorem newStorage_congr (dev dev2 : Device) (hf : dev2.fresh = dev.fresh) (h : Bool)
    (cells : Nat) : newStorage dev2 h cells = newStorage dev h cells := by
  unfold newStorage
  rw [hf]

theorem faultyDevice_written (i : Nat) (rd wr : grid) :
    (faultyDevice.execute i rd wr).written = wr := rfl

theorem gridOnes_length (n : Nat) : (gridOnes n).length = n := by
  simp [gridOnes]

theorem faulty_storage_ne_ones (N : Nat) (hN : 0 < N) :
    newStorage faultyDevice true N ≠ gridOnes N := by
  intro h
  have h0 := congrArg (fun l : grid => l[0]?) h
  simp [newStorage, gridOnes, faultyDevice, List.getElem?_replicate, hN] at h0

/-- One generation on the accelerator whose dispatch fails, for every grid size. -/
theorem faulty_one_generation (W H : Nat) (hcells : W * H < 2 ^ 31) (hN : 0 < W * H) :
    ∃ st, golSimBuffer W H faultyDevice (gridOnes (W * H)) 1 true = some st ∧
      st.pRead = true ∧ st.pWrite = false ∧
      st.calls.map HookCall.index = [1] ∧
      st.frameGrid ≠ gridOnes (W * H) := by
  refine ⟨_, golSimBuffer_eq W H faultyDevice _ 1 true hcells (gridOnes_length _)
    (by decide), rfl, rfl, rfl, ?_⟩
  have hfg : (readBack (W * H) ((generation faultyDevice (W * H) true)^[1]
      (entryState (gridOnes (W * H)) (newStorage faultyDevice true (W * H))
        (W * H)))).frameGrid = newStorage faultyDevice true (W * H) := by
    simp only [Function.iterate_one, readBack]
    rw [generation_contents_pRead, generation_frameGrid]
    rw [faultyDevice_written]
    simp only [entryState, SimState.contents, if_true]
    rw [copyCells_full _ _ _ (newStorage_length _ _ _) (gridZeros_length _)]
    exact copyCells_full _ _ _ (newStorage_length _ _ _) (newStorage_length _ _ _)
  rw [hfg]
  exact faulty_storage_ne_ones (W * H) hN

/-- C7, the claim as stated fails. At the grid size of the source, on the seed whose cells
are all ALIVE and with `generations = 1`, the only dispatch reports a device error and
leaves the second buffer as allocated. The run of `golSimBuffer` still exchanges the two
handles, still calls the hook with index 1, and returns the never-written second buffer,
not the seed. -/
theorem failure_injection_counterexample :
    (faultyDevice.execute 0 (gridOnes (GRID_WIDTH_src * GRID_HEIGHT_src))
      (newStorage faultyDevice true (GRID_WIDTH_src * GRID_HEIGHT_src))).ok = false ∧
    ∃ st, golSimBuffer GRID_WIDTH_src GRID_HEIGHT_src faultyDevice
        (gridOnes (GRID_WIDTH_src * GRID_HEIGHT_src)) 1 true = some st ∧
      st.pRead = true ∧ st.pWrite = false ∧
      st.calls.map HookCall.index = [1] ∧
      st.frameGrid ≠ gridOnes (GRID_WIDTH_src * GRID_HEIGHT_src) :=
  ⟨rfl, faulty_one_generation GRID_WIDTH_src GRID_HEIGHT_src (by decide) (by decide)⟩

/-- C7 as amended. The drivers do not read the status of the command buffer. Two
accelerators that leave the same storage contents, whatever status they report, give the
same run of either driver (same snapshots, same returned grid); every generation exchanges
the two handles; and on a seed grid of `GRID_WIDTH * GRID_HEIGHT` cells the hook is called
with every index `1, ..., generations`. -/
theorem device_status_not_read (W H : Nat) (dev dev2 : Device) (seed : grid) (n : Nat)
    (hcells : W * H < 2 ^ 31) (hseed : seed.length = W * H) (hn : n < UINT16_RANGE)
    (hf : dev2.fresh = dev.fresh)
    (hw : ∀ i rd wr, (dev2.execute i rd wr).written = (dev.execute i rd wr).written) :
    (∀ fs, golSimBuffer W H dev2 seed n fs = golSimBuffer W H dev seed n fs) ∧
    (∀ fs, golSimTexture W H dev2 seed n fs = golSimTexture W H dev seed n fs) ∧
    (∀ (c : Nat) (fs : Bool) (st : SimState),
      (generation dev c fs st).pRead = st.pWrite ∧ (generation dev c fs st).pWrite = st.pRead) ∧
    (∃ st, golSimBuffer W H dev seed n true = some st ∧
      st.calls.map HookCall.index = (List.range n).map (fun j => j + 1)) ∧
    (∃ st, golSimTexture W H dev seed n true = some st ∧
      st.calls.map HookCall.index = (List.range n).map (fun j => j + 1)) := by
  have hb : ∃ st, golSimBuffer W H dev seed n true = some st ∧
      st.calls.map HookCall.index = (List.range n).map (fun j => j + 1) := by
    obtain ⟨st, hst, _, hc⟩ := golSimBuffer_counter W H dev seed n true hcells hseed hn
    exact ⟨st, hst, by simpa using hc⟩
  refine ⟨?_, ?_, ?_, hb, ?_⟩
  · intro fs
    simp only [golSimBuffer, generationLoop_congr dev dev2 hw, newStorage_congr dev dev2 hf]
  · intro fs
    simp only [golSimTexture, generationLoop_congr dev dev2 hw, newStorage_congr dev dev2 hf]
  · intro c fs st
    exact ⟨generation_pRead dev c fs st, generation_pWrite dev c fs st⟩
  · rw [golSimTexture_eq_golSimBuffer W H dev seed n true hseed]
    exact hb

/-- The amended C7 at the grid size and the generation count of the source: the kernel of
Life on an accelerator that reports no error, against the same accelerator reporting a
device error on the dispatch of generation 3. -/
theorem device_status_not_read_witness :
    (GRID_WIDTH_src * GRID_HEIGHT_src < 2 ^ 31 ∧
      (gridOnes (GRID_WIDTH_src * GRID_HEIGHT_src)).length = GRID_WIDTH_src * GRID_HEIGHT_src ∧
      100 < UINT16_RANGE ∧
      ((reportingDevice (golKernel GRID_WIDTH_src GRID_HEIGHT_src) (fun i => i == 2)).execute 2
        [] []).ok = false) ∧
    ((∀ fs, golSimBuffer GRID_WIDTH_src GRID_HEIGHT_src
        (reportingDevice (golKernel GRID_WIDTH_src GRID_HEIGHT_src) (fun i => i == 2))
        (gridOnes (GRID_WIDTH_src * GRID_HEIGHT_src)) 100 fs =
      golSimBuffer GRID_WIDTH_src GRID_HEIGHT_src
        (reportingDevice (golKernel GRID_WIDTH_src GRID_HEIGHT_src) (fun _ => false))
        (gridOnes (GRID_WIDTH_src * GRID_HEIGHT_src)) 100 fs) ∧
     (∀ fs, golSimTexture GRID_WIDTH_src GRID_HEIGHT_src
        (reportingDevice (golKernel GRID_WIDTH_src GRID_HEIGHT_src) (fun i => i == 2))
        (gridOnes (GRID_WIDTH_src * GRID_HEIGHT_src)) 100 fs =
      golSimTexture GRID_WIDTH_src GRID_HEIGHT_src
        (reportingDevice (golKernel GRID_WIDTH_src GRID_HEIGHT_src) (fun _ => false))
        (gridOnes (GRID_WIDTH_src * GRID_HEIGHT_src)) 100 fs) ∧
     (∀ (c : Nat) (fs : Bool) (st : SimState),
      (generation (reportingDevice (golKernel GRID_WIDTH_src GRID_HEIGHT_src)
        (fun _ => false)) c fs st).pRead = st.pWrite ∧
      (generation (reportingDevice (golKernel GRID_WIDTH_src GRID_HEIGHT_src)
        (fun _ => false)) c fs st).pWrite = st.pRead) ∧
     (∃ st, golSimBuffer GRID_WIDTH_src GRID_HEIGHT_src
        (reportingDevice (golKernel GRID_WIDTH_src GRID_HEIGHT_src) (fun _ => false))
        (gridOnes (GRID_WIDTH_src * GRID_HEIGHT_src)) 100 true = some st ∧
      st.calls.map HookCall.index = (List.range 100).map (fun j => j + 1)) ∧
     (∃ st, golSimTexture GRID_WIDTH_src GRID_HEIGHT_src
        (reportingDevice (golKernel GRID_WIDTH_src GRID_HEIGHT_src) (fun _ => false))
        (gridOnes (GRID_WIDTH_src * GRID_HEIGHT_src)) 100 true = some st ∧
      st.calls.map HookCall.index = (List.range 100).map (fun j => j + 1))) :=
  ⟨⟨by decide, gridOnes_length _, by decide, rfl⟩,
    device_status_not_read GRID_WIDTH_src GRID_HEIGHT_src
      (reportingDevice (golKernel GRID_WIDTH_src GRID_HEIGHT_src) (fun _ => false))
      (reportingDevice (golKernel GRID_WIDTH_src GRID_HEIGHT_src) (fun i => i == 2))
      (gridOnes (GRID_WIDTH_src * GRID_HEIGHT_src)) 100 (by decide) (gridOnes_length _)
      (by decide) rfl (fun _ _ _ => rfl)⟩

/-! ## Dispatch geometry -/

theorem ceil_div_sixteen (w : Nat) : ⌈(w : ℚ) / 16⌉₊ = (w + 15) / 16 := by
  apply le_antisymm
  · rw [Nat.ceil_le, div_le_iff₀ (by norm_num : (0 : ℚ) < 16)]
    have h : w ≤ (w + 15) / 16 * 16 := by omega
    exact_mod_cast h
  · have h1 : (w : ℚ) / 16 ≤ ⌈(w : ℚ) / 16⌉₊ := Nat.le_ceil _
    rw [div_le_iff₀ (by norm_num : (0 : ℚ) < 16)] at h1
    have h2 : w ≤ ⌈(w : ℚ) / 16⌉₊ * 16 := by exact_mod_cast h1
    omega

/-- C8 (dispatch geometry). For every width and height of a `uint16_t`, divisible by 16 or
not, the sums `width + 15` and `height + 15` fit `int`, the threadgroup counts
`((width + 15) / 16, (height + 15) / 16, 1)` are `(ceil(width/16), ceil(height/16), 1)`,
and the number of dispatched 16 by 16 tiles is `ceil(width/16) * ceil(height/16)`. -/
theorem dispatch_geometry (W H : Nat) (hW : W < UINT16_RANGE) (hH : H < UINT16_RANGE) :
    numGroups W H = some (⌈(W : ℚ) / 16⌉₊, ⌈(H : ℚ) / 16⌉₊, 1) ∧
    (numGroups W H).map tileCount = some (⌈(W : ℚ) / 16⌉₊ * ⌈(H : ℚ) / 16⌉₊) ∧
    threadsPerThreadgroup = (16, 16, 1) := by
  have hw : W + 15 < 2 ^ 31 := by unfold UINT16_RANGE at hW; omega
  have hh : H + 15 < 2 ^ 31 := by unfold UINT16_RANGE at hH; omega
  have hg : numGroups W H = some (⌈(W : ℚ) / 16⌉₊, ⌈(H : ℚ) / 16⌉₊, 1) := by
    unfold numGroups intAdd
    rw [if_pos hw, if_pos hh, ceil_div_sixteen, ceil_div_sixteen]
  refine ⟨hg, ?_, rfl⟩
  rw [hg]
  simp [tileCount]

/-- The dispatch geometry at a width and a height that 16 does not divide. -/
theorem dispatch_geometry_witness :
    (500 < UINT16_RANGE ∧ 65535 < UINT16_RANGE) ∧
    (numGroups 500 65535 = some (⌈((500 : Nat) : ℚ) / 16⌉₊, ⌈((65535 : Nat) : ℚ) / 16⌉₊, 1) ∧
     (numGroups 500 65535).map tileCount
       = some (⌈((500 : Nat) : ℚ) / 16⌉₊ * ⌈((65535 : Nat) : ℚ) / 16⌉₊) ∧
     threadsPerThreadgroup = (16, 16, 1)) :=
  ⟨⟨by decide, by decide⟩, dispatch_geometry 500 65535 (by decide) (by decide)⟩

/-! ## The kernel of Life, cell by cell -/

theorem index_lt (W H x y : Nat) (hx : x < W) (hy : y < H) : y * W + x < W * H := by
  have h1 : (y + 1) * W ≤ H * W := Nat.mul_le_mul_right W hy
  rw [Nat.add_mul, Nat.one_mul] at h1
  rw [Nat.mul_comm W H]
  omega

theorem index_mod (W x y : Nat) (hx : x < W) : (y * W + x) % W = x := by
  rw [Nat.add_comm, Nat.add_mul_mod_self_right, Nat.mod_eq_of_lt hx]

theorem index_div (W x y : Nat) (hx : x < W) : (y * W + x) / W = y := by
  rw [Nat.add_comm, Nat.add_mul_div_right _ _ (by omega : 0 < W), Nat.div_eq_of_lt hx,
    Nat.zero_add]

theorem getD_map_range (n k : Nat) (f : Nat → Nat) (hk : k < n) :
    ((List.range n).map f).getD k DEAD = f k := by
  simp [List.getD_eq_getElem?_getD, List.getElem?_map, List.getElem?_range, hk]

/-- The cell `(x, y)` of the grid the kernel writes. -/
theorem golKernel_cell (W H : Nat) (cur : grid) (x y : Nat) (hx : x < W) (hy : y < H) :
    (golKernel W H cur).getD (y * W + x) DEAD
      = lifeRule (cur.getD (y * W + x) DEAD) (liveNeighbours W H cur x y) := by
  unfold golKernel
  rw [getD_map_range _ _ _ (index_lt W H x y hx hy), index_mod W x y hx, index_div W x y hx]

theorem neighbourOffsets_bound :
    ∀ d ∈ neighbourOffsets, d.1 ≤ 2 ∧ d.2 ≤ 2 ∧ (d.1 ≠ 1 ∨ d.2 ≠ 1) := by
  decide

/-- A cell none of whose neighbours inside the grid is ALIVE has no live neighbour. -/
theorem liveNeighbours_eq_zero (W H : Nat) (g : grid) (x y : Nat)
    (hlonely : ∀ u v, u < W → v < H → (u, v) ≠ (x, y) → u ≤ x + 1 → x ≤ u + 1 →
      v ≤ y + 1 → y ≤ v + 1 → g.getD (v * W + u) DEAD ≠ ALIVE) :
    liveNeighbours W H g x y = 0 := by
  unfold liveNeighbours
  rw [List.countP_eq_zero]
  intro d hd
  obtain ⟨h1, h2, h3⟩ := neighbourOffsets_bound d hd
  simp only [decide_eq_true_eq]
  unfold neighbourAt
  split_ifs with hb
  · apply hlonely (x + d.1 - 1) (y + d.2 - 1) (by omega) (by omega) _ (by omega) (by omega)
      (by omega) (by omega)
    intro h
    rw [Prod.mk.injEq] at h
    omega
  · decide

/-! ## Grids given by their ALIVE cells -/

theorem gridWith_cell (W H : Nat) (alive : List (Nat × Nat)) (x y : Nat) (hx : x < W)
    (hy : y < H) :
    (gridWith W H alive).getD (y * W + x) DEAD = if (x, y) ∈ alive then ALIVE else DEAD := by
  unfold gridWith
  rw [getD_map_range _ _ _ (index_lt W H x y hx hy), index_mod W x y hx, index_div W x y hx]

theorem gridWith_nil (W H : Nat) : gridWith W H [] = gridZeros (W * H) := by
  simp [gridWith, gridZeros, DEAD, List.eq_replicate_iff]

theorem neighbourAt_gridWith (W H : Nat) (alive : List (Nat × Nat)) (x y : Nat)
    (d : Nat × Nat) :
    neighbourAt W H (gridWith W H alive) x y d = ALIVE ↔
      (1 ≤ x + d.1 ∧ x + d.1 ≤ W ∧ 1 ≤ y + d.2 ∧ y + d.2 ≤ H) ∧
        (x + d.1 - 1, y + d.2 - 1) ∈ alive := by
  unfold neighbourAt
  split_ifs with hb
  · rw [gridWith_cell W H alive _ _ (by omega) (by omega)]
    split_ifs with hm
    · simp [hb, hm]
    · simp [hm, ALIVE, DEAD]
  · simp [hb, ALIVE, DEAD]

/-- The kernel maps the grid with ALIVE cells `alive` to the grid with ALIVE cells `next`
when the rule says so at every cell of the grid. -/
theorem golKernel_gridWith (W H : Nat) (alive next : List (Nat × Nat))
    (h : ∀ x y, x < W → y < H →
      lifeRule (if (x, y) ∈ alive then ALIVE else DEAD)
        (liveNeighbours W H (gridWith W H alive) x y)
        = if (x, y) ∈ next then ALIVE else DEAD) :
    golKernel W H (gridWith W H alive) = gridWith W H next := by
  unfold golKernel
  conv_rhs => unfold gridWith
  apply List.map_congr_left
  intro idx hidx
  rw [List.mem_range] at hidx
  have hW : 0 < W := by
    rcases Nat.eq_zero_or_pos W with h0 | h0
    · rw [h0, Nat.zero_mul] at hidx; omega
    · exact h0
  have hx : idx % W < W := Nat.mod_lt _ hW
  have hy : idx / W < H := by
    rw [Nat.div_lt_iff_lt_mul hW, Nat.mul_comm]; exact hidx
  have hidx2 : idx = idx / W * W + idx % W := by
    rw [Nat.mul_comm]; exact (Nat.div_add_mod idx W).symm
  have hc := gridWith_cell W H alive (idx % W) (idx / W) hx hy
  rw [← hidx2] at hc
  rw [hc]
  exact h _ _ hx hy

/-! ## The still life and the lonely cell -/

/-- The block seen from a cell at offset `(p - 2, q - 2)` from its corner: the rule keeps
every cell of the window as it is. -/
theorem block_window : ∀ p < 6, ∀ q < 6,
    lifeRule (if (p = 2 ∨ p = 3) ∧ (q = 2 ∨ q = 3) then ALIVE else DEAD)
      (neighbourOffsets.countP
        (fun d => decide ((p + d.1 = 3 ∨ p + d.1 = 4) ∧ (q + d.2 = 3 ∨ q + d.2 = 4))))
      = if (p = 2 ∨ p = 3) ∧ (q = 2 ∨ q = 3) then ALIVE else DEAD := by
  decide

/-- A single ALIVE cell seen from a cell at offset `(p - 1, q - 1)` from it: the rule
leaves every cell of the window DEAD. -/
theorem single_window : ∀ p < 3, ∀ q < 3,
    lifeRule (if p = 1 ∧ q = 1 then ALIVE else DEAD)
      (neighbourOffsets.countP (fun d => decide (p + d.1 = 2 ∧ q + d.2 = 2))) = DEAD := by
  decide

theorem mem_block (a b u v : Nat) :
    (u, v) ∈ [(a, b), (a + 1, b), (a, b + 1), (a + 1, b + 1)] ↔
      (u = a ∨ u = a + 1) ∧ (v = b ∨ v = b + 1) := by
  simp only [List.mem_cons, Prod.mk.injEq, List.mem_singleton, List.mem_nil_iff, or_false]
  omega

/-- The rule keeps every cell of a grid whose ALIVE cells are a 2 by 2 block. -/
theorem block_cell (W H a b x y : Nat) (ha : a + 1 < W) (hb : b + 1 < H) :
    lifeRule (if (x, y) ∈ [(a, b), (a + 1, b), (a, b + 1), (a + 1, b + 1)] then ALIVE else DEAD)
      (liveNeighbours W H (gridWith W H [(a, b), (a + 1, b), (a, b + 1), (a + 1, b + 1)]) x y)
      = if (x, y) ∈ [(a, b), (a + 1, b), (a, b + 1), (a + 1, b + 1)] then ALIVE else DEAD := by
  unfold liveNeighbours
  simp only [neighbourAt_gridWith, mem_block]
  by_cases hfar : x + 2 < a ∨ a + 3 < x ∨ y + 2 < b ∨ b + 3 < y
  · have hcount : neighbourOffsets.countP (fun d => decide
        ((1 ≤ x + d.1 ∧ x + d.1 ≤ W ∧ 1 ≤ y + d.2 ∧ y + d.2 ≤ H) ∧
          (x + d.1 - 1 = a ∨ x + d.1 - 1 = a + 1) ∧
          (y + d.2 - 1 = b ∨ y + d.2 - 1 = b + 1))) = 0 := by
      rw [List.countP_eq_zero]
      intro d hd
      obtain ⟨h1, h2, _⟩ := neighbourOffsets_bound d hd
      simp only [decide_eq_true_eq]
      omega
    have hout : ¬ ((x = a ∨ x = a + 1) ∧ (y = b ∨ y = b + 1)) := by omega
    rw [hcount, if_neg hout]
    rfl
  · obtain ⟨p, hp⟩ : ∃ p, x + 2 = a + p := ⟨x + 2 - a, by omega⟩
    obtain ⟨q, hq⟩ : ∃ q, y + 2 = b + q := ⟨y + 2 - b, by omega⟩
    have hcount : neighbourOffsets.countP (fun d => decide
        ((1 ≤ x + d.1 ∧ x + d.1 ≤ W ∧ 1 ≤ y + d.2 ∧ y + d.2 ≤ H) ∧
          (x + d.1 - 1 = a ∨ x + d.1 - 1 = a + 1) ∧
          (y + d.2 - 1 = b ∨ y + d.2 - 1 = b + 1)))
        = neighbourOffsets.countP (fun d => decide
          ((p + d.1 = 3 ∨ p + d.1 = 4) ∧ (q + d.2 = 3 ∨ q + d.2 = 4))) := by
      apply List.countP_congr
      intro d _
      simp only [decide_eq_true_eq]
      omega
    have hin : ((x = a ∨ x = a + 1) ∧ (y = b ∨ y = b + 1)) ↔
        ((p = 2 ∨ p = 3) ∧ (q = 2 ∨ q = 3)) := by omega
    rw [hcount]
    simp only [hin]
    exact block_window p (by omega) q (by omega)

/-- The kernel leaves a grid whose ALIVE cells are a 2 by 2 block as it is. -/
theorem golKernel_block (W H a b : Nat) (ha : a + 1 < W) (hb : b + 1 < H) :
    golKernel W H (gridWith W H [(a, b), (a + 1, b), (a, b + 1), (a + 1, b + 1)])
      = gridWith W H [(a, b), (a + 1, b), (a, b + 1), (a + 1, b + 1)] :=
  golKernel_gridWith W H _ _ (fun x y _ _ => block_cell W H a b x y ha hb)

/-- The rule leaves DEAD every cell of a grid with a single ALIVE cell. -/
theorem single_cell (W H a b x y : Nat) (ha : a < W) (hb : b < H) :
    lifeRule (if (x, y) ∈ [(a, b)] then ALIVE else DEAD)
      (liveNeighbours W H (gridWith W H [(a, b)]) x y)
      = if (x, y) ∈ ([] : List (Nat × Nat)) then ALIVE else DEAD := by
  unfold liveNeighbours
  simp only [neighbourAt_gridWith, List.mem_singleton, Prod.mk.injEq, List.not_mem_nil,
    if_false]
  by_cases hfar : x + 1 < a ∨ a + 1 < x ∨ y + 1 < b ∨ b + 1 < y
  · have hcount : neighbourOffsets.countP (fun d => decide
        ((1 ≤ x + d.1 ∧ x + d.1 ≤ W ∧ 1 ≤ y + d.2 ∧ y + d.2 ≤ H) ∧
          x + d.1 - 1 = a ∧ y + d.2 - 1 = b)) = 0 := by
      rw [List.countP_eq_zero]
      intro d hd
      obtain ⟨h1, h2, _⟩ := neighbourOffsets_bound d hd
      simp only [decide_eq_true_eq]
      omega
    have hout : ¬ (x = a ∧ y = b) := by omega
    rw [hcount, if_neg hout]
    rfl
  · obtain ⟨p, hp⟩ : ∃ p, x + 1 = a + p := ⟨x + 1 - a, by omega⟩
    obtain ⟨q, hq⟩ : ∃ q, y + 1 = b + q := ⟨y + 1 - b, by omega⟩
    have hcount : neighbourOffsets.countP (fun d => decide
        ((1 ≤ x + d.1 ∧ x + d.1 ≤ W ∧ 1 ≤ y + d.2 ∧ y + d.2 ≤ H) ∧
          x + d.1 - 1 = a ∧ y + d.2 - 1 = b))
        = neighbourOffsets.countP (fun d => decide (p + d.1 = 2 ∧ q + d.2 = 2)) := by
      apply List.countP_congr
      intro d _
      simp only [decide_eq_true_eq]
      omega
    have hin : (x = a ∧ y = b) ↔ (p = 1 ∧ q = 1) := by omega
    rw [hcount]
    simp only [hin]
    exact single_window p (by omega) q (by omega)

/-- The kernel maps a grid with a single ALIVE cell to the all-dead grid. -/
theorem golKernel_single (W H a b : Nat) (ha : a < W) (hb : b < H) :
    golKernel W H (gridWith W H [(a, b)]) = gridZeros (W * H) := by
  rw [← gridWith_nil]
  exact golKernel_gridWith W H _ _ (fun x y _ _ => single_cell W H a b x y ha hb)

/-- C9 (still life). On every grid whose only ALIVE cells are a 2 by 2 block, wherever the
block lies (against an edge and in a corner too), and for every generation count `n`, a run
of either driver on the kernel of Life returns the seed, and each of the `n` snapshots
handed to the hook is the seed. -/
theorem still_life (W H a b : Nat) (f : Bool → Nat → Nat) (n : Nat)
    (hcells : W * H < 2 ^ 31) (ha : a + 1 < W) (hb : b + 1 < H) (hn : n < UINT16_RANGE) :
    (∃ st, golSimBuffer W H (kernelDevice (golKernel W H) f)
        (gridWith W H [(a, b), (a + 1, b), (a, b + 1), (a + 1, b + 1)]) n true = some st ∧
      st.frameGrid = gridWith W H [(a, b), (a + 1, b), (a, b + 1), (a + 1, b + 1)] ∧
      st.calls.length = n ∧
      ∀ c ∈ st.calls,
        c.snapshot = gridWith W H [(a, b), (a + 1, b), (a, b + 1), (a + 1, b + 1)]) ∧
    (∃ st, golSimTexture W H (kernelDevice (golKernel W H) f)
        (gridWith W H [(a, b), (a + 1, b), (a, b + 1), (a + 1, b + 1)]) n true = some st ∧
      st.frameGrid = gridWith W H [(a, b), (a + 1, b), (a, b + 1), (a + 1, b + 1)] ∧
      st.calls.length = n ∧
      ∀ c ∈ st.calls,
        c.snapshot = gridWith W H [(a, b), (a + 1, b), (a, b + 1), (a + 1, b + 1)]) := by
  have hfix : ∀ k, (golKernel W H)^[k]
      (gridWith W H [(a, b), (a + 1, b), (a, b + 1), (a + 1, b + 1)])
      = gridWith W H [(a, b), (a + 1, b), (a, b + 1), (a + 1, b + 1)] :=
    fun k => Function.iterate_fixed (golKernel_block W H a b ha hb) k
  obtain ⟨sb, hsb, hfb, _, hcb⟩ := golSimBuffer_kernel W H (golKernel W H) f _ n true hcells
    (gridWith_length W H _) hn (fun g _ => golKernel_length W H g)
  obtain ⟨st, hst, hft, _, hct⟩ := golSimTexture_kernel W H (golKernel W H) f _ n true hcells
    (gridWith_length W H _) hn (fun g _ => golKernel_length W H g)
  simp only [if_true, hfix] at hcb hct
  rw [hfix] at hfb hft
  refine ⟨⟨sb, hsb, hfb, ?_, ?_⟩, ⟨st, hst, hft, ?_, ?_⟩⟩
  · rw [hcb]; simp
  · intro c hc
    rw [hcb, List.mem_map] at hc
    obtain ⟨j, _, rfl⟩ := hc
    exact hfix (j + 1)
  · rw [hct]; simp
  · intro c hc
    rw [hct, List.mem_map] at hc
    obtain ⟨j, _, rfl⟩ := hc
    exact hfix (j + 1)

/-- The still life at the grid size and the generation count of the source, with the block
in the corner opposite the origin. -/
theorem still_life_witness :
    (GRID_WIDTH_src * GRID_HEIGHT_src < 2 ^ 31 ∧ 510 + 1 < GRID_WIDTH_src ∧
      510 + 1 < GRID_HEIGHT_src ∧ 100 < UINT16_RANGE) ∧
    ((∃ st, golSimBuffer GRID_WIDTH_src GRID_HEIGHT_src
        (kernelDevice (golKernel GRID_WIDTH_src GRID_HEIGHT_src) (fun _ _ => 0))
        (gridWith GRID_WIDTH_src GRID_HEIGHT_src
          [(510, 510), (510 + 1, 510), (510, 510 + 1), (510 + 1, 510 + 1)]) 100 true = some st ∧
      st.frameGrid = gridWith GRID_WIDTH_src GRID_HEIGHT_src
          [(510, 510), (510 + 1, 510), (510, 510 + 1), (510 + 1, 510 + 1)] ∧
      st.calls.length = 100 ∧
      ∀ c ∈ st.calls, c.snapshot = gridWith GRID_WIDTH_src GRID_HEIGHT_src
          [(510, 510), (510 + 1, 510), (510, 510 + 1), (510 + 1, 510 + 1)]) ∧
     (∃ st, golSimTexture GRID_WIDTH_src GRID_HEIGHT_src
        (kernelDevice (golKernel GRID_WIDTH_src GRID_HEIGHT_src) (fun _ _ => 0))
        (gridWith GRID_WIDTH_src GRID_HEIGHT_src
          [(510, 510), (510 + 1, 510), (510, 510 + 1), (510 + 1, 510 + 1)]) 100 true = some st ∧
      st.frameGrid = gridWith GRID_WIDTH_src GRID_HEIGHT_src
          [(510, 510), (510 + 1, 510), (510, 510 + 1), (510 + 1, 510 + 1)] ∧
      st.calls.length = 100 ∧
      ∀ c ∈ st.calls, c.snapshot = gridWith GRID_WIDTH_src GRID_HEIGHT_src
          [(510, 510), (510 + 1, 510), (510, 510 + 1), (510 + 1, 510 + 1)])) :=
  ⟨⟨by decide, by decide, by decide, by decide⟩,
    still_life GRID_WIDTH_src GRID_HEIGHT_src 510 510 (fun _ _ => 0) 100 (by decide)
      (by decide) (by decide) (by decide)⟩

/-- C10 (underpopulation). In every grid of `GRID_WIDTH * GRID_HEIGHT` cells, an ALIVE cell
`(x, y)` none of whose neighbours inside the grid is ALIVE is DEAD in the grid returned
after 1 generation of the kernel of Life; and the grid whose only ALIVE cell is `(x, y)`
is all DEAD after 1 generation. -/
theorem underpopulation (W H : Nat) (f : Bool → Nat → Nat) (fs : Bool) (g : grid)
    (x y : Nat) (hcells : W * H < 2 ^ 31) (hg : g.length = W * H) (hx : x < W) (hy : y < H)
    (halive : g.getD (y * W + x) DEAD = ALIVE)
    (hlonely : ∀ u v, u < W → v < H → (u, v) ≠ (x, y) → u ≤ x + 1 → x ≤ u + 1 →
      v ≤ y + 1 → y ≤ v + 1 → g.getD (v * W + u) DEAD ≠ ALIVE) :
    (∃ st, golSimBuffer W H (kernelDevice (golKernel W H) f) g 1 fs = some st ∧
      st.frameGrid.getD (y * W + x) DEAD = DEAD) ∧
    (∃ st, golSimBuffer W H (kernelDevice (golKernel W H) f) (gridWith W H [(x, y)]) 1 fs
        = some st ∧
      st.frameGrid = gridZeros (W * H)) := by
  obtain ⟨s1, hs1, hf1, _⟩ := golSimBuffer_kernel W H (golKernel W H) f g 1 fs hcells hg
    (by decide) (fun g _ => golKernel_length W H g)
  obtain ⟨s2, hs2, hf2, _⟩ := golSimBuffer_kernel W H (golKernel W H) f
    (gridWith W H [(x, y)]) 1 fs hcells (gridWith_length W H _) (by decide)
    (fun g _ => golKernel_length W H g)
  refine ⟨⟨s1, hs1, ?_⟩, ⟨s2, hs2, ?_⟩⟩
  · rw [hf1, Function.iterate_one, golKernel_cell W H g x y hx hy, halive,
      liveNeighbours_eq_zero W H g x y hlonely]
    rfl
  · rw [hf2, Function.iterate_one]
    exact golKernel_single W H x y hx hy

/-- Underpopulation on a 4 by 3 grid with two ALIVE cells that are not neighbours, at the
cell `(0, 0)`. -/
theorem underpopulation_witness :
    (4 * 3 < 2 ^ 31 ∧ ([1, 0, 0, 0, 0, 0, 0, 0, 0, 0, 0, 1] : grid).length = 4 * 3 ∧
      0 < 4 ∧ 0 < 3 ∧
      ([1, 0, 0, 0, 0, 0, 0, 0, 0, 0, 0, 1] : grid).getD (0 * 4 + 0) DEAD = ALIVE) ∧
    ((∃ st, golSimBuffer 4 3 (kernelDevice (golKernel 4 3) (fun _ _ => 0))
        [1, 0, 0, 0, 0, 0, 0, 0, 0, 0, 0, 1] 1 true = some st ∧
      st.frameGrid.getD (0 * 4 + 0) DEAD = DEAD) ∧
     (∃ st, golSimBuffer 4 3 (kernelDevice (golKernel 4 3) (fun _ _ => 0))
        (gridWith 4 3 [(0, 0)]) 1 true = some st ∧
      st.frameGrid = gridZeros (4 * 3))) :=
  ⟨⟨by decide, by decide, by decide, by decide, by decide⟩,
    underpopulation 4 3 (fun _ _ => 0) true [1, 0, 0, 0, 0, 0, 0, 0, 0, 0, 0, 1] 0 0
      (by decide) (by decide) (by decide) (by decide) (by decide)
      (by
        intro u v hu hv hne h1 _ h2 _
        have hu2 : u ≤ 1 := by omega
        have hv2 : v ≤ 1 := by omega
        interval_cases u <;> interval_cases v <;> first | exact absurd rfl hne | decide)⟩

/-! ## Patterns near the origin, for every grid size -/

/-- A pattern `S` inside the square of side `m` at the origin, on a grid at least `m` wide
and high: when the rule, checked on the square of side `m + 1`, gives the pattern `next`,
the kernel maps the grid with ALIVE cells `S` to the grid with ALIVE cells `next`. -/
theorem golKernel_window (W H m : Nat) (S next : List (Nat × Nat)) (hW : m ≤ W) (hH : m ≤ H)
    (hS : ∀ c ∈ S, c.1 < m ∧ c.2 < m) (hnext : ∀ c ∈ next, c.1 < m + 1 ∧ c.2 < m + 1)
    (hwin : ∀ x < m + 1, ∀ y < m + 1,
      lifeRule (if (x, y) ∈ S then ALIVE else DEAD)
        (neighbourOffsets.countP
          (fun d => decide (1 ≤ x + d.1 ∧ 1 ≤ y + d.2 ∧ (x + d.1 - 1, y + d.2 - 1) ∈ S)))
        = if (x, y) ∈ next then ALIVE else DEAD) :
    golKernel W H (gridWith W H S) = gridWith W H next := by
  apply golKernel_gridWith
  intro x y _ _
  unfold liveNeighbours
  simp only [neighbourAt_gridWith]
  by_cases hnear : x < m + 1 ∧ y < m + 1
  · have hcount : neighbourOffsets.countP (fun d => decide
        ((1 ≤ x + d.1 ∧ x + d.1 ≤ W ∧ 1 ≤ y + d.2 ∧ y + d.2 ≤ H) ∧
          (x + d.1 - 1, y + d.2 - 1) ∈ S))
        = neighbourOffsets.countP (fun d => decide
          (1 ≤ x + d.1 ∧ 1 ≤ y + d.2 ∧ (x + d.1 - 1, y + d.2 - 1) ∈ S)) := by
      apply List.countP_congr
      intro d _
      simp only [decide_eq_true_eq]
      constructor
      · rintro ⟨⟨h1, _, h2, _⟩, hm⟩
        exact ⟨h1, h2, hm⟩
      · rintro ⟨h1, h2, hm⟩
        have hb := hS _ hm
        simp only at hb
        exact ⟨⟨h1, by omega, h2, by omega⟩, hm⟩
    rw [hcount]
    exact hwin x hnear.1 y hnear.2
  · have hcount : neighbourOffsets.countP (fun d => decide
        ((1 ≤ x + d.1 ∧ x + d.1 ≤ W ∧ 1 ≤ y + d.2 ∧ y + d.2 ≤ H) ∧
          (x + d.1 - 1, y + d.2 - 1) ∈ S)) = 0 := by
      rw [List.countP_eq_zero]
      intro d _
      simp only [decide_eq_true_eq]
      rintro ⟨⟨h1, _, h2, _⟩, hm⟩
      have hb := hS _ hm
      simp only at hb
      omega
    have hin : (x, y) ∉ S := by
      intro hm
      have hb := hS _ hm
      simp only at hb
      omega
    have hout : (x, y) ∉ next := by
      intro hm
      have hb := hnext _ hm
      simp only at hb
      omega
    rw [hcount, if_neg hin, if_neg hout]
    rfl

/-- Four generations of the kernel move the glider by `(+1, +1)` on every grid at least 5
wide and 5 high. -/
theorem glider_any_size (W H : Nat) (hW : 5 ≤ W) (hH : 5 ≤ H) :
    (golKernel W H)^[4] (gridWith W H [(2, 1), (3, 2), (1, 3), (2, 3), (3, 3)])
      = gridWith W H [(3, 2), (4, 3), (2, 4), (3, 4), (4, 4)] := by
  have h1 := golKernel_window W H 5 [(2, 1), (3, 2), (1, 3), (2, 3), (3, 3)]
    [(1, 2), (3, 2), (2, 3), (3, 3), (2, 4)] hW hH (by decide) (by decide) (by decide)
  have h2 := golKernel_window W H 5 [(1, 2), (3, 2), (2, 3), (3, 3), (2, 4)]
    [(3, 2), (1, 3), (3, 3), (2, 4), (3, 4)] hW hH (by decide) (by decide) (by decide)
  have h3 := golKernel_window W H 5 [(3, 2), (1, 3), (3, 3), (2, 4), (3, 4)]
    [(2, 2), (3, 3), (4, 3), (2, 4), (3, 4)] hW hH (by decide) (by decide) (by decide)
  have h4 := golKernel_window W H 5 [(2, 2), (3, 3), (4, 3), (2, 4), (3, 4)]
    [(3, 2), (4, 3), (2, 4), (3, 4), (4, 4)] hW hH (by decide) (by decide) (by decide)
  simp only [Function.iterate_succ, Function.iterate_zero, Function.comp_apply, id_eq]
  rw [h1, h2, h3, h4]

/-- C3 (glider scenario). With the grid 8 by 8, from the seed whose only ALIVE cells are
`(2,1), (3,2), (1,3), (2,3), (3,3)`, a run of 4 generations of either driver on the kernel
of Life returns the 8 by 8 grid whose only ALIVE cells are `(3,2), (4,3), (2,4), (3,4),
(4,4)`: the same shape moved by `(+1, +1)`, equal cell by cell. The same holds at the grid
size of the source, 512 by 512, with the glider at the same coordinates. -/
theorem glider_scenario (f : Bool → Nat → Nat) (fs : Bool) :
    (∃ st, golSimBuffer 8 8 (kernelDevice (golKernel 8 8) f) gliderSeed 4 fs = some st ∧
      st.frameGrid = gliderShifted) ∧
    (∃ st, golSimTexture 8 8 (kernelDevice (golKernel 8 8) f) gliderSeed 4 fs = some st ∧
      st.frameGrid = gliderShifted) ∧
    (∃ st, golSimBuffer GRID_WIDTH_src GRID_HEIGHT_src
        (kernelDevice (golKernel GRID_WIDTH_src GRID_HEIGHT_src) f)
        (gridWith GRID_WIDTH_src GRID_HEIGHT_src [(2, 1), (3, 2), (1, 3), (2, 3), (3, 3)])
        4 fs = some st ∧
      st.frameGrid
        = gridWith GRID_WIDTH_src GRID_HEIGHT_src [(3, 2), (4, 3), (2, 4), (3, 4), (4, 4)]) ∧
    (∃ st, golSimTexture GRID_WIDTH_src GRID_HEIGHT_src
        (kernelDevice (golKernel GRID_WIDTH_src GRID_HEIGHT_src) f)
        (gridWith GRID_WIDTH_src GRID_HEIGHT_src [(2, 1), (3, 2), (1, 3), (2, 3), (3, 3)])
        4 fs = some st ∧
      st.frameGrid
        = gridWith GRID_WIDTH_src GRID_HEIGHT_src [(3, 2), (4, 3), (2, 4), (3, 4), (4, 4)]) := by
  obtain ⟨sb, hb, hfb, _⟩ := golSimBuffer_kernel 8 8 (golKernel 8 8) f gliderSeed 4 fs
    (by decide) (by decide) (by decide) (fun g _ => golKernel_length 8 8 g)
  obtain ⟨st, ht, hft, _⟩ := golSimTexture_kernel 8 8 (golKernel 8 8) f gliderSeed 4 fs
    (by decide) (by decide) (by decide) (fun g _ => golKernel_length 8 8 g)
  obtain ⟨sb2, hb2, hfb2, _⟩ := golSimBuffer_kernel GRID_WIDTH_src GRID_HEIGHT_src
    (golKernel GRID_WIDTH_src GRID_HEIGHT_src) f
    (gridWith GRID_WIDTH_src GRID_HEIGHT_src [(2, 1), (3, 2), (1, 3), (2, 3), (3, 3)]) 4 fs
    (by decide) (gridWith_length _ _ _) (by decide) (fun g _ => golKernel_length _ _ g)
  obtain ⟨st2, ht2, hft2, _⟩ := golSimTexture_kernel GRID_WIDTH_src GRID_HEIGHT_src
    (golKernel GRID_WIDTH_src GRID_HEIGHT_src) f
    (gridWith GRID_WIDTH_src GRID_HEIGHT_src [(2, 1), (3, 2), (1, 3), (2, 3), (3, 3)]) 4 fs
    (by decide) (gridWith_length _ _ _) (by decide) (fun g _ => golKernel_length _ _ g)
  have hg := glider_any_size GRID_WIDTH_src GRID_HEIGHT_src (by decide) (by decide)
  exact ⟨⟨sb, hb, hfb.trans glider_four_generations⟩,
    ⟨st, ht, hft.trans glider_four_generations⟩,
    ⟨sb2, hb2, hfb2.trans hg⟩, ⟨st2, ht2, hft2.trans hg⟩⟩

/-! ## The storage pair -/

theorem generation_storage0 (dev : Device) (c : Nat) (fs : Bool) (st : SimState) :
    (generation dev c fs st).storage0 =
      if st.pWrite then st.storage0
      else (dev.execute st.i (st.contents st.pRead) (st.contents st.pWrite)).written := by
  cases fs <;> cases hw : st.pWrite <;>
    simp [generation, increment, callHook, readBack, swap, dispatch, SimState.store, hw]

theorem generation_storage1 (dev : Device) (c : Nat) (fs : Bool) (st : SimState) :
    (generation dev c fs st).storage1 =
      if st.pWrite then (dev.execute st.i (st.contents st.pRead) (st.contents st.pWrite)).written
      else st.storage1 := by
  cases fs <;> cases hw : st.pWrite <;>
    simp [generation, increment, callHook, readBack, swap, dispatch, SimState.store, hw]

/-- The handles after `k` iterations from the entry state: `pRead` names the storage
allocated second exactly when `k` is odd, `pWrite` names the other one. -/
theorem iterate_handles (dev : Device) (c : Nat) (fs : Bool) (s0 s1 : grid) (cells : Nat) :
    ∀ k, ((generation dev c fs)^[k] (entryState s0 s1 cells)).pRead = decide (k % 2 = 1) ∧
      ((generation dev c fs)^[k] (entryState s0 s1 cells)).pWrite = decide (k % 2 = 0) := by
  intro k
  induction k with
  | zero => exact ⟨rfl, rfl⟩
  | succ k ih =>
    obtain ⟨hr, hw⟩ := ih
    rw [Function.iterate_succ_apply', generation_pRead, generation_pWrite, hr, hw]
    constructor
    · rw [decide_eq_decide]; omega
    · rw [decide_eq_decide]; omega

theorem contents_length (N : Nat) (st : SimState) (h : st.Shaped N) (b : Bool) :
    (st.contents b).length = N := by
  cases b
  · simpa [SimState.contents] using h.1
  · simpa [SimState.contents] using h.2.1

/-- One generation on a well-formed accelerator keeps the sizes. -/
theorem generation_shaped (dev : Device) (N c : Nat) (fs : Bool) (st : SimState)
    (hdev : dev.WellFormed N) (hc : c ≤ N) (h : st.Shaped N) :
    (generation dev c fs st).Shaped N := by
  have hfg : (generation dev c fs st).frameGrid.length = N := by
    rw [generation_frameGrid, copyCells_length _ _ _ (by rw [hdev]; exact hc)
      (by rw [h.2.2.1]; exact hc)]
    exact h.2.2.1
  refine ⟨?_, ?_, hfg, ?_, ?_⟩
  · rw [generation_storage0]
    split_ifs
    · exact h.1
    · exact hdev _ _ _
  · rw [generation_storage1]
    split_ifs
    · exact hdev _ _ _
    · exact h.2.1
  · rw [generation_pRead, generation_pWrite, h.2.2.2.1]
    simp
  · intro call hcall
    rw [generation_calls] at hcall
    cases fs
    · exact h.2.2.2.2 call (by simpa using hcall)
    · simp only [if_true, List.mem_append, List.mem_singleton] at hcall
      rcases hcall with hold | rfl
      · exact h.2.2.2.2 call hold
      · exact hfg

theorem iterate_shaped (dev : Device) (N c : Nat) (fs : Bool) (st : SimState)
    (hdev : dev.WellFormed N) (hc : c ≤ N) (h : st.Shaped N) (k : Nat) :
    ((generation dev c fs)^[k] st).Shaped N := by
  induction k with
  | zero => simpa using h
  | succ k ih =>
    rw [Function.iterate_succ_apply']
    exact generation_shaped dev N c fs _ hdev hc ih

theorem readBack_shaped (N c : Nat) (st : SimState) (hc : c ≤ N) (h : st.Shaped N) :
    (readBack c st).Shaped N := by
  refine ⟨h.1, h.2.1, ?_, h.2.2.2.1, h.2.2.2.2⟩
  simp only [readBack]
  rw [copyCells_length _ _ _ (by rw [contents_length N st h]; exact hc)
    (by rw [h.2.2.1]; exact hc)]
  exact h.2.2.1

theorem ingestBuffer_eq (W H : Nat) (dev : Device) (seed : grid) (hcells : W * H < 2 ^ 31)
    (hseed : seed.length ≤ W * H) :
    ingestBuffer W H dev seed =
      some (entryState (copyCells seed seed.length (newStorage dev false (W * H)))
        (newStorage dev true (W * H)) (W * H)) := by
  unfold ingestBuffer
  rw [gridCells_eq W H hcells]
  simp only [hseed, if_true]

theorem ingestTexture_eq (W H : Nat) (dev : Device) (seed : grid) (hcells : W * H < 2 ^ 31)
    (hseed : W * H ≤ seed.length) :
    ingestTexture W H dev seed =
      some (entryState (copyCells seed (W * H) (newStorage dev false (W * H)))
        (newStorage dev true (W * H)) (W * H)) := by
  unfold ingestTexture
  rw [gridCells_eq W H hcells]
  simp only [hseed, if_true]

/-- The driver `golSimBuffer` is its loop and its last read-back run from the state
`ingestBuffer` builds. -/
theorem golSimBuffer_from_ingest (W H : Nat) (dev : Device) (seed : grid) (n : Nat)
    (fs : Bool) :
    golSimBuffer W H dev seed n fs =
      (ingestBuffer W H dev seed).bind (fun st0 =>
        (generationLoop dev seed.length fs n UINT16_RANGE st0).map (readBack seed.length)) := by
  unfold golSimBuffer ingestBuffer
  cases gridCells W H with
  | none => rfl
  | some cells =>
    simp only
    split_ifs <;> rfl

/-- The driver `golSimTexture` is its loop and its last read-back run from the state
`ingestTexture` builds. -/
theorem golSimTexture_from_ingest (W H : Nat) (dev : Device) (seed : grid) (n : Nat)
    (fs : Bool) :
    golSimTexture W H dev seed n fs =
      (ingestTexture W H dev seed).bind (fun st0 =>
        (generationLoop dev (W * H) fs n UINT16_RANGE st0).map (readBack (W * H))) := by
  unfold golSimTexture ingestTexture gridCells
  by_cases h : W * H < 2 ^ 31
  · simp only [if_pos h]
    split_ifs <;> rfl
  · simp only [if_neg h]
    rfl

/-- The run of `golSimBuffer` on a seed no longer than the buffer, as the read-back of an
iterate. -/
theorem golSimBuffer_run (W H : Nat) (dev : Device) (seed : grid) (n : Nat) (fs : Bool)
    (hcells : W * H < 2 ^ 31) (hseed : seed.length ≤ W * H) (hn : n < UINT16_RANGE) :
    golSimBuffer W H dev seed n fs =
      some (readBack seed.length ((generation dev seed.length fs)^[n]
        (entryState (copyCells seed seed.length (newStorage dev false (W * H)))
          (newStorage dev true (W * H)) (W * H)))) := by
  rw [golSimBuffer_from_ingest, ingestBuffer_eq W H dev seed hcells hseed]
  simp only [Option.some_bind]
  rw [generationLoop_eq_iterate dev seed.length fs n hn n UINT16_RANGE _
    (by simp [entryState]) hn]
  rfl

/-- The run of `golSimTexture` on a seed no shorter than the region, as the read-back of
an iterate. -/
theorem golSimTexture_run (W H : Nat) (dev : Device) (seed : grid) (n : Nat) (fs : Bool)
    (hcells : W * H < 2 ^ 31) (hseed : W * H ≤ seed.length) (hn : n < UINT16_RANGE) :
    golSimTexture W H dev seed n fs =
      some (readBack (W * H) ((generation dev (W * H) fs)^[n]
        (entryState (copyCells seed (W * H) (newStorage dev false (W * H)))
          (newStorage dev true (W * H)) (W * H)))) := by
  rw [golSimTexture_from_ingest, ingestTexture_eq W H dev seed hcells hseed]
  simp only [Option.some_bind]
  rw [generationLoop_eq_iterate dev (W * H) fs n hn n UINT16_RANGE _
    (by simp [entryState]) hn]
  rfl

theorem entryState_shaped (s0 s1 : grid) (N : Nat) (h0 : s0.length = N) (h1 : s1.length = N) :
    (entryState s0 s1 N).Shaped N := by
  refine ⟨h0, h1, gridZeros_length N, rfl, ?_⟩
  intro c hc
  simp [entryState] at hc

theorem lifeDevice_wellFormed (W H : Nat) (f : Bool → Nat → Nat) :
    (kernelDevice (golKernel W H) f).WellFormed (W * H) := by
  intro i rd wr
  rw [kernelDevice_written]
  exact golKernel_length W H rd

/-- C11 (storage pair and swap). For every accelerator, after any number `k` of iterations
the handles `pRead` and `pWrite` name the two different storages allocated at the start;
`swap` exchanges the two handles and changes no cell of either storage nor of `frameGrid`,
and two swaps restore the handles; the storage bound at slot 0 in iteration `k + 1` is the
one bound at slot 1 in iteration `k`; and `pRead` names the storage allocated first exactly
when `k` is even. The same holds at the end of a run of either driver. -/
theorem storage_pair_swap (W H : Nat) (dev : Device) (seed : grid) (n : Nat) (fs : Bool)
    (hcells : W * H < 2 ^ 31) (hseed : seed.length = W * H) (hn : n < UINT16_RANGE) :
    (∀ (c : Nat) (s0 s1 : grid) (cells k : Nat),
      ((generation dev c fs)^[k] (entryState s0 s1 cells)).pWrite
        = !((generation dev c fs)^[k] (entryState s0 s1 cells)).pRead ∧
      (((generation dev c fs)^[k] (entryState s0 s1 cells)).pRead = false ↔ k % 2 = 0) ∧
      ((generation dev c fs)^[k + 1] (entryState s0 s1 cells)).pRead
        = ((generation dev c fs)^[k] (entryState s0 s1 cells)).pWrite) ∧
    (∀ st : SimState, (swap st).storage0 = st.storage0 ∧ (swap st).storage1 = st.storage1 ∧
      (swap st).frameGrid = st.frameGrid ∧ (swap st).pRead = st.pWrite ∧
      (swap st).pWrite = st.pRead ∧ swap (swap st) = st) ∧
    (∃ st, golSimBuffer W H dev seed n fs = some st ∧ st.pWrite = !st.pRead ∧
      (st.pRead = false ↔ n % 2 = 0)) ∧
    (∃ st, golSimTexture W H dev seed n fs = some st ∧ st.pWrite = !st.pRead ∧
      (st.pRead = false ↔ n % 2 = 0)) := by
  have hiter : ∀ (c : Nat) (s0 s1 : grid) (cells k : Nat),
      ((generation dev c fs)^[k] (entryState s0 s1 cells)).pWrite
        = !((generation dev c fs)^[k] (entryState s0 s1 cells)).pRead ∧
      (((generation dev c fs)^[k] (entryState s0 s1 cells)).pRead = false ↔ k % 2 = 0) := by
    intro c s0 s1 cells k
    obtain ⟨hr, hw⟩ := iterate_handles dev c fs s0 s1 cells k
    rw [hr, hw]
    rcases Nat.mod_two_eq_zero_or_one k with h | h <;> simp [h]
  have hb : ∃ st, golSimBuffer W H dev seed n fs = some st ∧ st.pWrite = !st.pRead ∧
      (st.pRead = false ↔ n % 2 = 0) := by
    refine ⟨_, golSimBuffer_eq W H dev seed n fs hcells hseed hn, ?_, ?_⟩
    · exact (hiter (W * H) seed _ (W * H) n).1
    · exact (hiter (W * H) seed _ (W * H) n).2
  refine ⟨?_, ?_, hb, ?_⟩
  · intro c s0 s1 cells k
    refine ⟨(hiter c s0 s1 cells k).1, (hiter c s0 s1 cells k).2, ?_⟩
    rw [Function.iterate_succ_apply', generation_pRead]
  · intro st
    exact ⟨rfl, rfl, rfl, rfl, rfl, rfl⟩
  · rw [golSimTexture_eq_golSimBuffer W H dev seed n fs hseed]
    exact hb

/-- The storage pair at the grid size and the generation count of the source, on an
accelerator whose dispatches all fail. -/
theorem storage_pair_swap_witness :
    (GRID_WIDTH_src * GRID_HEIGHT_src < 2 ^ 31 ∧
      (gridOnes (GRID_WIDTH_src * GRID_HEIGHT_src)).length = GRID_WIDTH_src * GRID_HEIGHT_src ∧
      100 < UINT16_RANGE) ∧
    ((∀ (c : Nat) (s0 s1 : grid) (cells k : Nat),
      ((generation faultyDevice c true)^[k] (entryState s0 s1 cells)).pWrite
        = !((generation faultyDevice c true)^[k] (entryState s0 s1 cells)).pRead ∧
      (((generation faultyDevice c true)^[k] (entryState s0 s1 cells)).pRead = false
        ↔ k % 2 = 0) ∧
      ((generation faultyDevice c true)^[k + 1] (entryState s0 s1 cells)).pRead
        = ((generation faultyDevice c true)^[k] (entryState s0 s1 cells)).pWrite) ∧
    (∀ st : SimState, (swap st).storage0 = st.storage0 ∧ (swap st).storage1 = st.storage1 ∧
      (swap st).frameGrid = st.frameGrid ∧ (swap st).pRead = st.pWrite ∧
      (swap st).pWrite = st.pRead ∧ swap (swap st) = st) ∧
    (∃ st, golSimBuffer GRID_WIDTH_src GRID_HEIGHT_src faultyDevice
        (gridOnes (GRID_WIDTH_src * GRID_HEIGHT_src)) 100 true = some st ∧
      st.pWrite = !st.pRead ∧ (st.pRead = false ↔ 100 % 2 = 0)) ∧
    (∃ st, golSimTexture GRID_WIDTH_src GRID_HEIGHT_src faultyDevice
        (gridOnes (GRID_WIDTH_src * GRID_HEIGHT_src)) 100 true = some st ∧
      st.pWrite = !st.pRead ∧ (st.pRead = false ↔ 100 % 2 = 0))) :=
  ⟨⟨by decide, gridOnes_length _, by decide⟩,
    storage_pair_swap GRID_WIDTH_src GRID_HEIGHT_src faultyDevice _ 100 true (by decide)
      (gridOnes_length _) (by decide)⟩

/-- C12 (ingest). On a seed grid of `GRID_WIDTH * GRID_HEIGHT` cells, the state either
driver enters its loop with has `pRead` on the storage allocated first, holding the seed
cell for cell, and `pWrite` on the storage allocated second, holding what the allocation
left there: the host has written nothing to it. The hook has not been called. The seed is
a `const` reference in the source and a value here: no step can change it. -/
theorem ingest_seed (W H : Nat) (dev : Device) (seed : grid) (hcells : W * H < 2 ^ 31)
    (hseed : seed.length = W * H) :
    (∃ st0, ingestBuffer W H dev seed = some st0 ∧ st0.pRead = false ∧ st0.pWrite = true ∧
      st0.contents st0.pRead = seed ∧
      (∀ i, i < W * H → (st0.contents st0.pRead).getD i 0 = seed.getD i 0) ∧
      st0.contents st0.pWrite = newStorage dev true (W * H) ∧
      (∀ i, i < W * H → (st0.contents st0.pWrite).getD i 0 = dev.fresh true i) ∧
      st0.calls = []) ∧
    (∃ st0, ingestTexture W H dev seed = some st0 ∧ st0.pRead = false ∧ st0.pWrite = true ∧
      st0.contents st0.pRead = seed ∧
      (∀ i, i < W * H → (st0.contents st0.pRead).getD i 0 = seed.getD i 0) ∧
      st0.contents st0.pWrite = newStorage dev true (W * H) ∧
      (∀ i, i < W * H → (st0.contents st0.pWrite).getD i 0 = dev.fresh true i) ∧
      st0.calls = []) := by
  have hfresh : ∀ i, i < W * H → (newStorage dev true (W * H)).getD i 0 = dev.fresh true i := by
    intro i hi
    exact getD_map_range (W * H) i (dev.fresh true) hi
  have h0 : copyCells seed seed.length (newStorage dev false (W * H)) = seed := by
    rw [hseed]
    exact copyCells_full seed _ (W * H) hseed (newStorage_length dev false (W * H))
  have h1 : copyCells seed (W * H) (newStorage dev false (W * H)) = seed :=
    copyCells_full seed _ (W * H) hseed (newStorage_length dev false (W * H))
  refine ⟨⟨_, ingestBuffer_eq W H dev seed hcells (le_of_eq hseed), rfl, rfl, ?_, ?_, rfl,
    hfresh, rfl⟩, ⟨_, ingestTexture_eq W H dev seed hcells (le_of_eq hseed.symm), rfl, rfl,
    ?_, ?_, rfl, hfresh, rfl⟩⟩
  · simpa [entryState, SimState.contents] using h0
  · intro i _
    simp only [entryState, SimState.contents]
    simp [h0]
  · simpa [entryState, SimState.contents] using h1
  · intro i _
    simp only [entryState, SimState.contents]
    simp [h1]

/-- Ingest at the grid size of the source, on a seed that holds a glider. -/
theorem ingest_seed_witness :
    (GRID_WIDTH_src * GRID_HEIGHT_src < 2 ^ 31 ∧
      (gridWith GRID_WIDTH_src GRID_HEIGHT_src [(2, 1), (3, 2), (1, 3), (2, 3), (3, 3)]).length
        = GRID_WIDTH_src * GRID_HEIGHT_src) ∧
    ((∃ st0, ingestBuffer GRID_WIDTH_src GRID_HEIGHT_src faultyDevice
        (gridWith GRID_WIDTH_src GRID_HEIGHT_src [(2, 1), (3, 2), (1, 3), (2, 3), (3, 3)])
        = some st0 ∧ st0.pRead = false ∧ st0.pWrite = true ∧
      st0.contents st0.pRead
        = gridWith GRID_WIDTH_src GRID_HEIGHT_src [(2, 1), (3, 2), (1, 3), (2, 3), (3, 3)] ∧
      (∀ i, i < GRID_WIDTH_src * GRID_HEIGHT_src → (st0.contents st0.pRead).getD i 0
        = (gridWith GRID_WIDTH_src GRID_HEIGHT_src
            [(2, 1), (3, 2), (1, 3), (2, 3), (3, 3)]).getD i 0) ∧
      st0.contents st0.pWrite = newStorage faultyDevice true (GRID_WIDTH_src * GRID_HEIGHT_src) ∧
      (∀ i, i < GRID_WIDTH_src * GRID_HEIGHT_src →
        (st0.contents st0.pWrite).getD i 0 = faultyDevice.fresh true i) ∧
      st0.calls = []) ∧
     (∃ st0, ingestTexture GRID_WIDTH_src GRID_HEIGHT_src faultyDevice
        (gridWith GRID_WIDTH_src GRID_HEIGHT_src [(2, 1), (3, 2), (1, 3), (2, 3), (3, 3)])
        = some st0 ∧ st0.pRead = false ∧ st0.pWrite = true ∧
      st0.contents st0.pRead
        = gridWith GRID_WIDTH_src GRID_HEIGHT_src [(2, 1), (3, 2), (1, 3), (2, 3), (3, 3)] ∧
      (∀ i, i < GRID_WIDTH_src * GRID_HEIGHT_src → (st0.contents st0.pRead).getD i 0
        = (gridWith GRID_WIDTH_src GRID_HEIGHT_src
            [(2, 1), (3, 2), (1, 3), (2, 3), (3, 3)]).getD i 0) ∧
      st0.contents st0.pWrite = newStorage faultyDevice true (GRID_WIDTH_src * GRID_HEIGHT_src) ∧
      (∀ i, i < GRID_WIDTH_src * GRID_HEIGHT_src →
        (st0.contents st0.pWrite).getD i 0 = faultyDevice.fresh true i) ∧
      st0.calls = [])) :=
  ⟨⟨by decide, gridWith_length _ _ _⟩,
    ingest_seed GRID_WIDTH_src GRID_HEIGHT_src faultyDevice _ (by decide)
      (gridWith_length _ _ _)⟩

/-- C13 (grid size invariant). On an accelerator whose storages hold
`GRID_WIDTH * GRID_HEIGHT` cells, for every generation count and every seed on which the
driver is defined (no longer than the buffer for `golSimBuffer`, no shorter than the region
for `golSimTexture`), the returned grid and every snapshot handed to the hook have exactly
`GRID_WIDTH * GRID_HEIGHT` cells. -/
theorem grid_size_invariant (W H : Nat) (dev : Device) (n : Nat) (fs : Bool)
    (hcells : W * H < 2 ^ 31) (hn : n < UINT16_RANGE) (hdev : dev.WellFormed (W * H)) :
    (∀ seed : grid, seed.length ≤ W * H →
      ∃ st, golSimBuffer W H dev seed n fs = some st ∧ st.frameGrid.length = W * H ∧
        ∀ c ∈ st.calls, c.snapshot.length = W * H) ∧
    (∀ seed : grid, W * H ≤ seed.length →
      ∃ st, golSimTexture W H dev seed n fs = some st ∧ st.frameGrid.length = W * H ∧
        ∀ c ∈ st.calls, c.snapshot.length = W * H) := by
  constructor
  · intro seed hseed
    have h0 : (entryState (copyCells seed seed.length (newStorage dev false (W * H)))
        (newStorage dev true (W * H)) (W * H)).Shaped (W * H) := by
      apply entryState_shaped
      · rw [copyCells_length _ _ _ (le_refl _) (by rw [newStorage_length]; exact hseed)]
        exact newStorage_length _ _ _
      · exact newStorage_length _ _ _
    have hfin := readBack_shaped (W * H) seed.length _ hseed
      (iterate_shaped dev (W * H) seed.length fs _ hdev hseed h0 n)
    exact ⟨_, golSimBuffer_run W H dev seed n fs hcells hseed hn, hfin.2.2.1, hfin.2.2.2.2⟩
  · intro seed hseed
    have h0 : (entryState (copyCells seed (W * H) (newStorage dev false (W * H)))
        (newStorage dev true (W * H)) (W * H)).Shaped (W * H) := by
      apply entryState_shaped
      · rw [copyCells_length _ _ _ hseed (by rw [newStorage_length])]
        exact newStorage_length _ _ _
      · exact newStorage_length _ _ _
    have hfin := readBack_shaped (W * H) (W * H) _ (le_refl _)
      (iterate_shaped dev (W * H) (W * H) fs _ hdev (le_refl _) h0 n)
    exact ⟨_, golSimTexture_run W H dev seed n fs hcells hseed hn, hfin.2.2.1, hfin.2.2.2.2⟩

/-- The size invariant at the grid size and the generation count of the source, for the
kernel of Life. -/
theorem grid_size_invariant_witness :
    (GRID_WIDTH_src * GRID_HEIGHT_src < 2 ^ 31 ∧ 100 < UINT16_RANGE ∧
      (kernelDevice (golKernel GRID_WIDTH_src GRID_HEIGHT_src) (fun _ _ => 0)).WellFormed
        (GRID_WIDTH_src * GRID_HEIGHT_src)) ∧
    ((∀ seed : grid, seed.length ≤ GRID_WIDTH_src * GRID_HEIGHT_src →
      ∃ st, golSimBuffer GRID_WIDTH_src GRID_HEIGHT_src
          (kernelDevice (golKernel GRID_WIDTH_src GRID_HEIGHT_src) (fun _ _ => 0))
          seed 100 true = some st ∧
        st.frameGrid.length = GRID_WIDTH_src * GRID_HEIGHT_src ∧
        ∀ c ∈ st.calls, c.snapshot.length = GRID_WIDTH_src * GRID_HEIGHT_src) ∧
     (∀ seed : grid, GRID_WIDTH_src * GRID_HEIGHT_src ≤ seed.length →
      ∃ st, golSimTexture GRID_WIDTH_src GRID_HEIGHT_src
          (kernelDevice (golKernel GRID_WIDTH_src GRID_HEIGHT_src) (fun _ _ => 0))
          seed 100 true = some st ∧
        st.frameGrid.length = GRID_WIDTH_src * GRID_HEIGHT_src ∧
        ∀ c ∈ st.calls, c.snapshot.length = GRID_WIDTH_src * GRID_HEIGHT_src)) :=
  ⟨⟨by decide, by decide, lifeDevice_wellFormed _ _ _⟩,
    grid_size_invariant GRID_WIDTH_src GRID_HEIGHT_src _ 100 true (by decide) (by decide)
      (lifeDevice_wellFormed _ _ _)⟩

/-! ## A seed shorter than the grid -/

theorem copyCells_drop (src dst : grid) (n : Nat) (hs : n ≤ src.length) :
    (copyCells src n dst).drop n = dst.drop n := by
  unfold copyCells
  have hl : (src.take n).length = n := by rw [List.length_take]; omega
  rw [List.drop_append_of_le_length (by omega), List.drop_of_length_le (by omega),
    List.nil_append]

theorem copyCells_take (src dst : grid) (n : Nat) (hs : n ≤ src.length) :
    (copyCells src n dst).take n = src.take n := by
  unfold copyCells
  have hl : (src.take n).length = n := by rw [List.length_take]; omega
  rw [List.take_append_of_le_length (by omega), List.take_of_length_le (by omega)]

/-- One generation that reads back `s` cells keeps the cells from `s` on at zero. -/
theorem generation_zeroTail (dev : Device) (N s : Nat) (fs : Bool) (st : SimState)
    (hdev : dev.WellFormed N) (hs : s ≤ N) (h : st.ZeroTail s N) :
    (generation dev s fs st).ZeroTail s N := by
  have hfg : (generation dev s fs st).frameGrid.drop s = List.replicate (N - s) 0 := by
    rw [generation_frameGrid, copyCells_drop _ _ _ (by rw [hdev]; exact hs)]
    exact h.1
  refine ⟨hfg, ?_⟩
  intro call hcall
  rw [generation_calls] at hcall
  cases fs
  · exact h.2 call (by simpa using hcall)
  · simp only [if_true, List.mem_append, List.mem_singleton] at hcall
    rcases hcall with hold | rfl
    · exact h.2 call hold
    · exact hfg

theorem iterate_zeroTail (dev : Device) (N s : Nat) (fs : Bool) (st : SimState)
    (hdev : dev.WellFormed N) (hs : s ≤ N) (h : st.ZeroTail s N) (k : Nat) :
    ((generation dev s fs)^[k] st).ZeroTail s N := by
  induction k with
  | zero => simpa using h
  | succ k ih =>
    rw [Function.iterate_succ_apply']
    exact generation_zeroTail dev N s fs _ hdev hs ih

theorem entryState_zeroTail (s0 s1 : grid) (s N : Nat) :
    (entryState s0 s1 N).ZeroTail s N := by
  refine ⟨?_, ?_⟩
  · simp [entryState, gridZeros]
  · intro c hc
    simp [entryState] at hc

theorem getD_of_drop_eq_zeros (l : grid) (s N i : Nat) (h : l.drop s = List.replicate (N - s) 0)
    (hs : s ≤ i) : l.getD i 0 = 0 := by
  have h1 : (l.drop s).getD (i - s) 0 = 0 := by
    rw [h]
    simp [List.getD_eq_getElem?_getD, List.getElem?_replicate]
    split_ifs <;> rfl
  rw [List.getD_eq_getElem?_getD, List.getElem?_drop] at h1
  rw [List.getD_eq_getElem?_getD]
  have : s + (i - s) = i := by omega
  rw [this] at h1
  exact h1

/-- C20 (short seed in the buffer backend). For a seed of `s < GRID_WIDTH * GRID_HEIGHT`
cells, on an accelerator whose storages hold `GRID_WIDTH * GRID_HEIGHT` cells and for every
generation count, `golSimBuffer` reads back only the first `s` cells of the current buffer:
the returned grid and every snapshot have `GRID_WIDTH * GRID_HEIGHT` cells and hold 0 at
every index from `s` on. With `generations = 0` the result is the seed followed by zeros,
which is not the seed. `golSimTexture` reads the whole region back, whatever the length of
the seed, where it is defined; on the short seed `replaceRegion` reads past the end of the
seed vector. -/
theorem short_seed (W H : Nat) (dev : Device) (seed : grid) (n : Nat) (fs : Bool)
    (hcells : W * H < 2 ^ 31) (hshort : seed.length < W * H) (hn : n < UINT16_RANGE)
    (hdev : dev.WellFormed (W * H)) :
    (∃ st, golSimBuffer W H dev seed n fs = some st ∧ st.frameGrid.length = W * H ∧
      st.frameGrid.take seed.length = (st.contents st.pRead).take seed.length ∧
      st.frameGrid.drop seed.length = List.replicate (W * H - seed.length) 0 ∧
      (∀ i, seed.length ≤ i → st.frameGrid.getD i 0 = 0) ∧
      (∀ c ∈ st.calls, c.snapshot.length = W * H ∧
        c.snapshot.drop seed.length = List.replicate (W * H - seed.length) 0 ∧
        ∀ i, seed.length ≤ i → c.snapshot.getD i 0 = 0)) ∧
    (∃ st, golSimBuffer W H dev seed 0 fs = some st ∧
      st.frameGrid = seed ++ List.replicate (W * H - seed.length) 0 ∧ st.frameGrid ≠ seed) ∧
    golSimTexture W H dev seed n fs = none ∧
    (∀ seed2 : grid, W * H ≤ seed2.length →
      ∃ st, golSimTexture W H dev seed2 n fs = some st ∧
        st.frameGrid = st.contents st.pRead) := by
  have hle : seed.length ≤ W * H := le_of_lt hshort
  have hs0 : (copyCells seed seed.length (newStorage dev false (W * H))).length = W * H := by
    rw [copyCells_length _ _ _ (le_refl _) (by rw [newStorage_length]; exact hle)]
    exact newStorage_length _ _ _
  have h0 : (entryState (copyCells seed seed.length (newStorage dev false (W * H)))
      (newStorage dev true (W * H)) (W * H)).Shaped (W * H) :=
    entryState_shaped _ _ _ hs0 (newStorage_length _ _ _)
  refine ⟨?_, ?_, ?_, ?_⟩
  · have hsh := iterate_shaped dev (W * H) seed.length fs _ hdev hle h0 n
    have hzt := iterate_zeroTail dev (W * H) seed.length fs
      (entryState (copyCells seed seed.length (newStorage dev false (W * H)))
        (newStorage dev true (W * H)) (W * H)) hdev hle (entryState_zeroTail _ _ _ _) n
    have hfin := readBack_shaped (W * H) seed.length _ hle hsh
    have hcl := contents_length (W * H) _ hsh
    have hdrop : (readBack seed.length ((generation dev seed.length fs)^[n]
        (entryState (copyCells seed seed.length (newStorage dev false (W * H)))
          (newStorage dev true (W * H)) (W * H)))).frameGrid.drop seed.length
        = List.replicate (W * H - seed.length) 0 := by
      simp only [readBack]
      rw [copyCells_drop _ _ _ (by rw [hcl]; exact hle)]
      exact hzt.1
    refine ⟨_, golSimBuffer_run W H dev seed n fs hcells hle hn, hfin.2.2.1, ?_, hdrop,
      fun i hi => getD_of_drop_eq_zeros _ _ _ i hdrop hi, ?_⟩
    · simp only [readBack]
      exact copyCells_take _ _ _ (by rw [hcl]; exact hle)
    · intro c hc
      have hc2 : c ∈ ((generation dev seed.length fs)^[n]
          (entryState (copyCells seed seed.length (newStorage dev false (W * H)))
            (newStorage dev true (W * H)) (W * H))).calls := hc
      exact ⟨hsh.2.2.2.2 c hc2, hzt.2 c hc2,
        fun i hi => getD_of_drop_eq_zeros _ _ _ i (hzt.2 c hc2) hi⟩
  · have hfg : (readBack seed.length ((generation dev seed.length fs)^[0]
        (entryState (copyCells seed seed.length (newStorage dev false (W * H)))
          (newStorage dev true (W * H)) (W * H)))).frameGrid
        = seed ++ List.replicate (W * H - seed.length) 0 := by
      simp only [Function.iterate_zero, id_eq, readBack, entryState, SimState.contents,
        copyCells, gridZeros]
      simp
    refine ⟨_, golSimBuffer_run W H dev seed 0 fs hcells hle (by decide), hfg, ?_⟩
    rw [hfg]
    intro h
    have := congrArg List.length h
    simp at this
    omega
  · unfold golSimTexture
    rw [gridCells_eq W H hcells]
    simp only [Nat.not_le.mpr hshort, if_false]
  · intro seed2 hseed2
    have h2 : (entryState (copyCells seed2 (W * H) (newStorage dev false (W * H)))
        (newStorage dev true (W * H)) (W * H)).Shaped (W * H) := by
      apply entryState_shaped
      · rw [copyCells_length _ _ _ hseed2 (by rw [newStorage_length])]
        exact newStorage_length _ _ _
      · exact newStorage_length _ _ _
    have hsh := iterate_shaped dev (W * H) (W * H) fs _ hdev (le_refl _) h2 n
    refine ⟨_, golSimTexture_run W H dev seed2 n fs hcells hseed2 hn, ?_⟩
    simp only [readBack]
    exact copyCells_full _ _ (W * H) (contents_length (W * H) _ hsh _) hsh.2.2.1

/-- The short seed at the grid size and the generation count of the source: a seed of three
ALIVE cells and the kernel of Life. -/
theorem short_seed_witness :
    (GRID_WIDTH_src * GRID_HEIGHT_src < 2 ^ 31 ∧
      ([1, 1, 1] : grid).length < GRID_WIDTH_src * GRID_HEIGHT_src ∧ 100 < UINT16_RANGE ∧
      (kernelDevice (golKernel GRID_WIDTH_src GRID_HEIGHT_src) (fun _ _ => 0)).WellFormed
        (GRID_WIDTH_src * GRID_HEIGHT_src)) ∧
    ((∃ st, golSimBuffer GRID_WIDTH_src GRID_HEIGHT_src
        (kernelDevice (golKernel GRID_WIDTH_src GRID_HEIGHT_src) (fun _ _ => 0))
        [1, 1, 1] 100 true = some st ∧
      st.frameGrid.length = GRID_WIDTH_src * GRID_HEIGHT_src ∧
      st.frameGrid.take ([1, 1, 1] : grid).length
        = (st.contents st.pRead).take ([1, 1, 1] : grid).length ∧
      st.frameGrid.drop ([1, 1, 1] : grid).length
        = List.replicate (GRID_WIDTH_src * GRID_HEIGHT_src - ([1, 1, 1] : grid).length) 0 ∧
      (∀ i, ([1, 1, 1] : grid).length ≤ i → st.frameGrid.getD i 0 = 0) ∧
      (∀ c ∈ st.calls, c.snapshot.length = GRID_WIDTH_src * GRID_HEIGHT_src ∧
        c.snapshot.drop ([1, 1, 1] : grid).length
          = List.replicate (GRID_WIDTH_src * GRID_HEIGHT_src - ([1, 1, 1] : grid).length) 0 ∧
        ∀ i, ([1, 1, 1] : grid).length ≤ i → c.snapshot.getD i 0 = 0)) ∧
     (∃ st, golSimBuffer GRID_WIDTH_src GRID_HEIGHT_src
        (kernelDevice (golKernel GRID_WIDTH_src GRID_HEIGHT_src) (fun _ _ => 0))
        [1, 1, 1] 0 true = some st ∧
      st.frameGrid = [1, 1, 1] ++
        List.replicate (GRID_WIDTH_src * GRID_HEIGHT_src - ([1, 1, 1] : grid).length) 0 ∧
      st.frameGrid ≠ [1, 1, 1]) ∧
     golSimTexture GRID_WIDTH_src GRID_HEIGHT_src
        (kernelDevice (golKernel GRID_WIDTH_src GRID_HEIGHT_src) (fun _ _ => 0))
        [1, 1, 1] 100 true = none ∧
     (∀ seed2 : grid, GRID_WIDTH_src * GRID_HEIGHT_src ≤ seed2.length →
      ∃ st, golSimTexture GRID_WIDTH_src GRID_HEIGHT_src
          (kernelDevice (golKernel GRID_WIDTH_src GRID_HEIGHT_src) (fun _ _ => 0))
          seed2 100 true = some st ∧
        st.frameGrid = st.contents st.pRead)) :=
  ⟨⟨by decide, by decide, by decide, lifeDevice_wellFormed _ _ _⟩,
    short_seed GRID_WIDTH_src GRID_HEIGHT_src _ [1, 1, 1] 100 true (by decide) (by decide)
      (by decide) (lifeDevice_wellFormed _ _ _)⟩

/-! ## Configuration and setup errors -/

theorem golSimBufferWithSetup_ok (W H : Nat) (p : Platform) (seed : grid) (n : Nat)
    (fs : Bool) (hd : p.hasDevice = true) (hl : p.hasLibrary = true) (st : SimState)
    (h : golSimBuffer W H p.device seed n fs = some st) :
    golSimBufferWithSetup W H p seed n fs = Outcome.returned st := by
  simp [golSimBufferWithSetup, hd, hl, h]

theorem golSimTextureWithSetup_ok (W H : Nat) (p : Platform) (seed : grid) (n : Nat)
    (fs : Bool) (hd : p.hasDevice = true) (hl : p.hasLibrary = true) (st : SimState)
    (h : golSimTexture W H p.device seed n fs = some st) :
    golSimTextureWithSetup W H p seed n fs = Outcome.returned st := by
  simp [golSimTextureWithSetup, hd, hl, h]

/-- A run with `generations = 0` on a platform with a device and a library, for every grid
size. -/
theorem zero_generations_run (W H : Nat) (p : Platform) (seed : grid) (fs : Bool)
    (hd : p.hasDevice = true) (hl : p.hasLibrary = true)
    (hcells : W * H < 2 ^ 31) (hseed : seed.length = W * H) :
    (∃ st, golSimBufferWithSetup W H p seed 0 fs = Outcome.returned st ∧
      st.frameGrid = seed ∧ st.calls = [] ∧ st.storage0 = seed ∧
      st.storage1 = newStorage p.device true (W * H)) ∧
    (∃ st, golSimTextureWithSetup W H p seed 0 fs = Outcome.returned st ∧
      st.frameGrid = seed ∧ st.calls = [] ∧ st.storage0 = seed ∧
      st.storage1 = newStorage p.device true (W * H)) := by
  have h0 : (0 : Nat) < UINT16_RANGE := by decide
  have hb := golSimBuffer_eq W H p.device seed 0 fs hcells hseed h0
  have ht := (golSimTexture_eq_golSimBuffer W H p.device seed 0 fs hseed).trans hb
  have hfg : (readBack (W * H) ((generation p.device (W * H) fs)^[0]
      (entryState seed (newStorage p.device true (W * H)) (W * H)))).frameGrid = seed := by
    simp only [Function.iterate_zero, id_eq, readBack, entryState, SimState.contents]
    exact copyCells_full seed _ (W * H) hseed (gridZeros_length _)
  exact ⟨⟨_, golSimBufferWithSetup_ok W H p seed 0 fs hd hl _ hb, hfg, rfl, rfl, rfl⟩,
    ⟨_, golSimTextureWithSetup_ok W H p seed 0 fs hd hl _ ht, hfg, rfl, rfl, rfl⟩⟩

/-- C14, the claim as stated fails. At the grid size of the source, on a platform where the
setup succeeds, a run of `golSimBuffer` with `generations = 0` is not rejected: it returns,
with both buffers allocated and the seed as its result. -/
theorem configuration_errors_counterexample :
    ∃ st, golSimBufferWithSetup GRID_WIDTH_src GRID_HEIGHT_src
        { hasDevice := true, hasLibrary := true, hasPipeline := true, device := faultyDevice }
        (gridOnes (GRID_WIDTH_src * GRID_HEIGHT_src)) 0 true = Outcome.returned st ∧
      st.frameGrid = gridOnes (GRID_WIDTH_src * GRID_HEIGHT_src) ∧
      st.storage0 = gridOnes (GRID_WIDTH_src * GRID_HEIGHT_src) ∧
      st.storage1 = newStorage faultyDevice true (GRID_WIDTH_src * GRID_HEIGHT_src) := by
  obtain ⟨st, h, hfg, _, h0, h1⟩ := (zero_generations_run GRID_WIDTH_src GRID_HEIGHT_src
    { hasDevice := true, hasLibrary := true, hasPipeline := true, device := faultyDevice }
    (gridOnes (GRID_WIDTH_src * GRID_HEIGHT_src)) true rfl rfl (by decide)
    (gridOnes_length _)).1
  exact ⟨st, h, hfg, h0, h1⟩

/-- C14 as amended. The drivers validate no configuration. On a platform with a device and
a library, a run with `generations = 0` on a seed grid of `GRID_WIDTH * GRID_HEIGHT` cells
is accepted by both drivers: both storages are allocated, the first one holds the seed, the
hook is not called and the seed is returned. The grid dimensions are the constants of the
source, 512 by 512, which no run can set to zero. -/
theorem configuration_not_checked (W H : Nat) (p : Platform) (seed : grid) (fs : Bool)
    (hd : p.hasDevice = true) (hl : p.hasLibrary = true)
    (hcells : W * H < 2 ^ 31) (hseed : seed.length = W * H) :
    (∃ st, golSimBufferWithSetup W H p seed 0 fs = Outcome.returned st ∧
      st.frameGrid = seed ∧ st.calls = [] ∧ st.storage0 = seed ∧
      st.storage1 = newStorage p.device true (W * H)) ∧
    (∃ st, golSimTextureWithSetup W H p seed 0 fs = Outcome.returned st ∧
      st.frameGrid = seed ∧ st.calls = [] ∧ st.storage0 = seed ∧
      st.storage1 = newStorage p.device true (W * H)) ∧
    GRID_WIDTH_src = 512 ∧ GRID_HEIGHT_src = 512 := by
  obtain ⟨hb, ht⟩ := zero_generations_run W H p seed fs hd hl hcells hseed
  exact ⟨hb, ht, rfl, rfl⟩

/-- The amended C14 at the grid size of the source, on the kernel of Life. -/
theorem configuration_not_checked_witness :
    ((({ hasDevice := true, hasLibrary := true, hasPipeline := true,
          device := kernelDevice (golKernel GRID_WIDTH_src GRID_HEIGHT_src) (fun _ _ => 0) }
        : Platform).hasDevice = true) ∧
      (({ hasDevice := true, hasLibrary := true, hasPipeline := true,
          device := kernelDevice (golKernel GRID_WIDTH_src GRID_HEIGHT_src) (fun _ _ => 0) }
        : Platform).hasLibrary = true) ∧
      GRID_WIDTH_src * GRID_HEIGHT_src < 2 ^ 31 ∧
      (gridOnes (GRID_WIDTH_src * GRID_HEIGHT_src)).length
        = GRID_WIDTH_src * GRID_HEIGHT_src) ∧
    ((∃ st, golSimBufferWithSetup GRID_WIDTH_src GRID_HEIGHT_src
        { hasDevice := true, hasLibrary := true, hasPipeline := true,
          device := kernelDevice (golKernel GRID_WIDTH_src GRID_HEIGHT_src) (fun _ _ => 0) }
        (gridOnes (GRID_WIDTH_src * GRID_HEIGHT_src)) 0 true = Outcome.returned st ∧
      st.frameGrid = gridOnes (GRID_WIDTH_src * GRID_HEIGHT_src) ∧ st.calls = [] ∧
      st.storage0 = gridOnes (GRID_WIDTH_src * GRID_HEIGHT_src) ∧
      st.storage1 = newStorage
        (kernelDevice (golKernel GRID_WIDTH_src GRID_HEIGHT_src) (fun _ _ => 0)) true
        (GRID_WIDTH_src * GRID_HEIGHT_src)) ∧
     (∃ st, golSimTextureWithSetup GRID_WIDTH_src GRID_HEIGHT_src
        { hasDevice := true, hasLibrary := true, hasPipeline := true,
          device := kernelDevice (golKernel GRID_WIDTH_src GRID_HEIGHT_src) (fun _ _ => 0) }
        (gridOnes (GRID_WIDTH_src * GRID_HEIGHT_src)) 0 true = Outcome.returned st ∧
      st.frameGrid = gridOnes (GRID_WIDTH_src * GRID_HEIGHT_src) ∧ st.calls = [] ∧
      st.storage0 = gridOnes (GRID_WIDTH_src * GRID_HEIGHT_src) ∧
      st.storage1 = newStorage
        (kernelDevice (golKernel GRID_WIDTH_src GRID_HEIGHT_src) (fun _ _ => 0)) true
        (GRID_WIDTH_src * GRID_HEIGHT_src)) ∧
     GRID_WIDTH_src = 512 ∧ GRID_HEIGHT_src = 512) :=
  ⟨⟨rfl, rfl, by decide, gridOnes_length _⟩,
    configuration_not_checked GRID_WIDTH_src GRID_HEIGHT_src
      { hasDevice := true, hasLibrary := true, hasPipeline := true,
        device := kernelDevice (golKernel GRID_WIDTH_src GRID_HEIGHT_src) (fun _ _ => 0) }
      (gridOnes (GRID_WIDTH_src * GRID_HEIGHT_src)) true rfl rfl (by decide)
      (gridOnes_length _)⟩

/-- A platform with a device and a library on which `newComputePipelineState` fails; its
accelerator leaves the storages as they are and reports an error at every dispatch. -/
theorem pipeline_failure_run (W H : Nat) (hcells : W * H < 2 ^ 31) :
    (∃ st, golSimBufferWithSetup W H
        { hasDevice := true, hasLibrary := true, hasPipeline := false, device := faultyDevice }
        (gridOnes (W * H)) 1 true = Outcome.returned st ∧
      st.calls.map HookCall.index = [1]) ∧
    (∃ st, golSimTextureWithSetup W H
        { hasDevice := true, hasLibrary := true, hasPipeline := false, device := faultyDevice }
        (gridOnes (W * H)) 1 true = Outcome.returned st ∧
      st.calls.map HookCall.index = [1]) := by
  have h1 : (1 : Nat) < UINT16_RANGE := by decide
  have hb := golSimBuffer_eq W H faultyDevice (gridOnes (W * H)) 1 true hcells
    (gridOnes_length _) h1
  have ht := (golSimTexture_eq_golSimBuffer W H faultyDevice (gridOnes (W * H)) 1 true
    (gridOnes_length _)).trans hb
  exact ⟨⟨_, golSimBufferWithSetup_ok W H _ _ 1 true rfl rfl _ hb, rfl⟩,
    ⟨_, golSimTextureWithSetup_ok W H _ _ 1 true rfl rfl _ ht, rfl⟩⟩

/-- C15, the code at the failing inputs. At the grid size of the source: with a device and
a library but a failed pipeline creation, `golSimBuffer` and `golSimTexture` throw nothing,
run the generation and call the hook with index 1, where the constructor of `MetalObjects`
throws; without a device none of the three throws, the null device is used; with a device
and no library all three throw before anything else. -/
theorem setup_errors_failing_input :
    (∃ st, golSimBufferWithSetup GRID_WIDTH_src GRID_HEIGHT_src
        { hasDevice := true, hasLibrary := true, hasPipeline := false, device := faultyDevice }
        (gridOnes (GRID_WIDTH_src * GRID_HEIGHT_src)) 1 true = Outcome.returned st ∧
      st.calls.map HookCall.index = [1]) ∧
    (∃ st, golSimTextureWithSetup GRID_WIDTH_src GRID_HEIGHT_src
        { hasDevice := true, hasLibrary := true, hasPipeline := false, device := faultyDevice }
        (gridOnes (GRID_WIDTH_src * GRID_HEIGHT_src)) 1 true = Outcome.returned st ∧
      st.calls.map HookCall.index = [1]) ∧
    MetalObjects_new
        { hasDevice := true, hasLibrary := true, hasPipeline := false, device := faultyDevice }
      = SetupOutcome.threw SetupError.pipelineError ∧
    golSimBufferWithSetup GRID_WIDTH_src GRID_HEIGHT_src
        { hasDevice := false, hasLibrary := false, hasPipeline := false,
          device := faultyDevice }
        (gridOnes (GRID_WIDTH_src * GRID_HEIGHT_src)) 1 true = Outcome.undefined ∧
    golSimTextureWithSetup GRID_WIDTH_src GRID_HEIGHT_src
        { hasDevice := false, hasLibrary := false, hasPipeline := false,
          device := faultyDevice }
        (gridOnes (GRID_WIDTH_src * GRID_HEIGHT_src)) 1 true = Outcome.undefined ∧
    MetalObjects_new
        { hasDevice := false, hasLibrary := false, hasPipeline := false,
          device := faultyDevice }
      = SetupOutcome.undefined ∧
    golSimBufferWithSetup GRID_WIDTH_src GRID_HEIGHT_src
        { hasDevice := true, hasLibrary := false, hasPipeline := false,
          device := faultyDevice }
        (gridOnes (GRID_WIDTH_src * GRID_HEIGHT_src)) 1 true
      = Outcome.threw SetupError.libraryNotFound ∧
    golSimTextureWithSetup GRID_WIDTH_src GRID_HEIGHT_src
        { hasDevice := true, hasLibrary := false, hasPipeline := false,
          device := faultyDevice }
        (gridOnes (GRID_WIDTH_src * GRID_HEIGHT_src)) 1 true
      = Outcome.threw SetupError.libraryNotFound ∧
    MetalObjects_new
        { hasDevice := true, hasLibrary := false, hasPipeline := false,
          device := faultyDevice }
      = SetupOutcome.threw SetupError.libraryNotFound := by
  obtain ⟨hb, ht⟩ := pipeline_failure_run GRID_WIDTH_src GRID_HEIGHT_src (by decide)
  exact ⟨hb, ht, rfl, rfl, rfl, rfl, rfl, rfl, rfl⟩

/-! ## Dispatch coverage -/

theorem groupCount_bounds (n t : Nat) (ht : 0 < t) :
    n ≤ groupCount n t * t ∧ groupCount n t * t < n + t := by
  unfold groupCount
  have h1 := Nat.div_add_mod (n + (t - 1)) t
  have h2 := Nat.mod_lt (n + (t - 1)) ht
  rw [Nat.mul_comm] at h1
  constructor <;> omega

/-- C18 (dispatch coverage). For every element count `n` and every threadgroup size
`t > 0`, the group count `g = (n + t - 1) / t` gives `T = g * t` threads with
`n ≤ T < n + t`: every index below `n` lies in a dispatched group and fewer than `t`
threads are idle. The three computations of the source are this count: with `t = 256` in
the convolution, with `t = 16` for each axis in the matrix multiply and in the Life grid,
at the constants of the source and wherever the sum fits the type it is computed in. -/
theorem dispatch_coverage (n t : Nat) (ht : 0 < t) :
    groupCount n t = (n + t - 1) / t ∧
    n ≤ groupCount n t * t ∧ groupCount n t * t < n + t ∧
    (∀ i, i < n → i / t < groupCount n t) ∧
    groupCount n t * t - n < t ∧
    (∀ m, m + 255 < 2 ^ 64 → numGroupsConvolution m = (groupCount m 256, 1, 1)) ∧
    (∀ m, m + 15 < 2 ^ 31 →
      numGroupsMatMul m = some (groupCount m 16, groupCount m 16, 1)) ∧
    (∀ w h, w < UINT16_RANGE → h < UINT16_RANGE →
      numGroups w h = some (groupCount w 16, groupCount h 16, 1)) ∧
    numGroupsConvolution INPUT_SIZE_src = (groupCount INPUT_SIZE_src 256, 1, 1) ∧
    numGroupsMatMul MATRIX_DIMENSION_src
      = some (groupCount MATRIX_DIMENSION_src 16, groupCount MATRIX_DIMENSION_src 16, 1) ∧
    numGroups GRID_WIDTH_src GRID_HEIGHT_src
      = some (groupCount GRID_WIDTH_src 16, groupCount GRID_HEIGHT_src 16, 1) := by
  obtain ⟨hlo, hhi⟩ := groupCount_bounds n t ht
  have hconv : ∀ m, m + 255 < 2 ^ 64 → numGroupsConvolution m = (groupCount m 256, 1, 1) := by
    intro m hm
    unfold numGroupsConvolution groupCount
    rw [Nat.mod_eq_of_lt hm]
  have hmat : ∀ m, m + 15 < 2 ^ 31 →
      numGroupsMatMul m = some (groupCount m 16, groupCount m 16, 1) := by
    intro m hm
    unfold numGroupsMatMul intAdd groupCount
    rw [if_pos hm]
  have hgol : ∀ w h, w < UINT16_RANGE → h < UINT16_RANGE →
      numGroups w h = some (groupCount w 16, groupCount h 16, 1) := by
    intro w h hw hh
    have hw2 : w + 15 < 2 ^ 31 := by unfold UINT16_RANGE at hw; omega
    have hh2 : h + 15 < 2 ^ 31 := by unfold UINT16_RANGE at hh; omega
    unfold numGroups intAdd groupCount
    rw [if_pos hw2, if_pos hh2]
  refine ⟨?_, hlo, hhi, ?_, by omega, hconv, hmat, hgol, hconv _ (by decide),
    hmat _ (by decide), hgol _ _ (by decide) (by decide)⟩
  · unfold groupCount
    congr 1
    omega
  · intro i hi
    rw [Nat.div_lt_iff_lt_mul ht]
    omega

/-- Dispatch coverage for 2049 elements in threadgroups of 256 threads. -/
theorem dispatch_coverage_witness :
    (0 < 256) ∧
    (groupCount 2049 256 = (2049 + 256 - 1) / 256 ∧
     2049 ≤ groupCount 2049 256 * 256 ∧ groupCount 2049 256 * 256 < 2049 + 256 ∧
     (∀ i, i < 2049 → i / 256 < groupCount 2049 256) ∧
     groupCount 2049 256 * 256 - 2049 < 256 ∧
     (∀ m, m + 255 < 2 ^ 64 → numGroupsConvolution m = (groupCount m 256, 1, 1)) ∧
     (∀ m, m + 15 < 2 ^ 31 →
       numGroupsMatMul m = some (groupCount m 16, groupCount m 16, 1)) ∧
     (∀ w h, w < UINT16_RANGE → h < UINT16_RANGE →
       numGroups w h = some (groupCount w 16, groupCount h 16, 1)) ∧
     numGroupsConvolution INPUT_SIZE_src = (groupCount INPUT_SIZE_src 256, 1, 1) ∧
     numGroupsMatMul MATRIX_DIMENSION_src
       = some (groupCount MATRIX_DIMENSION_src 16, groupCount MATRIX_DIMENSION_src 16, 1) ∧
     numGroups GRID_WIDTH_src GRID_HEIGHT_src
       = some (groupCount GRID_WIDTH_src 16, groupCount GRID_HEIGHT_src 16, 1)) :=
  ⟨by decide, dispatch_coverage 2049 256 (by decide)⟩

/-! ## The seed generator -/

/-- The grid `genInitialGrid` returns when `width * height` fits `int`. -/
theorem genInitialGrid_spec (width height : Nat) (dis : Nat → ℚ)
    (hcells : width * height < 2 ^ 31) :
    ∃ g, genInitialGrid width height dis = some g ∧ g.length = width * height ∧
      (∀ k, k < width * height → (g.getD k 0 = 0 ∨ g.getD k 0 = 1) ∧
        (g.getD k 0 = 1 ↔ dis k < DOUBLE_0_2)) := by
  refine ⟨_, by unfold genInitialGrid; rw [gridCells_eq width height hcells], by simp, ?_⟩
  intro k hk
  have hg : ((List.range (width * height)).map
      (fun k => if dis k < DOUBLE_0_2 then 1 else 0)).getD k 0
      = if dis k < DOUBLE_0_2 then 1 else 0 :=
    getD_map_range (width * height) k (fun k => if dis k < DOUBLE_0_2 then 1 else 0) hk
  rw [hg]
  split_ifs with h
  · exact ⟨Or.inr rfl, by simp [h]⟩
  · exact ⟨Or.inl rfl, by simp [h]⟩

/-- C16, the code at the failing input. For `width = height = 65535` the product
`width * height` does not fit the `int` it is computed in, so the call is undefined and no
grid of `width * height` cells is returned; at the default arguments, 512 by 512, the grid
has `512 * 512` cells, each 0 or 1, and a cell is 1 exactly when its draw is below the
`double` 0.2; the same holds whenever `width * height` fits `int`. -/
theorem genInitialGrid_failing_input :
    genInitialGrid 65535 65535 (fun _ => 0) = none ∧
    ¬ (65535 * 65535 < 2 ^ 31) ∧
    (∀ dis : Nat → ℚ, ∃ g, genInitialGrid GRID_WIDTH_src GRID_HEIGHT_src dis = some g ∧
      g.length = GRID_WIDTH_src * GRID_HEIGHT_src ∧
      ∀ k, k < GRID_WIDTH_src * GRID_HEIGHT_src → (g.getD k 0 = 0 ∨ g.getD k 0 = 1) ∧
        (g.getD k 0 = 1 ↔ dis k < DOUBLE_0_2)) ∧
    (∀ (width height : Nat) (dis : Nat → ℚ), width * height < 2 ^ 31 →
      ∃ g, genInitialGrid width height dis = some g ∧ g.length = width * height ∧
        ∀ k, k < width * height → (g.getD k 0 = 0 ∨ g.getD k 0 = 1) ∧
          (g.getD k 0 = 1 ↔ dis k < DOUBLE_0_2)) := by
  refine ⟨?_, by decide, fun dis => genInitialGrid_spec _ _ dis (by decide),
    fun width height dis h => genInitialGrid_spec width height dis h⟩
  unfold genInitialGrid gridCells
  rw [if_neg (by decide)]

/-! ## The CSV writer -/

theorem intersperse_append_singleton {α : Type} (sep a : α) (l : List α) :
    (l ++ [a]).intersperse sep = l.flatMap (fun x => [x, sep]) ++ [a] := by
  induction l with
  | nil => rfl
  | cons b l ih =>
    cases l with
    | nil => rfl
    | cons c l =>
      have h : ((b :: c :: l) ++ [a]).intersperse sep
          = b :: sep :: ((c :: l) ++ [a]).intersperse sep := rfl
      rw [h, ih]
      simp [List.flatMap_cons]

/-- The tokens of one cell, as `writeCell` appends them. -/
theorem writeCell_eq (W : Nat) (g : grid) (y x : Nat) (file : CsvFile)
    (hW : W < 2 ^ 32) (hW0 : 0 < W) (hi : y * W + x < g.length) (hi2 : y * W + x < 2 ^ 32) :
    writeCell W g y x file =
      some { tokens := file.tokens ++ ([CsvToken.value (toInt32 (g.getD (y * W + x) 0))]
               ++ (if x + 1 = W then [] else [CsvToken.comma])),
             reads := file.reads ++ [y * W + x] } := by
  unfold writeCell
  rw [Nat.mod_eq_of_lt hi2, if_pos hi]
  have hsep : (W + 2 ^ 32 - 1) % 2 ^ 32 = W - 1 := by omega
  rw [hsep]
  have hiff : (x = W - 1) ↔ (x + 1 = W) := by omega
  simp only [hiff, List.append_assoc]

/-- The inner loop after `m` cells of row `y`. -/
theorem writeRow_cells (W H : Nat) (g : grid) (y : Nat) (file : CsvFile)
    (hW : W < UINT16_RANGE) (hH : H < UINT16_RANGE) (hy : y < H) (hg : W * H ≤ g.length) :
    ∀ m, m ≤ W →
      (List.range m).foldlM (fun f x => writeCell W g y x f) file =
        some { tokens := file.tokens ++ (List.range m).flatMap (fun x =>
                 [CsvToken.value (toInt32 (g.getD (y * W + x) 0))]
                   ++ (if x + 1 = W then [] else [CsvToken.comma])),
               reads := file.reads ++ (List.range m).map (fun x => y * W + x) } := by
  intro m
  induction m with
  | zero => intro _; simp
  | succ m ih =>
    intro hm
    have hx : m < W := by omega
    have hidx := index_lt W H m y hx hy
    have h32 : W * H < 2 ^ 32 := by
      unfold UINT16_RANGE at hW hH
      have : W * H ≤ 65535 * 65535 := Nat.mul_le_mul (by omega) (by omega)
      omega
    rw [List.range_succ, List.foldlM_append, ih (by omega)]
    simp only [Option.bind_eq_bind, Option.some_bind, List.foldlM_cons, List.foldlM_nil]
    rw [writeCell_eq W g y m _ (by unfold UINT16_RANGE at hW; omega) (by omega) (by omega)
      (by omega)]
    simp [List.flatMap_append, List.map_append]

/-- The tokens of a row as the loop writes them are a line of comma-separated values. -/
theorem row_tokens_eq_csvLine (W : Nat) (g : grid) (y : Nat) :
    (List.range W).flatMap (fun x =>
        [CsvToken.value (toInt32 (g.getD (y * W + x) 0))]
          ++ (if x + 1 = W then [] else [CsvToken.comma])) ++ [CsvToken.newline]
      = csvLine W g y := by
  unfold csvLine
  congr 1
  cases W with
  | zero => rfl
  | succ w =>
    rw [List.range_succ, List.flatMap_append, List.map_append, List.map_singleton,
      intersperse_append_singleton, List.flatMap_map]
    have hlast : [w].flatMap (fun x =>
        [CsvToken.value (toInt32 (g.getD (y * (w + 1) + x) 0))]
          ++ (if x + 1 = w + 1 then [] else [CsvToken.comma]))
        = [CsvToken.value (toInt32 (g.getD (y * (w + 1) + w) 0))] := by
      simp
    rw [hlast]
    congr 1
    apply List.flatMap_congr
    intro x hx
    rw [List.mem_range] at hx
    have hne : ¬ (x + 1 = w + 1) := by omega
    simp [hne]

/-- One row of `writeToCsv` on a grid that holds the row. -/
theorem writeRow_eq (W H : Nat) (g : grid) (y : Nat) (file : CsvFile)
    (hW : W < UINT16_RANGE) (hH : H < UINT16_RANGE) (hy : y < H) (hg : W * H ≤ g.length) :
    writeRow W g y file =
      some { tokens := file.tokens ++ csvLine W g y,
             reads := file.reads ++ (List.range W).map (fun x => y * W + x) } := by
  unfold writeRow
  rw [writeRow_cells W H g y file hW hH hy hg W (le_refl W)]
  simp only [Option.map_some', List.append_assoc, row_tokens_eq_csvLine]

/-- The outer loop after `m` rows. -/
theorem writeToCsv_rows (W H : Nat) (g : grid) (hW : W < UINT16_RANGE)
    (hH : H < UINT16_RANGE) (hg : W * H ≤ g.length) :
    ∀ m, m ≤ H →
      (List.range m).foldlM (fun f y => writeRow W g y f) { tokens := [], reads := [] } =
        some { tokens := (List.range m).flatMap (fun y => csvLine W g y),
               reads := List.range (W * m) } := by
  intro m
  induction m with
  | zero => intro _; simp
  | succ m ih =>
    intro hm
    rw [List.range_succ, List.foldlM_append, ih (by omega)]
    simp only [Option.bind_eq_bind, Option.some_bind, List.foldlM_cons, List.foldlM_nil]
    rw [writeRow_eq W H g m _ hW hH (by omega) hg]
    have hr : List.range (W * (m + 1))
        = List.range (W * m) ++ (List.range W).map (fun x => m * W + x) := by
      rw [Nat.mul_succ, List.range_add]
      congr 1
      apply List.map_congr_left
      intro x _
      rw [Nat.mul_comm]
    rw [hr]
    simp [List.flatMap_append]

/-- Distinct cells have distinct row-major indices. -/
theorem index_injective (W x y u v : Nat) (hx : x < W) (hu : u < W)
    (h : y * W + x = v * W + u) : x = u ∧ y = v := by
  have h1 := index_mod W x y hx
  have h2 := index_mod W u v hu
  have h3 := index_div W x y hx
  have h4 := index_div W u v hu
  rw [h] at h1 h3
  exact ⟨by rw [← h1, h2], by rw [← h3, h4]⟩

/-- C17 (row-major indexing). For a width and a height of a `uint16_t`, the index
`y * width + x` of a cell `x < width`, `y < height` lies below `width * height`, distinct
cells have distinct indices and every index below `width * height` is the index of a cell.
On an opened file and a grid of at least `GRID_WIDTH * GRID_HEIGHT` cells, `writeToCsv`
ends without throwing, reads the indices `0, 1, ..., GRID_WIDTH * GRID_HEIGHT - 1` in this
order, each once, and writes `GRID_HEIGHT` lines, line `y` being the `GRID_WIDTH` values of
row `y` separated by commas with no comma after the last. -/
theorem row_major_indexing (W H : Nat) (g : grid) (hW : W < UINT16_RANGE)
    (hH : H < UINT16_RANGE) (hg : W * H ≤ g.length) :
    (∀ x y, x < W → y < H → y * W + x < W * H) ∧
    (∀ x y u v, x < W → u < W → y * W + x = v * W + u → x = u ∧ y = v) ∧
    (∀ k, k < W * H → ∃ x y, x < W ∧ y < H ∧ y * W + x = k) ∧
    writeToCsv W H true g = CsvResult.written
      { tokens := (List.range H).flatMap (fun y => csvLine W g y),
        reads := List.range (W * H) } := by
  refine ⟨fun x y hx hy => index_lt W H x y hx hy,
    fun x y u v hx hu h => index_injective W x y u v hx hu h, ?_, ?_⟩
  · intro k hk
    have hW0 : 0 < W := by
      rcases Nat.eq_zero_or_pos W with h0 | h0
      · rw [h0, Nat.zero_mul] at hk; omega
      · exact h0
    refine ⟨k % W, k / W, Nat.mod_lt _ hW0, ?_, ?_⟩
    · rw [Nat.div_lt_iff_lt_mul hW0, Nat.mul_comm]; exact hk
    · rw [Nat.mul_comm]; exact Nat.div_add_mod k W
  · unfold writeToCsv
    simp only [Bool.not_true, Bool.false_eq_true, if_false]
    rw [writeToCsv_rows W H g hW hH hg H (le_refl H)]

/-- Row-major indexing on a 3 by 2 grid whose last cell does not fit `int`. -/
theorem row_major_indexing_witness :
    (3 < UINT16_RANGE ∧ 2 < UINT16_RANGE ∧
      3 * 2 ≤ ([1, 2, 3, 4, 5, 4294967295] : grid).length) ∧
    ((∀ x y, x < 3 → y < 2 → y * 3 + x < 3 * 2) ∧
     (∀ x y u v, x < 3 → u < 3 → y * 3 + x = v * 3 + u → x = u ∧ y = v) ∧
     (∀ k, k < 3 * 2 → ∃ x y, x < 3 ∧ y < 2 ∧ y * 3 + x = k) ∧
     writeToCsv 3 2 true [1, 2, 3, 4, 5, 4294967295] = CsvResult.written
       { tokens := (List.range 2).flatMap
           (fun y => csvLine 3 [1, 2, 3, 4, 5, 4294967295] y),
         reads := List.range (3 * 2) }) :=
  ⟨⟨by decide, by decide, by decide⟩,
    row_major_indexing 3 2 [1, 2, 3, 4, 5, 4294967295] (by decide) (by decide) (by decide)⟩

/-! ## The barcode image -/

theorem foldlM_range_succ_none {σ : Type} (f : σ → Nat → Option σ) (st : σ) (m : Nat)
    (h : f st 0 = none) : (List.range (m + 1)).foldlM f st = none := by
  rw [List.range_succ_eq_map, List.foldlM_cons, h]
  rfl

/-- A single colour and a stripe height `h` with `h * 4` a positive multiple of `2^32`: the
buffer is empty and the first assignment is out of bounds. -/
theorem saveBarcode_wrapped (c : RGBA) (h : Nat) (h0 : 0 < h) (hlt : h < 2 ^ 31)
    (hsz : 1 * h * CHANNELS % 2 ^ 32 = 0) :
    saveBarcode [c] h = BarcodeResult.undefined := by
  obtain ⟨m, rfl⟩ : ∃ m, h = m + 1 := ⟨h - 1, by omega⟩
  have hinner : forInt (m + 1) (fun y b => writePixel 1 c 0 y b) ([] : List Nat) = none := by
    unfold forInt
    rw [if_pos hlt]
    apply foldlM_range_succ_none
    simp [writePixel, writeAt, CHANNELS]
  have houter : forInt 1 (fun x buf => forInt (m + 1)
      (fun y b => writePixel 1 ([c].getD x { r := 0, g := 0, b := 0, a := 0 }) x y b) buf)
      ([] : List Nat) = none := by
    unfold forInt
    rw [if_pos (by decide)]
    apply foldlM_range_succ_none
    exact hinner
  unfold saveBarcode
  simp only [List.isEmpty_cons, Bool.false_eq_true, if_false, List.length_singleton,
    Nat.one_mod_two_pow_eq_one.mpr (by decide : 0 < 32)]
  rw [hsz]
  simp only [List.replicate_zero]
  rw [houter]

theorem getD_set (buf : List Nat) (i j v : Nat) :
    (buf.set i v).getD j 0 = if i = j ∧ i < buf.length then v else buf.getD j 0 := by
  simp only [List.getD_eq_getElem?_getD, List.getElem?_set]
  by_cases hij : i = j
  · subst hij
    by_cases hlt : i < buf.length
    · simp [hlt]
    · simp [hlt, List.getElem?_eq_none (Nat.le_of_not_lt hlt)]
  · simp [hij]

theorem forInt_eq {σ : Type} (bound : Nat) (body : Nat → σ → Option σ) (st : σ)
    (hb : bound < 2 ^ 31) :
    forInt bound body st = (List.range bound).foldlM (fun s i => body i s) st := by
  unfold forInt
  rw [if_pos hb]

/-- One pixel written in bounds: its four bytes are the colour, the length and every other
byte are unchanged. -/
theorem writePixel_spec (n : Nat) (c : RGBA) (x y : Nat) (buf : List Nat)
    (hb : (y * n + x) * CHANNELS + 3 < buf.length) (h31 : buf.length < 2 ^ 31) :
    ∃ buf2, writePixel n c x y buf = some buf2 ∧ buf2.length = buf.length ∧
      pixelIs buf2 (y * n + x) c ∧
      ∀ j, j / CHANNELS ≠ y * n + x → buf2.getD j 0 = buf.getD j 0 := by
  have hmod : (y * n + x) * CHANNELS % 2 ^ 32 = (y * n + x) * CHANNELS :=
    Nat.mod_eq_of_lt (by omega)
  refine ⟨(((buf.set ((y * n + x) * CHANNELS) c.r).set ((y * n + x) * CHANNELS + 1) c.g).set
    ((y * n + x) * CHANNELS + 2) c.b).set ((y * n + x) * CHANNELS + 3) c.a, ?_, ?_, ?_, ?_⟩
  · unfold writePixel
    rw [hmod, if_pos (by omega)]
    simp only [writeAt, List.length_set]
    rw [if_pos (by omega)]
    simp only [Option.some_bind, List.length_set]
    rw [if_pos (by omega)]
    simp only [Option.some_bind, List.length_set]
    rw [if_pos (by omega)]
    simp only [Option.some_bind, List.length_set]
    rw [if_pos (by omega)]
  · simp
  · unfold pixelIs
    refine ⟨?_, ?_, ?_, ?_⟩
    · rw [getD_set, getD_set, getD_set, getD_set]
      simp only [List.length_set]
      rw [if_neg (by omega), if_neg (by omega), if_neg (by omega), if_pos ⟨trivial, by omega⟩]
    · rw [getD_set, getD_set, getD_set]
      simp only [List.length_set]
      rw [if_neg (by omega), if_neg (by omega), if_pos ⟨trivial, by omega⟩]
    · rw [getD_set, getD_set]
      simp only [List.length_set]
      rw [if_neg (by omega), if_pos ⟨trivial, by omega⟩]
    · rw [getD_set]
      simp only [List.length_set]
      rw [if_pos ⟨trivial, by omega⟩]
  · intro j hj
    have hC : CHANNELS = 4 := rfl
    rw [hC] at hj
    rw [getD_set, getD_set, getD_set, getD_set]
    simp only [List.length_set, hC]
    rw [if_neg (by omega), if_neg (by omega), if_neg (by omega), if_neg (by omega)]

/-- The inner loop of `saveBarcode` after `m` rows of column `x`. -/
theorem barcode_column (n h : Nat) (c : RGBA) (x : Nat) (hx : x < n) :
    ∀ m, m ≤ h → ∀ buf : List Nat, buf.length = n * h * CHANNELS → buf.length < 2 ^ 31 →
      ∃ buf2, (List.range m).foldlM (fun b y => writePixel n c x y b) buf = some buf2 ∧
        buf2.length = buf.length ∧
        (∀ y, y < m → pixelIs buf2 (y * n + x) c) ∧
        (∀ j, (∀ y, y < m → j / CHANNELS ≠ y * n + x) → buf2.getD j 0 = buf.getD j 0) := by
  intro m
  induction m with
  | zero =>
    intro _ buf _ _
    exact ⟨buf, rfl, rfl, fun y hy => absurd hy (Nat.not_lt_zero y), fun _ _ => rfl⟩
  | succ m ih =>
    intro hm buf hlen h31
    obtain ⟨b1, hb1, hl1, hp1, hu1⟩ := ih (by omega) buf hlen h31
    have hidx := index_lt n h x m hx (by omega)
    have hC : CHANNELS = 4 := rfl
    obtain ⟨b2, hb2, hl2, hp2, hu2⟩ := writePixel_spec n c x m b1
      (by rw [hl1, hlen, hC]; omega) (by rw [hl1]; exact h31)
    refine ⟨b2, ?_, by rw [hl2, hl1], ?_, ?_⟩
    · rw [List.range_succ, List.foldlM_append, hb1]
      simp only [Option.bind_eq_bind, Option.some_bind, List.foldlM_cons, List.foldlM_nil]
      rw [hb2]
      rfl
    · intro y hy
      by_cases hym : y = m
      · rw [hym]; exact hp2
      · have hlt : y < m := by omega
        have hne : y * n + x ≠ m * n + x := by
          intro heq
          exact hym (index_injective n x y x m hx hx heq).2
        obtain ⟨q0, q1, q2, q3⟩ := hp1 y hlt
        unfold pixelIs
        rw [hu2 _ (by rw [hC]; omega), hu2 _ (by rw [hC]; omega), hu2 _ (by rw [hC]; omega),
          hu2 _ (by rw [hC]; omega)]
        exact ⟨q0, q1, q2, q3⟩
    · intro j hj
      rw [hu2 j (hj m (by omega)), hu1 j (fun y hy => hj y (by omega))]

/-- The outer loop of `saveBarcode` after `X` columns. -/
theorem barcode_columns (L : List RGBA) (h : Nat) (hh : h < 2 ^ 31) :
    ∀ X, X ≤ L.length → ∀ buf : List Nat, buf.length = L.length * h * CHANNELS →
      buf.length < 2 ^ 31 →
      ∃ buf2, (List.range X).foldlM (fun buf x => forInt h
          (fun y b => writePixel L.length (L.getD x { r := 0, g := 0, b := 0, a := 0 }) x y b)
          buf) buf = some buf2 ∧
        buf2.length = buf.length ∧
        ∀ x y, x < X → y < h →
          pixelIs buf2 (y * L.length + x) (L.getD x { r := 0, g := 0, b := 0, a := 0 }) := by
  intro X
  induction X with
  | zero =>
    intro _ buf _ _
    exact ⟨buf, rfl, rfl, fun x y hx _ => absurd hx (Nat.not_lt_zero x)⟩
  | succ X ih =>
    intro hX buf hlen h31
    obtain ⟨b1, hb1, hl1, hp1⟩ := ih (by omega) buf hlen h31
    obtain ⟨b2, hb2, hl2, hp2, hu2⟩ := barcode_column L.length h
      (L.getD X { r := 0, g := 0, b := 0, a := 0 }) X (by omega) h (le_refl h) b1
      (by rw [hl1]; exact hlen) (by rw [hl1]; exact h31)
    have hC : CHANNELS = 4 := rfl
    refine ⟨b2, ?_, by rw [hl2, hl1], ?_⟩
    · rw [List.range_succ, List.foldlM_append, hb1]
      simp only [Option.bind_eq_bind, Option.some_bind, List.foldlM_cons, List.foldlM_nil]
      unfold forInt
      rw [if_pos hh, hb2]
      rfl
    · intro x y hx hy
      by_cases hxX : x = X
      · rw [hxX]; exact hp2 y hy
      · have hlt : x < X := by omega
        obtain ⟨q0, q1, q2, q3⟩ := hp1 x y hlt hy
        have hne : ∀ v, v < h → y * L.length + x ≠ v * L.length + X := by
          intro v _ heq
          exact hxX (index_injective L.length x y X v (by omega) (by omega) heq).1
        unfold pixelIs
        rw [hu2 _ (fun v hv => by have := hne v hv; rw [hC]; omega),
          hu2 _ (fun v hv => by have := hne v hv; rw [hC]; omega),
          hu2 _ (fun v hv => by have := hne v hv; rw [hC]; omega),
          hu2 _ (fun v hv => by have := hne v hv; rw [hC]; omega)]
        exact ⟨q0, q1, q2, q3⟩

/-- The buffer `saveBarcode` builds when the sizes fit: `n * h * 4` bytes, the four bytes
of pixel `(x, y)` at offset `(y * n + x) * 4` being the channels of colour `x`. -/
theorem saveBarcode_spec (L : List RGBA) (h : Nat) (hne : L ≠ [])
    (hn : L.length < 2 ^ 31) (hsize : L.length * h * CHANNELS < 2 ^ 31) :
    ∃ pixels, saveBarcode L h = BarcodeResult.image L.length h pixels ∧
      pixels.length = L.length * h * CHANNELS ∧
      ∀ x y, x < L.length → y < h →
        pixelIs pixels (y * L.length + x) (L.getD x { r := 0, g := 0, b := 0, a := 0 }) := by
  have hC : CHANNELS = 4 := rfl
  have hpos : 0 < L.length := List.length_pos.mpr hne
  have hh : h < 2 ^ 31 := by
    have : h ≤ L.length * h := Nat.le_mul_of_pos_left h hpos
    rw [hC] at hsize
    omega
  have hw : L.length % 2 ^ 32 = L.length := Nat.mod_eq_of_lt (by omega)
  have hs : L.length * h * CHANNELS % 2 ^ 32 = L.length * h * CHANNELS :=
    Nat.mod_eq_of_lt (by omega)
  obtain ⟨buf2, hb2, hl2, hp2⟩ := barcode_columns L h hh L.length (le_refl _)
    (List.replicate (L.length * h * CHANNELS) 0) (by simp) (by simpa using hsize)
  refine ⟨buf2, ?_, by simpa using hl2, fun x y hx hy => hp2 x y hx hy⟩
  unfold saveBarcode
  have hemp : L.isEmpty = false := by
    cases L with
    | nil => exact absurd rfl hne
    | cons a l => rfl
  rw [hemp, hw, hs]
  simp only [Bool.false_eq_true, if_false]
  rw [forInt_eq L.length _ _ hn, hb2]

/-- C19, the code at the failing input. For one frame colour and the stripe height
`2^30`, the size `1 * 2^30 * 4` wraps to 0 in `unsigned int`: the buffer built is empty,
not `2^32` bytes, and the first assignment `outputPixels[0]` is out of bounds. Whenever
`n * h * 4` is below `2^31` the buffer is as the claim says: `n * h * 4` bytes, the four
bytes at offset `(y * n + x) * 4` being the r, g, b, a of colour `x`; and for the empty
list nothing is built. -/
theorem saveBarcode_failing_input :
    saveBarcode [{ r := 10, g := 20, b := 30, a := 255 }] 1073741824
      = BarcodeResult.undefined ∧
    1 * 1073741824 * CHANNELS % 2 ^ 32 = 0 ∧
    saveBarcode [{ r := 1, g := 2, b := 3, a := 4 }, { r := 5, g := 6, b := 7, a := 8 }] 2
      = BarcodeResult.image 2 2 [1, 2, 3, 4, 5, 6, 7, 8, 1, 2, 3, 4, 5, 6, 7, 8] ∧
    (∀ (L : List RGBA) (h : Nat), L ≠ [] → L.length < 2 ^ 31 →
      L.length * h * CHANNELS < 2 ^ 31 →
      ∃ pixels, saveBarcode L h = BarcodeResult.image L.length h pixels ∧
        pixels.length = L.length * h * CHANNELS ∧
        ∀ x y, x < L.length → y < h →
          pixelIs pixels (y * L.length + x)
            (L.getD x { r := 0, g := 0, b := 0, a := 0 })) ∧
    (∀ h : Nat, saveBarcode [] h = BarcodeResult.nothing) :=
  ⟨saveBarcode_wrapped _ 1073741824 (by decide) (by decide) (by decide), by decide,
    by decide, fun L h hne hn hsize => saveBarcode_spec L h hne hn hsize, fun _ => rfl⟩

/-! ## The matrix multiply on the host -/

theorem intMul_eq (a b : Nat) (h : a * b < 2 ^ 31) : intMul a b = some (a * b) := by
  unfold intMul
  rw [if_pos h]

theorem getD_set_zero {R : Type} [Zero R] (l : List R) (i j : Nat) (v : R) :
    (l.set i v).getD j 0 = if i = j ∧ i < l.length then v else l.getD j 0 := by
  simp only [List.getD_eq_getElem?_getD, List.getElem?_set]
  by_cases hij : i = j
  · subst hij
    by_cases hlt : i < l.length
    · simp [hlt]
    · simp [hlt, List.getElem?_eq_none (Nat.le_of_not_lt hlt)]
  · simp [hij]

theorem set_getD_self {R : Type} [Zero R] (l : List R) (i : Nat) :
    l.set i (l.getD i 0) = l := by
  apply List.ext_getElem?
  intro n
  rw [List.getElem?_set]
  by_cases hin : i = n
  · subst hin
    by_cases hlt : i < l.length
    · simp [hlt, List.getD_eq_getElem?_getD, List.getElem?_eq_getElem hlt]
    · simp [hlt, List.getElem?_eq_none (Nat.le_of_not_lt hlt)]
  · simp [hin]

theorem dotFrom_succ {R : Type} [Add R] [Mul R] [Zero R] (N : Nat) (a b : List R)
    (i j m : Nat) (init : R) :
    dotFrom N a b i j (m + 1) init
      = dotFrom N a b i j m init + a.getD (i * N + m) 0 * b.getD (m * N + j) 0 := by
  unfold dotFrom
  rw [List.range_succ, List.foldl_append]
  rfl

/-- The sum accumulated from 0 in increasing `k` is the sum of the products. -/
theorem dotFrom_eq_sum {R : Type} [Semiring R] (N : Nat) (a b : List R) (i j m : Nat) :
    dotFrom N a b i j m 0
      = Finset.sum (Finset.range m) (fun k => a.getD (i * N + k) 0 * b.getD (k * N + j) 0) := by
  induction m with
  | zero => simp [dotFrom]
  | succ m ih => rw [dotFrom_succ, ih, Finset.sum_range_succ]

/-- One pass of the innermost body, in bounds. -/
theorem multiplyAccumulate_eq {R : Type} [Add R] [Mul R] [Zero R] (N i j k : Nat)
    (st : MatState R) (hN : N * N < 2 ^ 31) (hi : i < N) (hj : j < N) (hk : k < N)
    (hr : st.result.length = N * N) (ha : st.a.length = N * N) (hb : st.b.length = N * N) :
    multiplyAccumulate N i j k st
      = some ⟨st.result.set (i * N + j)
          (st.result.getD (i * N + j) 0 + st.a.getD (i * N + k) 0 * st.b.getD (k * N + j) 0),
          st.a, st.b⟩ := by
  have h1 := index_lt N N j i hj hi
  have h2 := index_lt N N k i hk hi
  have h3 := index_lt N N j k hj hk
  unfold multiplyAccumulate
  rw [Nat.mod_eq_of_lt (by omega : i * N + j < 2 ^ 32),
    Nat.mod_eq_of_lt (by omega : i * N + k < 2 ^ 32),
    Nat.mod_eq_of_lt (by omega : k * N + j < 2 ^ 32)]
  rw [if_pos ⟨by omega, by omega, by omega⟩]

/-- The loop on `k`, run `m` times on the cell `(i, j)`. -/
theorem innerLoop_eq {R : Type} [Add R] [Mul R] [Zero R] (N i j m : Nat) (st : MatState R)
    (hN : N * N < 2 ^ 31) (hi : i < N) (hj : j < N) (hm : m ≤ N)
    (hr : st.result.length = N * N) (ha : st.a.length = N * N) (hb : st.b.length = N * N) :
    (List.range m).foldlM (fun st k => multiplyAccumulate N i j k st) st
      = some ⟨st.result.set (i * N + j)
          (dotFrom N st.a st.b i j m (st.result.getD (i * N + j) 0)), st.a, st.b⟩ := by
  have h1 := index_lt N N j i hj hi
  induction m with
  | zero =>
    have h0 : dotFrom N st.a st.b i j 0 (st.result.getD (i * N + j) 0)
        = st.result.getD (i * N + j) 0 := rfl
    rw [h0, set_getD_self]
    rfl
  | succ m ih =>
    rw [List.range_succ, List.foldlM_append, ih (by omega)]
    simp only [List.foldlM_cons, List.foldlM_nil, Option.some_bind, Option.bind_eq_bind]
    rw [multiplyAccumulate_eq N i j m
      ⟨st.result.set (i * N + j) (dotFrom N st.a st.b i j m (st.result.getD (i * N + j) 0)),
        st.a, st.b⟩ hN hi hj (by omega)
      (by simp only [List.length_set]; exact hr) ha hb]
    simp only [getD_set_zero, List.set_set, dotFrom_succ]
    rw [if_pos ⟨trivial, by omega⟩]
    rfl

/-- The loop on `j`, run `m` times on row `i`: the first `m` cells of the row have received
their `N` products, every other cell is as before, `a` and `b` are as before. -/
theorem rowLoop_spec {R : Type} [Add R] [Mul R] [Zero R] (N i m : Nat) (st : MatState R)
    (hN : N * N < 2 ^ 31) (hi : i < N) (hm : m ≤ N)
    (hr : st.result.length = N * N) (ha : st.a.length = N * N) (hb : st.b.length = N * N) :
    ∃ st2, (List.range m).foldlM (fun st j =>
        (List.range N).foldlM (fun st k => multiplyAccumulate N i j k st) st) st = some st2 ∧
      st2.a = st.a ∧ st2.b = st.b ∧ st2.result.length = N * N ∧
      (∀ j, j < m → st2.result.getD (i * N + j) 0
        = dotFrom N st.a st.b i j N (st.result.getD (i * N + j) 0)) ∧
      (∀ idx, (∀ j, j < m → idx ≠ i * N + j) →
        st2.result.getD idx 0 = st.result.getD idx 0) := by
  induction m with
  | zero =>
    exact ⟨st, rfl, rfl, rfl, hr, fun j hj => absurd hj (Nat.not_lt_zero j), fun _ _ => rfl⟩
  | succ m ih =>
    obtain ⟨st1, hrun, ha1, hb1, hr1, hdone, hrest⟩ := ih (by omega)
    have hmN : m < N := by omega
    have h1 := index_lt N N m i hmN hi
    rw [List.range_succ, List.foldlM_append, hrun]
    simp only [List.foldlM_cons, List.foldlM_nil, Option.some_bind, Option.bind_eq_bind]
    rw [innerLoop_eq N i m N st1 hN hi hmN (Nat.le_refl N) hr1 (ha1 ▸ ha) (hb1 ▸ hb)]
    refine ⟨_, rfl, ha1, hb1, ?_, ?_, ?_⟩
    · simp only [List.length_set]
      exact hr1
    · intro j hj
      simp only [getD_set_zero]
      by_cases hjm : j = m
      · subst hjm
        rw [if_pos ⟨rfl, by omega⟩, ha1, hb1, hrest (i * N + j)]
        intro j2 hj2 heq
        have := (index_injective N j i j2 i (by omega) (by omega) heq).1
        omega
      · rw [if_neg, hdone j (by omega)]
        rintro ⟨heq, _⟩
        exact hjm (index_injective N m i j i hmN (by omega) heq).1.symm
    · intro idx hidx
      simp only [getD_set_zero]
      rw [if_neg, hrest idx (fun j hj => hidx j (by omega))]
      rintro ⟨heq, _⟩
      exact hidx m (by omega) heq.symm

/-- The loop on `i`, run `m` times: the cells of the first `m` rows have received their `N`
products, every other cell is as before, `a` and `b` are as before. -/
theorem matLoop_spec {R : Type} [Add R] [Mul R] [Zero R] (N m : Nat) (st : MatState R)
    (hN : N * N < 2 ^ 31) (hm : m ≤ N)
    (hr : st.result.length = N * N) (ha : st.a.length = N * N) (hb : st.b.length = N * N) :
    ∃ st2, (List.range m).foldlM (fun st i =>
        (List.range N).foldlM (fun st j =>
          (List.range N).foldlM (fun st k => multiplyAccumulate N i j k st) st) st) st
          = some st2 ∧
      st2.a = st.a ∧ st2.b = st.b ∧ st2.result.length = N * N ∧
      (∀ i j, i < m → j < N → st2.result.getD (i * N + j) 0
        = dotFrom N st.a st.b i j N (st.result.getD (i * N + j) 0)) ∧
      (∀ idx, (∀ i j, i < m → j < N → idx ≠ i * N + j) →
        st2.result.getD idx 0 = st.result.getD idx 0) := by
  induction m with
  | zero =>
    exact ⟨st, rfl, rfl, rfl, hr, fun i j hi => absurd hi (Nat.not_lt_zero i),
      fun _ _ => rfl⟩
  | succ m ih =>
    obtain ⟨st1, hrun, ha1, hb1, hr1, hdone, hrest⟩ := ih (by omega)
    have hmN : m < N := by omega
    rw [List.range_succ, List.foldlM_append, hrun]
    simp only [List.foldlM_cons, List.foldlM_nil, Option.some_bind, Option.bind_eq_bind]
    obtain ⟨st2, hrow, ha2, hb2, hr2, hdone2, hrest2⟩ :=
      rowLoop_spec N m N st1 hN hmN (Nat.le_refl N) hr1 (ha1 ▸ ha) (hb1 ▸ hb)
    rw [hrow]
    refine ⟨st2, rfl, ha2.trans ha1, hb2.trans hb1, hr2, ?_, ?_⟩
    · intro i j hi hj
      by_cases him : i = m
      · subst him
        rw [hdone2 j hj, ha1, hb1, hrest (i * N + j)]
        intro i2 j2 hi2 hj2 heq
        have := (index_injective N j i j2 i2 hj hj2 heq).2
        omega
      · rw [hrest2 (i * N + j), hdone i j (by omega) hj]
        intro j2 hj2 heq
        exact him (index_injective N j i j2 m hj hj2 heq).2
    · intro idx hidx
      rw [hrest2 idx (fun j hj => hidx m j (by omega) hj),
        hrest idx (fun i j hi hj => hidx i j (by omega) hj)]

/-- The whole function on two vectors of `N * N` entries: it returns, the vector has
`N * N` entries, the entry `(i, j)` is the sum accumulated from 0 in increasing `k`, and `a`
and `b` are as they were. -/
theorem matMultiplicationCPU_fold {R : Type} [Add R] [Mul R] [Zero R] (N : Nat)
    (a b : List R) (hN : N * N < 2 ^ 31) (ha : a.length = N * N) (hb : b.length = N * N) :
    ∃ st, matMultiplicationCPU N a b = some st ∧ st.result.length = N * N ∧
      (∀ i j, i < N → j < N → st.result.getD (i * N + j) 0 = dotFrom N a b i j N 0) ∧
      st.a = a ∧ st.b = b := by
  obtain ⟨st, hrun, ha2, hb2, hr2, hdone, _⟩ :=
    matLoop_spec N N ⟨List.replicate (N * N) (0 : R), a, b⟩ hN (Nat.le_refl N)
      (List.length_replicate _ _) ha hb
  refine ⟨st, ?_, hr2, ?_, ha2, hb2⟩
  · unfold matMultiplicationCPU
    rw [intMul_eq N N hN]
    exact hrun
  · intro i j hi hj
    rw [hdone i j hi hj]
    have h0 : (List.replicate (N * N) (0 : R)).getD (i * N + j) 0 = 0 := by
      simp only [List.getD_eq_getElem?_getD, List.getElem?_replicate]
      split_ifs <;> rfl
    rw [h0]

/-- C21 (CPU matrix multiply). For a dimension `N` whose square fits `int` and two vectors
`a`, `b` of `N * N` entries over exact arithmetic (any semiring), `matMultiplicationCPU`
returns; the vector returned has `N * N` entries; for all `i, j < N` its entry `i * N + j`
is the sum of `a[i * N + k] * b[k * N + j]` accumulated from 0 in increasing `k` over
`k = 0 .. N - 1`, which is the sum of these products; `a` and `b` are unchanged. -/
theorem matrix_multiply {R : Type} [Semiring R] (N : Nat) (a b : List R)
    (hN : N * N < 2 ^ 31) (ha : a.length = N * N) (hb : b.length = N * N) :
    ∃ st, matMultiplicationCPU N a b = some st ∧ st.result.length = N * N ∧
      (∀ i j, i < N → j < N →
        st.result.getD (i * N + j) 0
          = (List.range N).foldl
              (fun acc k => acc + a.getD (i * N + k) 0 * b.getD (k * N + j) 0) 0 ∧
        st.result.getD (i * N + j) 0
          = Finset.sum (Finset.range N)
              (fun k => a.getD (i * N + k) 0 * b.getD (k * N + j) 0)) ∧
      st.a = a ∧ st.b = b := by
  obtain ⟨st, hrun, hlen, hcell, ha2, hb2⟩ := matMultiplicationCPU_fold N a b hN ha hb
  refine ⟨st, hrun, hlen, fun i j hi hj => ⟨?_, ?_⟩, ha2, hb2⟩
  · rw [hcell i j hi hj]
    rfl
  · rw [hcell i j hi hj, dotFrom_eq_sum]

/-- C21 at the matrices `[1, 2; 3, 4]` and `[5, 6; 7, 8]` over the rationals. -/
theorem matrix_multiply_witness :
    2 * 2 < 2 ^ 31 ∧ ([1, 2, 3, 4] : List ℚ).length = 2 * 2 ∧
    ([5, 6, 7, 8] : List ℚ).length = 2 * 2 ∧
    ∃ st, matMultiplicationCPU 2 ([1, 2, 3, 4] : List ℚ) [5, 6, 7, 8] = some st ∧
      st.result.length = 2 * 2 ∧
      (∀ i j, i < 2 → j < 2 →
        st.result.getD (i * 2 + j) 0
          = (List.range 2).foldl
              (fun acc k => acc + ([1, 2, 3, 4] : List ℚ).getD (i * 2 + k) 0
                * ([5, 6, 7, 8] : List ℚ).getD (k * 2 + j) 0) 0 ∧
        st.result.getD (i * 2 + j) 0
          = Finset.sum (Finset.range 2)
              (fun k => ([1, 2, 3, 4] : List ℚ).getD (i * 2 + k) 0
                * ([5, 6, 7, 8] : List ℚ).getD (k * 2 + j) 0)) ∧
      st.a = [1, 2, 3, 4] ∧ st.b = [5, 6, 7, 8] :=
  ⟨by decide, rfl, rfl, matrix_multiply 2 [1, 2, 3, 4] [5, 6, 7, 8] (by decide) rfl rfl⟩

/-! ## The zoom of the fractal viewer -/

/-- The wheel event on a window of non-zero width, written out. -/
theorem handleMouseWheel_eq (mouseX mouseY : ℚ) (w h : Int) (wheelY : ℚ) (p : FractalParams)
    (hw : w ≠ 0) :
    handleMouseWheel mouseX mouseY w h wheelY p
      = some ⟨p.first,
          p.offsetX + (mouseX - (w : ℚ) / 2) * p.zoom / (w : ℚ)
            - (mouseX - (w : ℚ) / 2)
              * (if wheelY > 0 then p.zoom * zoomFactor
                  else if wheelY < 0 then p.zoom / zoomFactor else p.zoom) / (w : ℚ),
          p.offsetY - (mouseY - (h : ℚ) / 2) * p.zoom / (w : ℚ)
            + (mouseY - (h : ℚ) / 2)
              * (if wheelY > 0 then p.zoom * zoomFactor
                  else if wheelY < 0 then p.zoom / zoomFactor else p.zoom) / (w : ℚ),
          if wheelY > 0 then p.zoom * zoomFactor
            else if wheelY < 0 then p.zoom / zoomFactor else p.zoom⟩ := by
  unfold handleMouseWheel
  rw [if_neg hw]

/-- C22 (zoom about the cursor). Over exact arithmetic, for every mouse position, window
width `w > 0`, height `h`, wheel value, offset and zoom, one mouse-wheel event is handled
and leaves the point of the complex plane under the cursor where it was:
`offset.x + (mouseX - w/2) * zoom / w` and `offset.y - (mouseY - h/2) * zoom / w` have the
same value before and after, the new zoom being `0.9 * zoom` for `wheel.y > 0`,
`zoom / 0.9` for `wheel.y < 0` and `zoom` otherwise; the first field is unchanged. -/
theorem zoom_about_cursor (mouseX mouseY : ℚ) (w h : Int) (wheelY : ℚ) (p : FractalParams)
    (hw : 0 < w) :
    ∃ q, handleMouseWheel mouseX mouseY w h wheelY p = some q ∧
      q.offsetX + (mouseX - (w : ℚ) / 2) * q.zoom / (w : ℚ)
        = p.offsetX + (mouseX - (w : ℚ) / 2) * p.zoom / (w : ℚ) ∧
      q.offsetY - (mouseY - (h : ℚ) / 2) * q.zoom / (w : ℚ)
        = p.offsetY - (mouseY - (h : ℚ) / 2) * p.zoom / (w : ℚ) ∧
      q.zoom = (if wheelY > 0 then (9 / 10 : ℚ) * p.zoom
        else if wheelY < 0 then p.zoom / (9 / 10 : ℚ) else p.zoom) ∧
      q.first = p.first := by
  refine ⟨_, handleMouseWheel_eq mouseX mouseY w h wheelY p (by omega), ?_, ?_, ?_, rfl⟩
  · exact sub_add_cancel _ _
  · exact add_sub_cancel_right _ _
  · show (if wheelY > 0 then p.zoom * zoomFactor
        else if wheelY < 0 then p.zoom / zoomFactor else p.zoom) = _
    unfold zoomFactor
    rw [mul_comm p.zoom]

/-- C22 on the window of 800 by 600 with the cursor at (100, 50), one notch up, from the
parameters of line 226. -/
theorem zoom_about_cursor_witness :
    (0 : Int) < 800 ∧
    ∃ q, handleMouseWheel 100 50 800 600 1 ⟨256, 0, 0, 4⟩ = some q ∧
      q.offsetX + ((100 : ℚ) - ((800 : Int) : ℚ) / 2) * q.zoom / ((800 : Int) : ℚ)
        = (⟨256, 0, 0, 4⟩ : FractalParams).offsetX
          + ((100 : ℚ) - ((800 : Int) : ℚ) / 2) * (⟨256, 0, 0, 4⟩ : FractalParams).zoom
            / ((800 : Int) : ℚ) ∧
      q.offsetY - ((50 : ℚ) - ((600 : Int) : ℚ) / 2) * q.zoom / ((800 : Int) : ℚ)
        = (⟨256, 0, 0, 4⟩ : FractalParams).offsetY
          - ((50 : ℚ) - ((600 : Int) : ℚ) / 2) * (⟨256, 0, 0, 4⟩ : FractalParams).zoom
            / ((800 : Int) : ℚ) ∧
      q.zoom = (if (1 : ℚ) > 0 then (9 / 10 : ℚ) * (⟨256, 0, 0, 4⟩ : FractalParams).zoom
        else if (1 : ℚ) < 0 then (⟨256, 0, 0, 4⟩ : FractalParams).zoom / (9 / 10 : ℚ)
        else (⟨256, 0, 0, 4⟩ : FractalParams).zoom) ∧
      q.first = (⟨256, 0, 0, 4⟩ : FractalParams).first :=
  ⟨by decide, zoom_about_cursor 100 50 800 600 1 ⟨256, 0, 0, 4⟩ (by decide)⟩

end Repousse
